import Mathlib

/-!
# vtkInteractiveChartXYZ: transform stack, clipping planes, point classifier, fit search

A shallow embedding of `Charts/Core/vtkInteractiveChartXYZ.cxx`.

Numbers: the C++ `float`/`double` values are elements of an arbitrary linearly ordered
field `K` (exact arithmetic, no rounding); every definition is executable at `K = ℚ`
and every theorem also holds at `K = ℝ`.  The two irrational constants of the source,
`pow(2.0f, 1.0f/10.0f)` and `sqrt(0.75)`, are values of `K` handed to the functions
that use them.  C++ `int` scene sizes are `Int`.
-/

namespace VTK

/-- Modelled from the spec: `vtkVector2f` (declared outside src/), a 2D screen-space point. -/
@[ext] structure vtkVector2 (K : Type) where
  X : K
  Y : K

/-- Modelled from the spec: `vtkVector3f` / `vtkVector3d` (declared outside src/) and
`double[3]`, a 3D position. -/
@[ext] structure vtkVector3 (K : Type) where
  X : K
  Y : K
  Z : K

/-- Modelled from the spec: `vtkMatrix4x4` (declared outside src/), a 4x4 matrix. -/
abbrev vtkMatrix4x4 (K : Type) := Matrix (Fin 4) (Fin 4) K

/-- Modelled from the spec: `vtkRectf` (declared outside src/), the geometry rectangle;
only its origin is read by this class. -/
structure vtkRectf (K : Type) where
  X : K
  Y : K
  Width : K
  Height : K

/-- Modelled from the spec: `vtkAxis` (declared outside src/), an axis descriptor with a
2D screen-space start point and end point. -/
structure vtkAxis (K : Type) where
  Position1 : vtkVector2 K
  Position2 : vtkVector2 K

/-- Modelled from the spec: `vtkContextScene` (declared outside src/), the canvas: its
width, its height and its dirty mark. -/
structure vtkContextScene where
  SceneWidth : Int
  SceneHeight : Int
  Dirty : Bool

/-- Modelled from the spec: `vtkPlane` (declared outside src/), an (origin, normal) pair;
the normal is stored as `SetNormal` receives it. -/
structure vtkPlane (K : Type) where
  Normal : vtkVector3 K
  Origin : vtkVector3 K

/-- Modelled from the spec: `vtkTransform` (declared outside src/), a 4x4 matrix with an
explicit composition order: `PreMultiplyFlag` is true for a fresh transform and false
after `PostMultiply()`. -/
structure vtkTransform (K : Type) where
  Matrix : vtkMatrix4x4 K
  PreMultiplyFlag : Bool

/-- Modelled from the spec: `vtkVector2i` (declared outside src/), an integer screen
position. -/
structure vtkVector2i where
  X : Int
  Y : Int

/-- Modelled from the spec: `vtkContextMouseEvent` (declared outside src/): the button
identifier, the modifier set, and the current and previous screen position. -/
structure vtkContextMouseEvent where
  Button : Int
  Modifiers : Int
  ScreenPos : vtkVector2i
  LastScreenPos : vtkVector2i

/-- Modelled from the spec: the selection list of a `vtkSelectionNode` (a `vtkIdTypeArray`,
declared outside src/): the selected row indices and the modification timestamp of the
array. -/
structure vtkIdTypeArray where
  Values : List Nat
  MTime : Nat

/-- Modelled from the spec: the external selection `vtkSelection` (declared outside src/)
that the annotation link delivers: its nodes, each given by its selection list. -/
structure vtkSelection where
  Nodes : List vtkIdTypeArray

/-- Modelled from the spec: the tabular data source `vtkTable` (declared outside src/) as
the chart reads it: one 3D position per row from the three named columns, and component 0
of the colour column. -/
structure vtkTable (K : Type) where
  Rows : List (vtkVector3 K)
  ColorColumn : List K

/-- Modelled from the spec: the values of the C math library calls of the camera
controller (declared outside src/): `cos` and `sin` of an angle given in degrees,
`vtkMath::DegreesFromRadians(atan2(y, x))`, and `pow(4.0f, x)`. -/
structure CMath (K : Type) where
  cosDegrees : K → K
  sinDegrees : K → K
  atan2Degrees : K → K → K
  pow4 : K → K

section Defs

variable {K : Type} [LinearOrderedField K]

namespace vtkVector3

/-- Modelled from the spec: `operator-` of vtkVectorOperators.h (outside src/), the
component-wise difference. -/
def sub (a b : vtkVector3 K) : vtkVector3 K := ⟨a.X - b.X, a.Y - b.Y, a.Z - b.Z⟩

/-- Modelled from the spec: `operator*` of vtkVectorOperators.h (outside src/), the scalar
multiple. -/
def smul (s : K) (a : vtkVector3 K) : vtkVector3 K := ⟨s * a.X, s * a.Y, s * a.Z⟩

/-- Modelled from the spec: the dot product of two vectors, used by the plane function. -/
def dot (a b : vtkVector3 K) : K := a.X * b.X + a.Y * b.Y + a.Z * b.Z

end vtkVector3

/-- Modelled from the spec: `vtkMath::Cross(a, b, c)` (outside src/), the cross product
`c = a × b` of two edge vectors. -/
def Cross (a b : vtkVector3 K) : vtkVector3 K :=
  ⟨a.Y * b.Z - a.Z * b.Y, a.Z * b.X - a.X * b.Z, a.X * b.Y - a.Y * b.X⟩

/-- Modelled from the spec: the matrix that `vtkTransform::Translate(x, y, z)` composes. -/
def TranslateMatrix (x y z : K) : vtkMatrix4x4 K :=
  !![1, 0, 0, x; 0, 1, 0, y; 0, 0, 1, z; 0, 0, 0, 1]

/-- Modelled from the spec: the matrix that `vtkTransform::Scale(x, y, z)` composes. -/
def ScaleMatrix (x y z : K) : vtkMatrix4x4 K :=
  !![x, 0, 0, 0; 0, y, 0, 0; 0, 0, z, 0; 0, 0, 0, 1]

namespace vtkTransform

/-- Modelled from the spec: `vtkTransform::Identity` (outside src/), the identity reset;
the composition mode is kept. -/
def Identity (t : vtkTransform K) : vtkTransform K := { t with Matrix := 1 }

/-- Modelled from the spec: `vtkTransform::PostMultiply` (outside src/). -/
def PostMultiply (t : vtkTransform K) : vtkTransform K := { t with PreMultiplyFlag := false }

/-- Modelled from the spec: `vtkTransform::Concatenate` (outside src/).  In pre-multiply
mode the new matrix goes on the right of the current one, so that the products of §4.1
read in call order; in post-multiply mode it goes on the left, so that the operations
apply to a point in call order. -/
def Concatenate (t : vtkTransform K) (m : vtkMatrix4x4 K) : vtkTransform K :=
  { t with Matrix := if t.PreMultiplyFlag then t.Matrix * m else m * t.Matrix }

/-- Modelled from the spec: `vtkTransform::Translate` (outside src/). -/
def Translate (t : vtkTransform K) (x y z : K) : vtkTransform K :=
  t.Concatenate (TranslateMatrix x y z)

/-- Modelled from the spec: `vtkTransform::Scale` (outside src/). -/
def Scale (t : vtkTransform K) (x y z : K) : vtkTransform K :=
  t.Concatenate (ScaleMatrix x y z)

end vtkTransform

/-- Modelled from the spec: the matrix that `vtkTransform::RotateX` composes, the rotation
about X by an angle of cosine `c` and sine `s`. -/
def RotateXMatrix (c s : K) : vtkMatrix4x4 K :=
  !![1, 0, 0, 0; 0, c, -s, 0; 0, s, c, 0; 0, 0, 0, 1]

/-- Modelled from the spec: the matrix that `vtkTransform::RotateY` composes, the rotation
about Y by an angle of cosine `c` and sine `s`. -/
def RotateYMatrix (c s : K) : vtkMatrix4x4 K :=
  !![c, 0, s, 0; 0, 1, 0, 0; -s, 0, c, 0; 0, 0, 0, 1]

/-- Modelled from the spec: the matrix that `vtkTransform::RotateZ` composes, the rotation
about Z by an angle of cosine `c` and sine `s`. -/
def RotateZMatrix (c s : K) : vtkMatrix4x4 K :=
  !![c, -s, 0, 0; s, c, 0, 0; 0, 0, 1, 0; 0, 0, 0, 1]

/-- Modelled from the spec: `vtkTransform::RotateX` (outside src/), the local-frame rotation
about X by `angle` degrees; an angle of zero leaves the transform as it is. -/
def vtkTransform.RotateX (m : CMath K) (t : vtkTransform K) (angle : K) : vtkTransform K :=
  if angle = 0 then t
  else t.Concatenate (RotateXMatrix (m.cosDegrees angle) (m.sinDegrees angle))

/-- Modelled from the spec: `vtkTransform::RotateY` (outside src/), the local-frame rotation
about Y by `angle` degrees; an angle of zero leaves the transform as it is. -/
def vtkTransform.RotateY (m : CMath K) (t : vtkTransform K) (angle : K) : vtkTransform K :=
  if angle = 0 then t
  else t.Concatenate (RotateYMatrix (m.cosDegrees angle) (m.sinDegrees angle))

/-- Modelled from the spec: `vtkTransform::RotateZ` (outside src/), the local-frame rotation
about Z by `angle` degrees; an angle of zero leaves the transform as it is. -/
def vtkTransform.RotateZ (m : CMath K) (t : vtkTransform K) (angle : K) : vtkTransform K :=
  if angle = 0 then t
  else t.Concatenate (RotateZMatrix (m.cosDegrees angle) (m.sinDegrees angle))

/-- Modelled from the spec: the button identifier `vtkContextMouseEvent::LEFT_BUTTON`. -/
def vtkContextMouseEvent.LEFT_BUTTON : Int := 1

/-- Modelled from the spec: the button identifier `vtkContextMouseEvent::RIGHT_BUTTON`. -/
def vtkContextMouseEvent.RIGHT_BUTTON : Int := 4

/-- Modelled from the spec: the modifier value `vtkContextMouseEvent::SHIFT_MODIFIER`. -/
def vtkContextMouseEvent.SHIFT_MODIFIER : Int := 2

/-- Modelled from the spec: `vtkLinearTransform::TransformPoint` (outside src/), the point
map of an affine transform: the upper three rows of the matrix applied to `(x, y, z, 1)`. -/
def TransformPoint (m : vtkMatrix4x4 K) (p : vtkVector3 K) : vtkVector3 K :=
  ⟨m 0 0 * p.X + m 0 1 * p.Y + m 0 2 * p.Z + m 0 3,
   m 1 0 * p.X + m 1 1 * p.Y + m 1 2 * p.Z + m 1 3,
   m 2 0 * p.X + m 2 1 * p.Y + m 2 2 * p.Z + m 2 3⟩

/-- Modelled from the spec: `vtkPlane::DistanceToPlane` is declared outside src/.  The
distance of §4.3/§4.4 is the magnitude `|n · (x − o)|` of the plane function, with the
normal as stored (the cross product of two box edges, not normalised).  This is the
reading under which the scenario of §8 (identity transforms, every point of the unit
cube kept) holds: without the magnitude the plane function of a point inside the box
already exceeds its value at the far corner (`plane_function_exceeds_at_inner_point`). -/
def vtkPlane.DistanceToPlane (pl : vtkPlane K) (x : vtkVector3 K) : K :=
  |pl.Normal.dot (x.sub pl.Origin)|

/-- A matrix is affine when its last row is `(0, 0, 0, 1)`, as is every matrix that a
`vtkTransform` builds from translations, scalings and rotations. -/
def IsAffine (m : vtkMatrix4x4 K) : Prop :=
  m 3 0 = 0 ∧ m 3 1 = 0 ∧ m 3 2 = 0 ∧ m 3 3 = 1

/-- A matrix has no translation part when its last column is `(0, 0, 0, 1)`. -/
def HasNoTranslation (m : vtkMatrix4x4 K) : Prop :=
  m 0 3 = 0 ∧ m 1 3 = 0 ∧ m 2 3 = 0 ∧ m 3 3 = 1

/-- The object state of a `vtkInteractiveChartXYZ` (own members and the inherited
`vtkChartXYZ` members that the methods below read or write). -/
structure vtkInteractiveChartXYZ (K : Type) where
  /-- The pan primitive. -/
  Translation : vtkTransform K
  /-- The rotation primitive. -/
  Rotation : vtkTransform K
  /-- The data-point scale primitive. -/
  Scale : vtkTransform K
  /-- The axis-box scale primitive. -/
  BoxScale : vtkTransform K
  /-- The data-to-device transform computed by the superclass. -/
  Transform : vtkTransform K
  /-- The composite transform applied to the data points. -/
  ContextTransform : vtkTransform K
  /-- The transform of the axis box. -/
  Box : vtkTransform K
  /-- The working copy of `BoxScale` used by the fit search. -/
  FutureBoxScale : vtkTransform K
  /-- The axis extent lengths captured by `InitializeFutureBox` (argument of `FutureBox->Scale`). -/
  FutureBoxExtent : vtkVector3 K
  /-- The axis origin captured by `InitializeFutureBox` (argument of the last `FutureBox->Translate`). -/
  FutureBoxOrigin : vtkVector3 K
  /-- The three axes `axes[0]`, `axes[1]`, `axes[2]`. -/
  axes : Fin 3 → vtkAxis K
  /-- The chart geometry rectangle. -/
  Geometry : vtkRectf K
  Face1 : vtkPlane K
  Face2 : vtkPlane K
  Face3 : vtkPlane K
  Face4 : vtkPlane K
  Face5 : vtkPlane K
  Face6 : vtkPlane K
  MaxDistance : K
  /-- The data points. -/
  points : List (vtkVector3 K)
  /-- The colour table, one `unsigned char` per entry. -/
  Colors : List Nat
  NumberOfComponents : Nat
  clipped_points : List (vtkVector3 K)
  ClippedColors : List Nat
  /-- The fourteen sentinel points filled by `InitializeAxesBoundaryPoints`. -/
  AxesBoundaryPoints : List (vtkVector3 K)
  /-- The recorded scene width. -/
  SceneWidth : Int
  /-- The recorded scene height. -/
  SceneHeight : Int
  /-- The scene the chart lives in. -/
  Scene : vtkContextScene
  /-- The number of `InvokeEvent(vtkCommand::InteractionEvent)` calls made so far. -/
  InteractionEvents : Nat
  /-- The output selection of the annotation link `Link`, when a link is set. -/
  Link : Option vtkSelection
  /-- The cached positions of the selected rows. -/
  selectedPoints : List (vtkVector3 K)
  /-- The timestamp of the last build of `selectedPoints`. -/
  selectedPointsBuidTime : Nat
  /-- The modification time `GetMTime()` of the chart itself. -/
  MTime : Nat
  /-- The counter from which `vtkTimeStamp::Modified()` draws the next timestamp. -/
  TimeStampCounter : Nat
  XAxisLabel : String
  YAxisLabel : String
  ZAxisLabel : String

namespace vtkInteractiveChartXYZ

/-- The eight corners `cube[0..7]` of the unit cube, in the order of the source. -/
def cube (i : Fin 8) : vtkVector3 K :=
  match i with
  | 0 => ⟨0, 0, 0⟩
  | 1 => ⟨0, 0, 1⟩
  | 2 => ⟨0, 1, 0⟩
  | 3 => ⟨0, 1, 1⟩
  | 4 => ⟨1, 0, 0⟩
  | 5 => ⟨1, 0, 1⟩
  | 6 => ⟨1, 1, 0⟩
  | 7 => ⟨1, 1, 1⟩

/-- The vector `translation` of `CalculateTransforms`: the middle of the axes box. -/
def translation (st : vtkInteractiveChartXYZ K) : vtkVector3 K :=
  ⟨((st.axes 0).Position2.X - (st.axes 0).Position1.X) / 2 + (st.axes 0).Position1.X,
   ((st.axes 1).Position2.Y - (st.axes 1).Position1.Y) / 2 + (st.axes 1).Position1.Y,
   ((st.axes 2).Position2.Y - (st.axes 2).Position1.Y) / 2 + (st.axes 2).Position1.Y⟩

/-- The array `scale[3]` of `CalculateTransforms` and `InitializeFutureBox`: the lengths
of the three axis extents. -/
def scale (st : vtkInteractiveChartXYZ K) : vtkVector3 K :=
  ⟨(st.axes 0).Position2.X - (st.axes 0).Position1.X,
   (st.axes 1).Position2.Y - (st.axes 1).Position1.Y,
   (st.axes 2).Position2.Y - (st.axes 2).Position1.Y⟩

/-- Lines 571-581 of `CalculateTransforms`: the context transform. -/
def CalculateContextTransform (st : vtkInteractiveChartXYZ K) : vtkTransform K :=
  let translation := st.translation
  let mtranslation := vtkVector3.smul (-1) translation
  let t := st.ContextTransform.Identity
  let t := t.Concatenate st.Translation.Matrix
  let t := t.Translate translation.X translation.Y translation.Z
  let t := t.Concatenate st.Rotation.Matrix
  let t := t.Concatenate st.BoxScale.Matrix
  let t := t.Concatenate st.Scale.Matrix
  let t := t.Translate mtranslation.X mtranslation.Y mtranslation.Z
  let t := t.Translate ((st.axes 0).Position1.X - st.Geometry.X)
                       ((st.axes 1).Position1.Y - st.Geometry.Y)
                       (st.axes 2).Position1.Y
  t.Concatenate st.Transform.Matrix

/-- Lines 583-602 of `CalculateTransforms`: the transform for the box axes. -/
def CalculateBox (st : vtkInteractiveChartXYZ K) : vtkTransform K :=
  let scale := st.scale
  let t := st.Box.Identity
  let t := t.PostMultiply
  let t := t.Translate (-(1 / 2)) (-(1 / 2)) (-(1 / 2))
  let t := t.Concatenate st.Rotation.Matrix
  let t := t.Concatenate st.BoxScale.Matrix
  let t := t.Translate (1 / 2) (1 / 2) (1 / 2)
  let t := t.Scale scale.X scale.Y scale.Z
  t.Translate (st.axes 0).Position1.X (st.axes 1).Position1.Y (st.axes 2).Position1.Y

/-- Lines 604-662 of `CalculateTransforms`: the six clipping planes and `MaxDistance`,
from the current `Box`. -/
def SetupClippingPlanes (st : vtkInteractiveChartXYZ K) : vtkInteractiveChartXYZ K :=
  let transformedCube : Fin 8 → vtkVector3 K := fun i => TransformPoint st.Box.Matrix (cube i)
  let norm1 := Cross ((transformedCube 1).sub (transformedCube 0))
                     ((transformedCube 2).sub (transformedCube 0))
  let norm2 := Cross ((transformedCube 5).sub (transformedCube 4))
                     ((transformedCube 6).sub (transformedCube 4))
  let norm3 := Cross ((transformedCube 1).sub (transformedCube 0))
                     ((transformedCube 4).sub (transformedCube 0))
  let norm4 := Cross ((transformedCube 3).sub (transformedCube 2))
                     ((transformedCube 6).sub (transformedCube 2))
  let norm5 := Cross ((transformedCube 2).sub (transformedCube 0))
                     ((transformedCube 4).sub (transformedCube 0))
  let norm6 := Cross ((transformedCube 3).sub (transformedCube 1))
                     ((transformedCube 5).sub (transformedCube 1))
  let face1 : vtkPlane K := ⟨norm1, transformedCube 3⟩
  { st with
    Face1 := face1
    Face2 := ⟨norm2, transformedCube 7⟩
    Face3 := ⟨norm3, transformedCube 5⟩
    Face4 := ⟨norm4, transformedCube 7⟩
    Face5 := ⟨norm5, transformedCube 6⟩
    Face6 := ⟨norm6, transformedCube 7⟩
    MaxDistance := face1.DistanceToPlane (transformedCube 7) }

/-- The method `CalculateTransforms`. -/
def CalculateTransforms (st : vtkInteractiveChartXYZ K) : vtkInteractiveChartXYZ K :=
  SetupClippingPlanes
    { st with ContextTransform := st.CalculateContextTransform, Box := st.CalculateBox }

/-- The method `PointShouldBeClipped`. -/
def PointShouldBeClipped (st : vtkInteractiveChartXYZ K) (point : vtkVector3 K) : Bool :=
  let transformedPoint := TransformPoint st.ContextTransform.Matrix point
  let d1 := st.Face1.DistanceToPlane transformedPoint
  let d2 := st.Face2.DistanceToPlane transformedPoint
  let d3 := st.Face3.DistanceToPlane transformedPoint
  let d4 := st.Face4.DistanceToPlane transformedPoint
  let d5 := st.Face5.DistanceToPlane transformedPoint
  let d6 := st.Face6.DistanceToPlane transformedPoint
  if d1 > st.MaxDistance ∨ d2 > st.MaxDistance ∨
     d3 > st.MaxDistance ∨ d4 > st.MaxDistance ∨
     d5 > st.MaxDistance ∨ d6 > st.MaxDistance then
    true
  else
    false

/-- The loop of `UpdateClippedPoints` from index `i` on, over the remaining points `ps`,
with the vectors built so far.  `Colors->GetValue` outside the array is undefined
behaviour: `none`.  Each `InsertNextTupleValue` call appends one `unsigned char`. -/
def UpdateClippedPointsLoop (st : vtkInteractiveChartXYZ K) :
    Nat → List (vtkVector3 K) → List (vtkVector3 K) → List Nat →
      Option (List (vtkVector3 K) × List Nat)
  | _, [], clipped, colors => some (clipped, colors)
  | i, p :: ps, clipped, colors =>
    match st.Colors[i * st.NumberOfComponents]?,
          st.Colors[i * st.NumberOfComponents + 1]?,
          st.Colors[i * st.NumberOfComponents + 2]? with
    | some r, some g, some b =>
      if !st.PointShouldBeClipped p then
        UpdateClippedPointsLoop st (i + 1) ps (clipped ++ [p]) (colors ++ [r, g, b])
      else
        UpdateClippedPointsLoop st (i + 1) ps clipped colors
    | _, _, _ => none

/-- The method `UpdateClippedPoints`: both vectors are emptied, then the loop runs. -/
def UpdateClippedPoints (st : vtkInteractiveChartXYZ K) : Option (vtkInteractiveChartXYZ K) :=
  match UpdateClippedPointsLoop st 0 st.points [] [] with
  | some (clipped, colors) => some { st with clipped_points := clipped, ClippedColors := colors }
  | none => none

/-- The value of `pow(2.0f, tenths/10.0f)`, where `r` is the value of `pow(2.0f, 1.0f/10.0f)`. -/
def pow2 (r : K) (tenths : Int) : K := r ^ tenths

/-- The method `InitializeAxesBoundaryPoints`; `sqrt075` is the value of `sqrt(0.75)`. -/
def InitializeAxesBoundaryPoints (sqrt075 : K) (st : vtkInteractiveChartXYZ K) :
    vtkInteractiveChartXYZ K :=
  { st with AxesBoundaryPoints :=
      [⟨0, 0, 0⟩, ⟨0, 0, 1⟩, ⟨0, 1, 0⟩, ⟨0, 1, 1⟩, ⟨1, 0, 0⟩, ⟨1, 0, 1⟩, ⟨1, 1, 0⟩, ⟨1, 1, 1⟩,
       ⟨1 / 2 + sqrt075, 1 / 2, 1 / 2⟩, ⟨1 / 2 - sqrt075, 1 / 2, 1 / 2⟩,
       ⟨1 / 2, 1 / 2 + sqrt075, 1 / 2⟩, ⟨1 / 2, 1 / 2 - sqrt075, 1 / 2⟩,
       ⟨1 / 2, 1 / 2, 1 / 2 + sqrt075⟩, ⟨1 / 2, 1 / 2, 1 / 2 - sqrt075⟩] }

/-- The method `ZoomAxes`. -/
def ZoomAxes (r : K) (st : vtkInteractiveChartXYZ K) (delta : Int) : vtkInteractiveChartXYZ K :=
  let scaling := pow2 r delta
  { st with
    BoxScale := st.BoxScale.Scale scaling scaling scaling
    Scene := { st.Scene with Dirty := true } }

/-- The method `InitializeFutureBox`.  `FutureBoxScale` becomes a deep copy of `BoxScale`;
the pipeline of `FutureBox` is rebuilt with the current axis extents and origin. -/
def InitializeFutureBox (st : vtkInteractiveChartXYZ K) : vtkInteractiveChartXYZ K :=
  { st with
    FutureBoxScale := st.BoxScale
    FutureBoxExtent := st.scale
    FutureBoxOrigin := ⟨(st.axes 0).Position1.X, (st.axes 1).Position1.Y, (st.axes 2).Position1.Y⟩ }

/-- The current value of the transform `FutureBox`.  `vtkTransform::Concatenate` keeps a
reference to the concatenated transform, so the matrix that `FutureBox->TransformPoint`
uses follows the current `Rotation` and `FutureBoxScale`; the constants are those of the
last `InitializeFutureBox` (lines 784-793). -/
def FutureBox (st : vtkInteractiveChartXYZ K) : vtkTransform K :=
  let t : vtkTransform K := { Matrix := 1, PreMultiplyFlag := false }
  let t := t.Translate (-(1 / 2)) (-(1 / 2)) (-(1 / 2))
  let t := t.Concatenate st.Rotation.Matrix
  let t := t.Concatenate st.FutureBoxScale.Matrix
  let t := t.Translate (1 / 2) (1 / 2) (1 / 2)
  let t := t.Scale st.FutureBoxExtent.X st.FutureBoxExtent.Y st.FutureBoxExtent.Z
  t.Translate st.FutureBoxOrigin.X st.FutureBoxOrigin.Y st.FutureBoxOrigin.Z

/-- The test of lines 709-710 and 751-752 on one transformed sentinel. -/
def OutsideScene (sceneWidth sceneHeight : Int) (point : vtkVector3 K) : Bool :=
  if point.X < 0 ∨ point.X > (sceneWidth : K) ∨ point.Y < 0 ∨ point.Y > (sceneHeight : K) then
    true
  else
    false

/-- The inner `for` loop of both searches: does any of the sentinels, mapped through the
current `FutureBox`, fall outside the scene rectangle? -/
def AnySentinelOutside (st : vtkInteractiveChartXYZ K) : Bool :=
  st.AxesBoundaryPoints.any fun p =>
    OutsideScene st.Scene.SceneWidth st.Scene.SceneHeight (TransformPoint st.FutureBox.Matrix p)

/-- The `while` loop of `ScaleUpAxes`, at most `fuel` evaluations of its condition;
returns the state and `numSteps` when the loop exits, `none` when the fuel runs out. -/
def ScaleUpAxesLoop (r : K) :
    Nat → vtkInteractiveChartXYZ K → Nat → Option (vtkInteractiveChartXYZ K × Nat)
  | 0, _, _ => none
  | fuel + 1, st, numSteps =>
    let scaleStep := pow2 r 1
    if st.AnySentinelOutside then
      some (st, numSteps)
    else
      ScaleUpAxesLoop r fuel
        { st with FutureBoxScale := st.FutureBoxScale.Scale scaleStep scaleStep scaleStep }
        (numSteps + 1)

/-- Lines 721-729 of `ScaleUpAxes`: the step back and the commit, after the loop has
exited in state `st1` with `numSteps`. -/
def ScaleUpAxesCommit (r : K) (st1 : vtkInteractiveChartXYZ K) (numSteps : Nat) :
    vtkInteractiveChartXYZ K :=
  let stepBack := pow2 r (-1)
  let st2 := { st1 with FutureBoxScale := st1.FutureBoxScale.Scale stepBack stepBack stepBack }
  if numSteps > 1 then
    let st3 := st2.ZoomAxes r ((numSteps : Int) - 1)
    { st3 with Scene := { st3.Scene with Dirty := true } }
  else
    st2

/-- The method `ScaleUpAxes`. -/
def ScaleUpAxes (r : K) (fuel : Nat) (st : vtkInteractiveChartXYZ K) :
    Option (vtkInteractiveChartXYZ K) :=
  match ScaleUpAxesLoop r fuel st 0 with
  | none => none
  | some (st1, numSteps) => some (ScaleUpAxesCommit r st1 numSteps)

/-- The `while` loop of `ScaleDownAxes`, at most `fuel` evaluations of its body. -/
def ScaleDownAxesLoop (r : K) :
    Nat → vtkInteractiveChartXYZ K → Nat → Option (vtkInteractiveChartXYZ K × Nat)
  | 0, _, _ => none
  | fuel + 1, st, numSteps =>
    let scaleStep := pow2 r (-1)
    if st.AnySentinelOutside then
      ScaleDownAxesLoop r fuel
        { st with FutureBoxScale := st.FutureBoxScale.Scale scaleStep scaleStep scaleStep }
        (numSteps + 1)
    else
      some (st, numSteps)

/-- Lines 764-768 of `ScaleDownAxes`: the commit, after the loop has exited in state
`st1` with `numSteps`. -/
def ScaleDownAxesCommit (r : K) (st1 : vtkInteractiveChartXYZ K) (numSteps : Nat) :
    vtkInteractiveChartXYZ K :=
  if numSteps > 0 then
    let st2 := st1.ZoomAxes r (-(numSteps : Int))
    { st2 with Scene := { st2.Scene with Dirty := true } }
  else
    st1

/-- The method `ScaleDownAxes`. -/
def ScaleDownAxes (r : K) (fuel : Nat) (st : vtkInteractiveChartXYZ K) :
    Option (vtkInteractiveChartXYZ K) :=
  match ScaleDownAxesLoop r fuel st 0 with
  | none => none
  | some (st1, numSteps) => some (ScaleDownAxesCommit r st1 numSteps)

/-- Lines 810-831 of `CheckForSceneResize`: the six end points of the axes are shifted. -/
def ShiftAxes (st : vtkInteractiveChartXYZ K) (dx dy : Int) : vtkInteractiveChartXYZ K :=
  { st with axes := fun i =>
      match i with
      | 0 => ⟨⟨(st.axes 0).Position1.X + dx, (st.axes 0).Position1.Y + dy⟩,
              ⟨(st.axes 0).Position2.X + dx, (st.axes 0).Position2.Y + dy⟩⟩
      | 1 => ⟨⟨(st.axes 1).Position1.X + dx, (st.axes 1).Position1.Y + dy⟩,
              ⟨(st.axes 1).Position2.X + dx, (st.axes 1).Position2.Y + dy⟩⟩
      | 2 => ⟨⟨(st.axes 2).Position1.X + dx, (st.axes 2).Position1.Y⟩,
              ⟨(st.axes 2).Position2.X + dx, (st.axes 2).Position2.Y⟩⟩ }

/-- The method `CheckForSceneResize`.  `RecalculateTransform` is the superclass method
called on line 832 (not part of this class), `fuel` bounds each of the two searches. -/
def CheckForSceneResize (r : K)
    (RecalculateTransform : vtkInteractiveChartXYZ K → vtkInteractiveChartXYZ K)
    (fuel : Nat) (st : vtkInteractiveChartXYZ K) : Option (vtkInteractiveChartXYZ K × Bool) :=
  let currentWidth := st.Scene.SceneWidth
  let currentHeight := st.Scene.SceneHeight
  if st.SceneWidth ≠ currentWidth ∨ st.SceneHeight ≠ currentHeight then
    if st.SceneWidth > 0 then
      let dx := (currentWidth - st.SceneWidth).tdiv 2
      let dy := (currentHeight - st.SceneHeight).tdiv 2
      some (RecalculateTransform (st.ShiftAxes dx dy), true)
    else
      let st1 := { st with SceneWidth := currentWidth, SceneHeight := currentHeight }
      let st2 := st1.InitializeFutureBox
      match st2.ScaleUpAxes r fuel with
      | none => none
      | some st3 =>
        match st3.ScaleDownAxes r fuel with
        | none => none
        | some st4 => some (st4, true)
  else
    some (st, false)

/-- The product `a * b` of two `int` values; signed overflow is undefined behaviour:
`none`. -/
def IntProduct (a b : Int) : Option Int :=
  if -2147483648 ≤ a * b ∧ a * b ≤ 2147483647 then some (a * b) else none

/-- The method `RescaleAxes`. -/
def RescaleAxes (r : K) (fuel : Nat) (st : vtkInteractiveChartXYZ K) :
    Option (vtkInteractiveChartXYZ K) :=
  let currentWidth := st.Scene.SceneWidth
  let currentHeight := st.Scene.SceneHeight
  let st1 := st.InitializeFutureBox
  match IntProduct currentWidth currentHeight, IntProduct st.SceneWidth st.SceneHeight with
  | some currentArea, some recordedArea =>
    let searched :=
      if currentArea < recordedArea then
        st1.ScaleDownAxes r fuel
      else
        st1.ScaleUpAxes r fuel
    match searched with
    | none => none
    | some st2 => some { st2 with SceneWidth := currentWidth, SceneHeight := currentHeight }
  | _, _ => none

/-- The constructor `vtkInteractiveChartXYZ()` on the freshly built superclass object `st`;
`sqrt075` is the value of `sqrt(0.75)`. -/
def Construct (sqrt075 : K) (st : vtkInteractiveChartXYZ K) : vtkInteractiveChartXYZ K :=
  InitializeAxesBoundaryPoints sqrt075
    { st with
      Translation := st.Translation.Identity.PostMultiply
      Scale := st.Scale.Identity.PostMultiply
      NumberOfComponents := 0 }

/-- The selection loop of `Update` (lines 92-96): `selectedPoints[i] = points[ids[i]]` for
every `i`; an index outside `points` is undefined behaviour: `none`. -/
def UpdateSelectedPoints (points : List (vtkVector3 K)) :
    List Nat → Option (List (vtkVector3 K))
  | [] => some []
  | id :: ids =>
    match points[id]?, UpdateSelectedPoints points ids with
    | some p, some ps => some (p :: ps)
    | _, _ => none

/-- The method `Update`. -/
def Update (st : vtkInteractiveChartXYZ K) : Option (vtkInteractiveChartXYZ K) :=
  match st.Link with
  | none => some st
  | some selection =>
    if st.points.isEmpty then some st
    else
      match selection.Nodes with
      | [] => some st
      | idArray :: _ =>
        if st.selectedPointsBuidTime > idArray.MTime ∨ st.MTime > st.selectedPointsBuidTime then
          match UpdateSelectedPoints st.points idArray.Values with
          | none => none
          | some selected =>
            some { st with
                   selectedPoints := selected
                   selectedPointsBuidTime := st.TimeStampCounter + 1
                   TimeStampCounter := st.TimeStampCounter + 1 }
        else some st

/-- Modelled from the spec: the superclass method `vtkChartXYZ::SetInput` (outside src/):
the point set is replaced by the rows of the table. -/
def SuperclassSetInput (st : vtkInteractiveChartXYZ K) (input : vtkTable K) :
    vtkInteractiveChartXYZ K :=
  { st with points := input.Rows }

/-- The method `SetInput(input, xName, yName, zName)`, without a colour column. -/
def SetInputWithoutColor (st : vtkInteractiveChartXYZ K) (input : vtkTable K)
    (xName yName zName : String) : vtkInteractiveChartXYZ K :=
  { SuperclassSetInput st input with XAxisLabel := xName, YAxisLabel := yName, ZAxisLabel := zName }

/-- The loop of lines 283-294 of `SetInput` over the values of the colour column, from the
current `(min, max)`. -/
def ColorRange : List K → K × K → K × K
  | [], range => range
  | value :: rest, (min, max) =>
    if value > max then ColorRange rest (min, value)
    else if value < min then ColorRange rest (value, max)
    else ColorRange rest (min, max)

/-- The method `SetInput(input, xName, yName, zName, colorName)`.  `MapValue min max value`
is the RGB triple that the 256-entry lookup table built on the range `(min, max)` gives to
`value`; `DBL_MAX` and `DBL_MIN` are the constants of `<cfloat>`.  Both loops read
`colorArr->GetComponent(i, 0)` for `i < points.size()`; a column shorter than the point set
is undefined behaviour (the assertion of line 275): `none`. -/
def SetInput (MapValue : K → K → K → Nat × Nat × Nat) (DBL_MAX DBL_MIN : K)
    (st : vtkInteractiveChartXYZ K) (input : vtkTable K) (xName yName zName : String) :
    Option (vtkInteractiveChartXYZ K) :=
  let st1 : vtkInteractiveChartXYZ K :=
    { SuperclassSetInput st input with XAxisLabel := xName, YAxisLabel := yName, ZAxisLabel := zName }
  if input.ColorColumn.length < st1.points.length then none
  else
    let values := input.ColorColumn.take st1.points.length
    let range := ColorRange values (DBL_MAX, DBL_MIN)
    some { st1 with
           NumberOfComponents := 3
           Colors := st1.Colors ++ values.flatMap fun value =>
             [(MapValue range.1 range.2 value).1, (MapValue range.1 range.2 value).2.1,
              (MapValue range.1 range.2 value).2.2] }

/-- The method `MouseWheelEvent`; `r` is the value of `pow(2.0f, 1.0f/10.0f)`. -/
def MouseWheelEvent (r : K) (st : vtkInteractiveChartXYZ K) (delta : Int) :
    vtkInteractiveChartXYZ K × Bool :=
  let scaling := pow2 r delta
  ({ st with
     Scale := st.Scale.Scale scaling scaling scaling
     Scene := { st.Scene with Dirty := true }
     InteractionEvents := st.InteractionEvents + 1 }, true)

/-- The method `Rotate`.  The two divisions are by the scene size. -/
def Rotate (m : CMath K) (st : vtkInteractiveChartXYZ K) (mouse : vtkContextMouseEvent) :
    vtkInteractiveChartXYZ K × Bool :=
  let dx : K := (mouse.ScreenPos.X : K) - (mouse.LastScreenPos.X : K)
  let dy : K := (mouse.ScreenPos.Y : K) - (mouse.LastScreenPos.Y : K)
  let delta_elevation : K := -20 / (st.Scene.SceneHeight : K)
  let delta_azimuth : K := -20 / (st.Scene.SceneWidth : K)
  let rxf := dx * delta_azimuth * 10
  let ryf := dy * delta_elevation * 10
  ({ st with
     Rotation := (st.Rotation.RotateY m rxf).RotateX m (-ryf)
     Scene := { st.Scene with Dirty := true }
     InteractionEvents := st.InteractionEvents + 1 }, true)

/-- The method `Pan`. -/
def Pan (st : vtkInteractiveChartXYZ K) (mouse : vtkContextMouseEvent) :
    vtkInteractiveChartXYZ K × Bool :=
  let dx : K := (mouse.ScreenPos.X : K) - (mouse.LastScreenPos.X : K)
  let dy : K := (mouse.ScreenPos.Y : K) - (mouse.LastScreenPos.Y : K)
  ({ st with
     Translation := st.Translation.Translate dx dy 0
     Scene := { st.Scene with Dirty := true }
     InteractionEvents := st.InteractionEvents + 1 }, true)

/-- The method `Zoom`. -/
def Zoom (m : CMath K) (st : vtkInteractiveChartXYZ K) (mouse : vtkContextMouseEvent) :
    vtkInteractiveChartXYZ K × Bool :=
  let delta : K :=
    if st.Scene.SceneHeight > 0 then
      ((mouse.LastScreenPos.Y - mouse.ScreenPos.Y : Int) : K) / (st.Scene.SceneHeight : K)
    else 0
  let scaling := m.pow4 delta
  ({ st with
     Scale := st.Scale.Scale scaling scaling scaling
     Scene := { st.Scene with Dirty := true }
     InteractionEvents := st.InteractionEvents + 1 }, true)

/-- The method `Spin`. -/
def Spin (m : CMath K) (st : vtkInteractiveChartXYZ K) (mouse : vtkContextMouseEvent) :
    vtkInteractiveChartXYZ K × Bool :=
  let newAngle := m.atan2Degrees (mouse.ScreenPos.Y : K) (mouse.ScreenPos.X : K)
  let oldAngle := m.atan2Degrees (mouse.LastScreenPos.Y : K) (mouse.LastScreenPos.X : K)
  ({ st with
     Rotation := st.Rotation.RotateZ m (-(newAngle - oldAngle))
     Scene := { st.Scene with Dirty := true }
     InteractionEvents := st.InteractionEvents + 1 }, true)

/-- The method `MouseMoveEvent`. -/
def MouseMoveEvent (m : CMath K) (st : vtkInteractiveChartXYZ K)
    (mouse : vtkContextMouseEvent) : vtkInteractiveChartXYZ K × Bool :=
  if mouse.Button = vtkContextMouseEvent.LEFT_BUTTON then
    if mouse.Modifiers = vtkContextMouseEvent.SHIFT_MODIFIER then
      st.Spin m mouse
    else
      st.Rotate m mouse
  else if mouse.Button = vtkContextMouseEvent.RIGHT_BUTTON then
    if mouse.Modifiers = vtkContextMouseEvent.SHIFT_MODIFIER then
      st.Pan mouse
    else
      st.Zoom m mouse
  else
    (st, false)

/-- The method `LookDownX`. -/
def LookDownX (m : CMath K) (st : vtkInteractiveChartXYZ K) : vtkInteractiveChartXYZ K :=
  { st with
    InteractionEvents := st.InteractionEvents + 1
    Rotation := st.Rotation.Identity.RotateY m 90
    Scene := { st.Scene with Dirty := true } }

/-- The method `LookDownY`. -/
def LookDownY (m : CMath K) (st : vtkInteractiveChartXYZ K) : vtkInteractiveChartXYZ K :=
  { st with
    Rotation := st.Rotation.Identity.RotateX m 90
    InteractionEvents := st.InteractionEvents + 1
    Scene := { st.Scene with Dirty := true } }

/-- The method `LookDownZ`. -/
def LookDownZ (st : vtkInteractiveChartXYZ K) : vtkInteractiveChartXYZ K :=
  { st with
    Rotation := st.Rotation.Identity
    InteractionEvents := st.InteractionEvents + 1
    Scene := { st.Scene with Dirty := true } }

/-- The method `LookUpX`. -/
def LookUpX (m : CMath K) (st : vtkInteractiveChartXYZ K) : vtkInteractiveChartXYZ K :=
  { st with
    InteractionEvents := st.InteractionEvents + 1
    Rotation := st.Rotation.Identity.RotateY m (-90)
    Scene := { st.Scene with Dirty := true } }

/-- The method `LookUpY`. -/
def LookUpY (m : CMath K) (st : vtkInteractiveChartXYZ K) : vtkInteractiveChartXYZ K :=
  { st with
    Rotation := st.Rotation.Identity.RotateX m (-90)
    InteractionEvents := st.InteractionEvents + 1
    Scene := { st.Scene with Dirty := true } }

/-- The method `LookUpZ`. -/
def LookUpZ (m : CMath K) (st : vtkInteractiveChartXYZ K) : vtkInteractiveChartXYZ K :=
  { st with
    Rotation := st.Rotation.Identity.RotateZ m 180
    InteractionEvents := st.InteractionEvents + 1
    Scene := { st.Scene with Dirty := true } }

/-- The method `KeyPressEvent` on the key code of the event. -/
def KeyPressEvent (m : CMath K) (st : vtkInteractiveChartXYZ K) (keyCode : Char) :
    vtkInteractiveChartXYZ K × Bool :=
  if keyCode = 'x' then (st.LookDownX m, true)
  else if keyCode = 'X' then (st.LookUpX m, true)
  else if keyCode = 'y' then (st.LookDownY m, true)
  else if keyCode = 'Y' then (st.LookUpY m, true)
  else if keyCode = 'z' then (st.LookDownZ, true)
  else if keyCode = 'Z' then (st.LookUpZ m, true)
  else (st, true)

end vtkInteractiveChartXYZ

/-- The state after `k` passes through the body of a search loop whose scale factor is
`s`: `FutureBoxScale->Scale(s, s, s)` has run `k` times. -/
def ScaleSteps (s : K) : vtkInteractiveChartXYZ K → Nat → vtkInteractiveChartXYZ K
  | st, 0 => st
  | st, k + 1 =>
    ScaleSteps s { st with FutureBoxScale := st.FutureBoxScale.Scale s s s } k

/-- All sentinels, mapped through the `Box` transform that `CalculateTransforms` derives
from the current `BoxScale`, lie inside the scene rectangle `[0, width] × [0, height]`. -/
def BoxFitsScene (st : vtkInteractiveChartXYZ K) : Prop :=
  ∀ p ∈ st.AxesBoundaryPoints,
    vtkInteractiveChartXYZ.OutsideScene st.Scene.SceneWidth st.Scene.SceneHeight
      (TransformPoint st.CalculateTransforms.Box.Matrix p) = false

/-- The centre of the axis box: the axis origin plus half of each axis extent. -/
def AxisBoxCentre (st : vtkInteractiveChartXYZ K) : vtkVector3 K :=
  ⟨(st.axes 0).Position1.X + st.scale.X * (1 / 2),
   (st.axes 1).Position1.Y + st.scale.Y * (1 / 2),
   (st.axes 2).Position1.Y + st.scale.Z * (1 / 2)⟩

/-! ## Concrete charts -/

/-- The scenario of §8: every transform primitive and the device transform at identity,
a 500×500 canvas, the axis box from 50 to 450 on X, Y and Z, geometry origin `(0, 0)`,
a coloured chart of three points with stale contents in the clipped vectors. -/
def scenarioChart : vtkInteractiveChartXYZ ℚ where
  Translation := ⟨1, false⟩
  Rotation := ⟨1, true⟩
  Scale := ⟨1, false⟩
  BoxScale := ⟨1, true⟩
  Transform := ⟨1, true⟩
  ContextTransform := ⟨1, true⟩
  Box := ⟨1, true⟩
  FutureBoxScale := ⟨1, true⟩
  FutureBoxExtent := ⟨0, 0, 0⟩
  FutureBoxOrigin := ⟨0, 0, 0⟩
  axes := fun i =>
    match i with
    | 0 => ⟨⟨50, 50⟩, ⟨450, 50⟩⟩
    | 1 => ⟨⟨50, 50⟩, ⟨50, 450⟩⟩
    | 2 => ⟨⟨50, 50⟩, ⟨50, 450⟩⟩
  Geometry := ⟨0, 0, 500, 500⟩
  Face1 := ⟨⟨0, 0, 0⟩, ⟨0, 0, 0⟩⟩
  Face2 := ⟨⟨0, 0, 0⟩, ⟨0, 0, 0⟩⟩
  Face3 := ⟨⟨0, 0, 0⟩, ⟨0, 0, 0⟩⟩
  Face4 := ⟨⟨0, 0, 0⟩, ⟨0, 0, 0⟩⟩
  Face5 := ⟨⟨0, 0, 0⟩, ⟨0, 0, 0⟩⟩
  Face6 := ⟨⟨0, 0, 0⟩, ⟨0, 0, 0⟩⟩
  MaxDistance := 0
  points := [⟨1 / 2, 1 / 4, 1⟩, ⟨-1, 0, 0⟩, ⟨0, 0, 0⟩]
  Colors := [10, 11, 12, 20, 21, 22, 30, 31, 32]
  NumberOfComponents := 3
  clipped_points := [⟨7, 7, 7⟩]
  ClippedColors := [1, 2, 3]
  AxesBoundaryPoints := []
  SceneWidth := 0
  SceneHeight := 0
  Scene := ⟨500, 500, false⟩
  InteractionEvents := 0
  Link := none
  selectedPoints := []
  selectedPointsBuidTime := 0
  MTime := 1
  TimeStampCounter := 1
  XAxisLabel := "X"
  YAxisLabel := "Y"
  ZAxisLabel := "Z"

/-- The scenario chart with the geometry rectangle of a chart placed at `(75, 20)`. -/
def placedChart : vtkInteractiveChartXYZ ℚ :=
  { scenarioChart with Geometry := ⟨75, 20, 250, 260⟩ }

/-- An upright chart on a `width × height` canvas: the scenario chart with the axis box
from `lo` to `hi` on X, Y and Z and the fourteen sentinels of the constructor, `sqrt(0.75)`
taken as `13/15`. -/
def uprightChart (lo hi : ℚ) (width height : Int) : vtkInteractiveChartXYZ ℚ :=
  vtkInteractiveChartXYZ.InitializeAxesBoundaryPoints (13 / 15)
    { scenarioChart with
      axes := fun i =>
        match i with
        | 0 => ⟨⟨lo, lo⟩, ⟨hi, lo⟩⟩
        | 1 => ⟨⟨lo, lo⟩, ⟨lo, hi⟩⟩
        | 2 => ⟨⟨lo, lo⟩, ⟨lo, hi⟩⟩
      Scene := ⟨width, height, false⟩ }

/-- A chart with every transform at identity, no axes extent, no data and an empty scene,
over any field; `Translation` and `Scale` are in post-multiply mode as the constructor
leaves them. -/
def blankChart (F : Type) [LinearOrderedField F] : vtkInteractiveChartXYZ F where
  Translation := ⟨1, false⟩
  Rotation := ⟨1, true⟩
  Scale := ⟨1, false⟩
  BoxScale := ⟨1, true⟩
  Transform := ⟨1, true⟩
  ContextTransform := ⟨1, true⟩
  Box := ⟨1, true⟩
  FutureBoxScale := ⟨1, true⟩
  FutureBoxExtent := ⟨0, 0, 0⟩
  FutureBoxOrigin := ⟨0, 0, 0⟩
  axes := fun _ => ⟨⟨0, 0⟩, ⟨0, 0⟩⟩
  Geometry := ⟨0, 0, 0, 0⟩
  Face1 := ⟨⟨0, 0, 0⟩, ⟨0, 0, 0⟩⟩
  Face2 := ⟨⟨0, 0, 0⟩, ⟨0, 0, 0⟩⟩
  Face3 := ⟨⟨0, 0, 0⟩, ⟨0, 0, 0⟩⟩
  Face4 := ⟨⟨0, 0, 0⟩, ⟨0, 0, 0⟩⟩
  Face5 := ⟨⟨0, 0, 0⟩, ⟨0, 0, 0⟩⟩
  Face6 := ⟨⟨0, 0, 0⟩, ⟨0, 0, 0⟩⟩
  MaxDistance := 0
  points := []
  Colors := []
  NumberOfComponents := 0
  clipped_points := []
  ClippedColors := []
  AxesBoundaryPoints := []
  SceneWidth := 0
  SceneHeight := 0
  Scene := ⟨0, 0, false⟩
  InteractionEvents := 0
  Link := none
  selectedPoints := []
  selectedPointsBuidTime := 0
  MTime := 1
  TimeStampCounter := 1
  XAxisLabel := ""
  YAxisLabel := ""
  ZAxisLabel := ""

/-- A math library over ℚ that is exact at the quarter turns and at the half-integer
powers of four with a rational value; elsewhere it answers as at zero. -/
def quarterTurnMath : CMath ℚ where
  cosDegrees a := if a = 90 ∨ a = -90 then 0 else if a = 180 ∨ a = -180 then -1 else 1
  sinDegrees a := if a = 90 then 1 else if a = -90 then -1 else 0
  atan2Degrees y x :=
    if y = 0 ∧ x < 0 then 180 else if x = 0 ∧ 0 < y then 90 else if x = 0 ∧ y < 0 then -90 else 0
  pow4 d := if d = 1 then 4 else if d = 1 / 2 then 2 else if d = -(1 / 2) then 1 / 2
    else if d = -1 then 1 / 4 else 1

/-- The constant `DBL_MAX` of `<cfloat>`, the largest finite double. -/
def DBL_MAX : ℚ := (2 ^ 53 - 1) * 2 ^ 971

/-- The constant `DBL_MIN` of `<cfloat>`, the smallest positive normalised double. -/
def DBL_MIN : ℚ := 1 / 2 ^ 1022

/-- A three-level stand-in for the lookup table built on the range `(min, max)`: black at
or below `min`, white at or above `max`, mid grey between. -/
def threeLevelMapValue (min max value : ℚ) : Nat × Nat × Nat :=
  if value ≤ min then (0, 0, 0) else if max ≤ value then (255, 255, 255) else (128, 128, 128)

/-- The scenario chart with a linked selection of the points 2 and 0.  The cache was built
at time 5 from an earlier selection, the chart itself was last modified at time 3, and the
selection was modified at time 10. -/
def staleSelectionChart : vtkInteractiveChartXYZ ℚ :=
  { scenarioChart with
    Link := some ⟨[⟨[2, 0], 10⟩]⟩
    selectedPoints := [⟨-1, 0, 0⟩]
    selectedPointsBuidTime := 5
    MTime := 3
    TimeStampCounter := 10 }

/-- A table of two rows with the colour values 7 and 5. -/
def twoRowTable : vtkTable ℚ := ⟨[⟨1, 2, 3⟩, ⟨4, 5, 6⟩], [7, 5]⟩

/-! ## The Mandelbrot source -/

namespace vtkImageMandelbrotSource

/-- The local variables of `EvaluateSet` that its loop reads and writes; `count` is an
`unsigned short`. -/
structure EvaluateSetLocals (K : Type) where
  count : Nat
  v0 : K
  v1 : K
  zReal : K
  zImag : K
  zReal2 : K
  zImag2 : K

/-- The `while` loop of `EvaluateSet`, at most `fuel` evaluations of its condition; `none`
when the fuel runs out.  `++count` wraps at `2^16`. -/
def EvaluateSetLoop (MaximumNumberOfIterations : Nat) (cReal cImag : K) :
    Nat → EvaluateSetLocals K → Option (EvaluateSetLocals K)
  | 0, _ => none
  | fuel + 1, s =>
    if s.v1 < 4 ∧ s.count < MaximumNumberOfIterations then
      let zImag := 2 * s.zReal * s.zImag + cImag
      let zReal := s.zReal2 - s.zImag2 + cReal
      let zReal2 := zReal * zReal
      let zImag2 := zImag * zImag
      EvaluateSetLoop MaximumNumberOfIterations cReal cImag fuel
        { count := (s.count + 1) % 65536
          v0 := s.v1
          v1 := zReal2 + zImag2
          zReal := zReal
          zImag := zImag
          zReal2 := zReal2
          zImag2 := zImag2 }
    else
      some s

/-- The method `EvaluateSet` on the point `p[0..3]`. -/
def EvaluateSet (MaximumNumberOfIterations : Nat) (fuel : Nat) (p : Fin 4 → K) : Option K :=
  let cReal := p 0
  let cImag := p 1
  let zReal := p 2
  let zImag := p 3
  let zReal2 := zReal * zReal
  let zImag2 := zImag * zImag
  match EvaluateSetLoop MaximumNumberOfIterations cReal cImag fuel
      { count := 0, v0 := 0, v1 := zReal2 + zImag2, zReal := zReal, zImag := zImag,
        zReal2 := zReal2, zImag2 := zImag2 } with
  | none => none
  | some s =>
    if s.count = MaximumNumberOfIterations then
      some (s.count : K)
    else
      some ((s.count : K) + (4 - s.v0) / (s.v1 - s.v0))

/-- Reference, in the words of the claim: the orbit `z(0) = z0`, `z(n+1) = z(n)² + c` of
complex numbers given as pairs (real part, imaginary part). -/
def orbit (c z0 : K × K) : Nat → K × K
  | 0 => z0
  | n + 1 =>
    let z := orbit c z0 n
    (z.1 * z.1 - z.2 * z.2 + c.1, 2 * z.1 * z.2 + c.2)

/-- Reference: the squared magnitude `v(n) = |z(n)|²`. -/
def magnitude (c z0 : K × K) (n : Nat) : K :=
  (orbit c z0 n).1 * (orbit c z0 n).1 + (orbit c z0 n).2 * (orbit c z0 n).2

/-- Reference: `v(k − 1)`, with `v(−1) = 0`. -/
def previousMagnitude (c z0 : K × K) (k : Nat) : K :=
  if k = 0 then 0 else magnitude c z0 (k - 1)

/-- Reference: the escape time.  With `k` the least `n` such that `v(n) ≥ 4`: when there is
no such `n` below the maximum, the maximum; otherwise `k + (4 − v(k−1)) / (v(k) − v(k−1))`. -/
def escapeTimeReference (MaximumNumberOfIterations : Nat) (c z0 : K × K) : K :=
  match (List.range MaximumNumberOfIterations).find? fun n => decide (4 ≤ magnitude c z0 n) with
  | none => (MaximumNumberOfIterations : K)
  | some k =>
    (k : K) + (4 - previousMagnitude c z0 k) / (magnitude c z0 k - previousMagnitude c z0 k)

/-- The locals of `EvaluateSet` after `j` passes through the body of its loop, in terms
of the reference orbit. -/
def LocalsAfter (c z0 : K × K) (j : Nat) : EvaluateSetLocals K :=
  { count := j
    v0 := previousMagnitude c z0 j
    v1 := magnitude c z0 j
    zReal := (orbit c z0 j).1
    zImag := (orbit c z0 j).2
    zReal2 := (orbit c z0 j).1 * (orbit c z0 j).1
    zImag2 := (orbit c z0 j).2 * (orbit c z0 j).2 }

/-- The point `c = (−1, 0)`, `z0 = (0, 0)` as the array `p[0..3]`. -/
def periodTwoPoint : Fin 4 → ℚ := fun i =>
  match i with
  | 0 => -1
  | 1 => 0
  | 2 => 0
  | 3 => 0

end vtkImageMandelbrotSource

/-- The plane function `n · (x − o)` of a plane at the point `x`, with the normal as
stored: zero on the plane, negative on the side the normal points away from. -/
def vtkPlane.FunctionValue (pl : vtkPlane K) (x : vtkVector3 K) : K :=
  pl.Normal.dot (x.sub pl.Origin)

/-- The determinant of the linear part (the upper left 3×3 block) of a matrix: positive
for an orientation-preserving transform, non-zero for an invertible one. -/
def LinearDeterminant (m : vtkMatrix4x4 K) : K :=
  m 0 0 * (m 1 1 * m 2 2 - m 1 2 * m 2 1) - m 0 1 * (m 1 0 * m 2 2 - m 1 2 * m 2 0) +
    m 0 2 * (m 1 0 * m 2 1 - m 1 1 * m 2 0)

/-- The image of the centre `(1/2, 1/2, 1/2)` of the unit cube under `Box`. -/
def vtkInteractiveChartXYZ.BoxCentre (st : vtkInteractiveChartXYZ K) : vtkVector3 K :=
  TransformPoint st.Box.Matrix ⟨1 / 2, 1 / 2, 1 / 2⟩

/-- The image `transformedCube[i]` of corner `i` of the unit cube under `Box`. -/
def vtkInteractiveChartXYZ.BoxCorner (st : vtkInteractiveChartXYZ K) (i : Fin 8) :
    vtkVector3 K :=
  TransformPoint st.Box.Matrix (vtkInteractiveChartXYZ.cube i)

/-- The upright chart from 37 to 67 on a 104×104 scene, with the size 200×200 recorded
at an earlier paint. -/
def shrunkSceneChart : vtkInteractiveChartXYZ ℚ :=
  { uprightChart 37 67 104 104 with SceneWidth := 200, SceneHeight := 200 }

/-- The upright chart from 50 to 450 on a 500×500 scene, with the size 400×301 recorded
at an earlier paint. -/
def grownSceneChart : vtkInteractiveChartXYZ ℚ :=
  { uprightChart 50 450 500 500 with SceneWidth := 400, SceneHeight := 301 }

/-- A freshly constructed chart bound, without a colour column, to the table of two rows:
two points, `NumberOfComponents = 0` and an empty `Colors`. -/
def uncolouredChart : vtkInteractiveChartXYZ ℚ :=
  (vtkInteractiveChartXYZ.Construct (13 / 15) (blankChart ℚ)).SetInputWithoutColor
    twoRowTable "x" "y" "z"

/-- A table of three rows with the strictly increasing colour values 1, 2 and 3. -/
def increasingTable : vtkTable ℚ := ⟨[⟨0, 0, 0⟩, ⟨1, 1, 1⟩, ⟨2, 2, 2⟩], [1, 2, 3]⟩

end Defs

section Theorems

variable {K : Type} [LinearOrderedField K]

open vtkInteractiveChartXYZ

/-! ## The point classifier -/

/-- In any state, `PointShouldBeClipped` answers true exactly when one of the six plane
distances of the transformed point exceeds `MaxDistance`. -/
theorem PointShouldBeClipped_eq_true_iff (st : vtkInteractiveChartXYZ K) (p : vtkVector3 K) :
    st.PointShouldBeClipped p = true ↔
      (st.Face1.DistanceToPlane (TransformPoint st.ContextTransform.Matrix p) > st.MaxDistance ∨
       st.Face2.DistanceToPlane (TransformPoint st.ContextTransform.Matrix p) > st.MaxDistance ∨
       st.Face3.DistanceToPlane (TransformPoint st.ContextTransform.Matrix p) > st.MaxDistance ∨
       st.Face4.DistanceToPlane (TransformPoint st.ContextTransform.Matrix p) > st.MaxDistance ∨
       st.Face5.DistanceToPlane (TransformPoint st.ContextTransform.Matrix p) > st.MaxDistance ∨
       st.Face6.DistanceToPlane (TransformPoint st.ContextTransform.Matrix p) > st.MaxDistance) := by
  simp only [PointShouldBeClipped]
  split <;> simp_all

/-- In any state, a point whose six plane distances are all at most `MaxDistance` is kept. -/
theorem PointShouldBeClipped_eq_false_of_le (st : vtkInteractiveChartXYZ K) (p : vtkVector3 K)
    (h1 : st.Face1.DistanceToPlane (TransformPoint st.ContextTransform.Matrix p) ≤ st.MaxDistance)
    (h2 : st.Face2.DistanceToPlane (TransformPoint st.ContextTransform.Matrix p) ≤ st.MaxDistance)
    (h3 : st.Face3.DistanceToPlane (TransformPoint st.ContextTransform.Matrix p) ≤ st.MaxDistance)
    (h4 : st.Face4.DistanceToPlane (TransformPoint st.ContextTransform.Matrix p) ≤ st.MaxDistance)
    (h5 : st.Face5.DistanceToPlane (TransformPoint st.ContextTransform.Matrix p) ≤ st.MaxDistance)
    (h6 : st.Face6.DistanceToPlane (TransformPoint st.ContextTransform.Matrix p) ≤ st.MaxDistance) :
    st.PointShouldBeClipped p = false := by
  rw [← Bool.not_eq_true, PointShouldBeClipped_eq_true_iff]
  simp only [gt_iff_lt, not_lt.mpr h1, not_lt.mpr h2, not_lt.mpr h3, not_lt.mpr h4,
    not_lt.mpr h5, not_lt.mpr h6, or_self, not_false_eq_true]

/-- C1: in every state left by `CalculateTransforms`, `PointShouldBeClipped` answers true
exactly when at least one of the six distances of the transformed point to `Face1` ..
`Face6` is strictly greater than `MaxDistance`; when all six are at most `MaxDistance`
the point is not clipped. -/
theorem PointShouldBeClipped_iff_some_distance_exceeds
    (st0 : vtkInteractiveChartXYZ K) (p : vtkVector3 K) :
    let st := st0.CalculateTransforms
    let x := TransformPoint st.ContextTransform.Matrix p
    (st.PointShouldBeClipped p = true ↔
      (st.Face1.DistanceToPlane x > st.MaxDistance ∨ st.Face2.DistanceToPlane x > st.MaxDistance ∨
       st.Face3.DistanceToPlane x > st.MaxDistance ∨ st.Face4.DistanceToPlane x > st.MaxDistance ∨
       st.Face5.DistanceToPlane x > st.MaxDistance ∨ st.Face6.DistanceToPlane x > st.MaxDistance)) ∧
    ((st.Face1.DistanceToPlane x ≤ st.MaxDistance ∧ st.Face2.DistanceToPlane x ≤ st.MaxDistance ∧
      st.Face3.DistanceToPlane x ≤ st.MaxDistance ∧ st.Face4.DistanceToPlane x ≤ st.MaxDistance ∧
      st.Face5.DistanceToPlane x ≤ st.MaxDistance ∧ st.Face6.DistanceToPlane x ≤ st.MaxDistance) →
      st.PointShouldBeClipped p = false) := by
  intro st x
  exact ⟨PointShouldBeClipped_eq_true_iff st p,
    fun ⟨h1, h2, h3, h4, h5, h6⟩ => PointShouldBeClipped_eq_false_of_le st p h1 h2 h3 h4 h5 h6⟩

/-! ## Matrices and point maps -/

/-- Entry `(i, j)` of a product of two 4x4 matrices. -/
theorem mul_apply4 (a b : vtkMatrix4x4 K) (i j : Fin 4) :
    (a * b) i j = a i 0 * b 0 j + a i 1 * b 1 j + a i 2 * b 2 j + a i 3 * b 3 j := by
  simp [Matrix.mul_apply, Fin.sum_univ_four]

/-- The sixteen entries of a translation matrix. -/
theorem TranslateMatrix_apply (x y z : K) :
    (TranslateMatrix x y z 0 0 = 1 ∧ TranslateMatrix x y z 0 1 = 0 ∧
     TranslateMatrix x y z 0 2 = 0 ∧ TranslateMatrix x y z 0 3 = x) ∧
    (TranslateMatrix x y z 1 0 = 0 ∧ TranslateMatrix x y z 1 1 = 1 ∧
     TranslateMatrix x y z 1 2 = 0 ∧ TranslateMatrix x y z 1 3 = y) ∧
    (TranslateMatrix x y z 2 0 = 0 ∧ TranslateMatrix x y z 2 1 = 0 ∧
     TranslateMatrix x y z 2 2 = 1 ∧ TranslateMatrix x y z 2 3 = z) ∧
    (TranslateMatrix x y z 3 0 = 0 ∧ TranslateMatrix x y z 3 1 = 0 ∧
     TranslateMatrix x y z 3 2 = 0 ∧ TranslateMatrix x y z 3 3 = 1) :=
  ⟨⟨rfl, rfl, rfl, rfl⟩, ⟨rfl, rfl, rfl, rfl⟩, ⟨rfl, rfl, rfl, rfl⟩, ⟨rfl, rfl, rfl, rfl⟩⟩

/-- The sixteen entries of a scaling matrix. -/
theorem ScaleMatrix_apply (x y z : K) :
    (ScaleMatrix x y z 0 0 = x ∧ ScaleMatrix x y z 0 1 = 0 ∧
     ScaleMatrix x y z 0 2 = 0 ∧ ScaleMatrix x y z 0 3 = 0) ∧
    (ScaleMatrix x y z 1 0 = 0 ∧ ScaleMatrix x y z 1 1 = y ∧
     ScaleMatrix x y z 1 2 = 0 ∧ ScaleMatrix x y z 1 3 = 0) ∧
    (ScaleMatrix x y z 2 0 = 0 ∧ ScaleMatrix x y z 2 1 = 0 ∧
     ScaleMatrix x y z 2 2 = z ∧ ScaleMatrix x y z 2 3 = 0) ∧
    (ScaleMatrix x y z 3 0 = 0 ∧ ScaleMatrix x y z 3 1 = 0 ∧
     ScaleMatrix x y z 3 2 = 0 ∧ ScaleMatrix x y z 3 3 = 1) :=
  ⟨⟨rfl, rfl, rfl, rfl⟩, ⟨rfl, rfl, rfl, rfl⟩, ⟨rfl, rfl, rfl, rfl⟩, ⟨rfl, rfl, rfl, rfl⟩⟩

/-- Two translations compose to the translation by the sum. -/
theorem TranslateMatrix_mul (x y z a b c : K) :
    TranslateMatrix x y z * TranslateMatrix a b c = TranslateMatrix (x + a) (y + b) (z + c) := by
  ext i j
  fin_cases i <;> fin_cases j <;>
    simp [TranslateMatrix_apply, mul_apply4, add_comm]

/-- Two scalings compose to the scaling by the products. -/
theorem ScaleMatrix_mul (x y z a b c : K) :
    ScaleMatrix x y z * ScaleMatrix a b c = ScaleMatrix (x * a) (y * b) (z * c) := by
  ext i j
  fin_cases i <;> fin_cases j <;>
    simp [ScaleMatrix_apply, mul_apply4]

/-- The translation by zero is the identity matrix. -/
theorem TranslateMatrix_zero : TranslateMatrix (0 : K) 0 0 = 1 := by
  ext i j
  fin_cases i <;> fin_cases j <;> simp [TranslateMatrix_apply]

/-- The scaling by one is the identity matrix. -/
theorem ScaleMatrix_one : ScaleMatrix (1 : K) 1 1 = 1 := by
  ext i j
  fin_cases i <;> fin_cases j <;> simp [ScaleMatrix_apply]

/-- A translation by `(h, h, h)` after the translation by `(−h, −h, −h)` is the identity. -/
theorem TranslateMatrix_zero_of_neg (h : K) : TranslateMatrix (h + -h) (h + -h) (h + -h) = 1 := by
  rw [add_neg_cancel, TranslateMatrix_zero]

/-- Equal offsets give equal translation matrices. -/
theorem TranslateMatrix_congr {x y z a b c : K} (hx : x = a) (hy : y = b) (hz : z = c) :
    TranslateMatrix x y z = TranslateMatrix a b c := by
  rw [hx, hy, hz]

/-- The identity matrix maps every point to itself. -/
theorem TransformPoint_one (p : vtkVector3 K) : TransformPoint (1 : vtkMatrix4x4 K) p = p := by
  ext <;> simp [TransformPoint]

/-- A translation matrix adds its offsets. -/
theorem TransformPoint_TranslateMatrix (x y z : K) (p : vtkVector3 K) :
    TransformPoint (TranslateMatrix x y z) p = ⟨p.X + x, p.Y + y, p.Z + z⟩ := by
  ext <;> simp [TransformPoint, TranslateMatrix_apply]

/-- A scaling matrix multiplies the coordinates. -/
theorem TransformPoint_ScaleMatrix (x y z : K) (p : vtkVector3 K) :
    TransformPoint (ScaleMatrix x y z) p = ⟨x * p.X, y * p.Y, z * p.Z⟩ := by
  ext <;> simp [TransformPoint, ScaleMatrix_apply]

/-- The point map of a product is the composition of the point maps at every point whose
fourth homogeneous coordinate stays 1 under the right factor. -/
theorem TransformPoint_mul_of_w (a b : vtkMatrix4x4 K) (p : vtkVector3 K)
    (hw : b 3 0 * p.X + b 3 1 * p.Y + b 3 2 * p.Z + b 3 3 = 1) :
    TransformPoint (a * b) p = TransformPoint a (TransformPoint b p) := by
  ext
  · simp only [TransformPoint, mul_apply4]; linear_combination (a 0 3) * hw
  · simp only [TransformPoint, mul_apply4]; linear_combination (a 1 3) * hw
  · simp only [TransformPoint, mul_apply4]; linear_combination (a 2 3) * hw

/-- The point map of a product is the composition of the point maps when the right
factor is affine. -/
theorem TransformPoint_mul (a b : vtkMatrix4x4 K) (hb : IsAffine b) (p : vtkVector3 K) :
    TransformPoint (a * b) p = TransformPoint a (TransformPoint b p) := by
  obtain ⟨h0, h1, h2, h3⟩ := hb
  exact TransformPoint_mul_of_w a b p (by rw [h0, h1, h2, h3]; ring)

theorem IsAffine_one : IsAffine (1 : vtkMatrix4x4 K) := by
  simp [IsAffine]

theorem IsAffine_TranslateMatrix (x y z : K) : IsAffine (TranslateMatrix x y z) := by
  simp [IsAffine, TranslateMatrix_apply]

theorem IsAffine_ScaleMatrix (x y z : K) : IsAffine (ScaleMatrix x y z) := by
  simp [IsAffine, ScaleMatrix_apply]

theorem IsAffine_mul {a b : vtkMatrix4x4 K} (ha : IsAffine a) (hb : IsAffine b) :
    IsAffine (a * b) := by
  obtain ⟨a0, a1, a2, a3⟩ := ha
  obtain ⟨b0, b1, b2, b3⟩ := hb
  simp [IsAffine, mul_apply4, a0, a1, a2, a3, b0, b1, b2, b3]

/-! ## The transforms built by `CalculateTransforms` -/

/-- The matrix `Box` after `CalculateTransforms`: the six factors in post-multiply order. -/
theorem CalculateBox_Matrix (st : vtkInteractiveChartXYZ K) :
    st.CalculateBox.Matrix =
      TranslateMatrix (st.axes 0).Position1.X (st.axes 1).Position1.Y (st.axes 2).Position1.Y *
        (ScaleMatrix st.scale.X st.scale.Y st.scale.Z *
          (TranslateMatrix (1 / 2) (1 / 2) (1 / 2) *
            (st.BoxScale.Matrix * (st.Rotation.Matrix *
              TranslateMatrix (-(1 / 2)) (-(1 / 2)) (-(1 / 2)))))) := by
  simp [CalculateBox, vtkTransform.Translate, vtkTransform.Scale, vtkTransform.Concatenate,
    vtkTransform.Identity, vtkTransform.PostMultiply]

/-- The matrix `ContextTransform` after `CalculateTransforms`, in pre-multiply mode. -/
theorem CalculateContextTransform_Matrix (st : vtkInteractiveChartXYZ K)
    (hpre : st.ContextTransform.PreMultiplyFlag = true) :
    st.CalculateContextTransform.Matrix =
      st.Translation.Matrix *
        (TranslateMatrix st.translation.X st.translation.Y st.translation.Z *
          (st.Rotation.Matrix * (st.BoxScale.Matrix * (st.Scale.Matrix *
            (TranslateMatrix (-st.translation.X) (-st.translation.Y) (-st.translation.Z) *
              (TranslateMatrix ((st.axes 0).Position1.X - st.Geometry.X)
                  ((st.axes 1).Position1.Y - st.Geometry.Y) (st.axes 2).Position1.Y *
                st.Transform.Matrix)))))) := by
  simp [CalculateContextTransform, vtkTransform.Translate, vtkTransform.Concatenate,
    vtkTransform.Identity, hpre, vtkVector3.smul, mul_assoc]

/-- C4: with `ContextTransform` in the pre-multiply mode of a fresh `vtkTransform`,
`CalculateTransforms` sets it to
`Translation · translate(c) · Rotation · BoxScale · Scale · translate(−c) · translate(a − g) · Transform`
in that order, `c` the midpoint of the three axis extents, `a` the axis origin and `g`
the geometry origin; the result does not depend on the matrix it held before. -/
theorem CalculateTransforms_ContextTransform_product (st : vtkInteractiveChartXYZ K)
    (hpre : st.ContextTransform.PreMultiplyFlag = true) :
    st.CalculateTransforms.ContextTransform.Matrix =
      st.Translation.Matrix *
        TranslateMatrix (((st.axes 0).Position1.X + (st.axes 0).Position2.X) / 2)
                        (((st.axes 1).Position1.Y + (st.axes 1).Position2.Y) / 2)
                        (((st.axes 2).Position1.Y + (st.axes 2).Position2.Y) / 2) *
        st.Rotation.Matrix * st.BoxScale.Matrix * st.Scale.Matrix *
        TranslateMatrix (-(((st.axes 0).Position1.X + (st.axes 0).Position2.X) / 2))
                        (-(((st.axes 1).Position1.Y + (st.axes 1).Position2.Y) / 2))
                        (-(((st.axes 2).Position1.Y + (st.axes 2).Position2.Y) / 2)) *
        TranslateMatrix ((st.axes 0).Position1.X - st.Geometry.X)
                        ((st.axes 1).Position1.Y - st.Geometry.Y)
                        ((st.axes 2).Position1.Y - 0) *
        st.Transform.Matrix ∧
    ∀ previous : vtkMatrix4x4 K,
      ({ st with ContextTransform := { st.ContextTransform with Matrix := previous } }
        : vtkInteractiveChartXYZ K).CalculateTransforms.ContextTransform =
        st.CalculateTransforms.ContextTransform := by
  have hx : ∀ a b : K, (b - a) / 2 + a = (a + b) / 2 := fun a b => by ring
  have hct : st.CalculateTransforms.ContextTransform.Matrix =
      st.CalculateContextTransform.Matrix := rfl
  constructor
  · rw [hct, CalculateContextTransform_Matrix st hpre]
    simp only [vtkInteractiveChartXYZ.translation, hx, sub_zero, mul_assoc]
  · intro previous
    simp [CalculateTransforms, SetupClippingPlanes, CalculateContextTransform,
      vtkTransform.Translate, vtkTransform.Concatenate, vtkTransform.Identity,
      CalculateBox, vtkInteractiveChartXYZ.translation, vtkInteractiveChartXYZ.scale]

/-- C4 at the scenario chart. -/
theorem CalculateTransforms_ContextTransform_product_witness :
    scenarioChart.ContextTransform.PreMultiplyFlag = true ∧
    scenarioChart.CalculateTransforms.ContextTransform.Matrix =
      scenarioChart.Translation.Matrix *
        TranslateMatrix ((50 + 450) / 2) ((50 + 450) / 2) ((50 + 450) / 2) *
        scenarioChart.Rotation.Matrix * scenarioChart.BoxScale.Matrix *
        scenarioChart.Scale.Matrix *
        TranslateMatrix (-((50 + 450) / 2)) (-((50 + 450) / 2)) (-((50 + 450) / 2)) *
        TranslateMatrix (50 - 0) (50 - 0) (50 - 0) *
        scenarioChart.Transform.Matrix :=
  ⟨rfl, (CalculateTransforms_ContextTransform_product scenarioChart rfl).1⟩

/-- With the five primitives at identity the context transform is one translation,
whatever the composition mode. -/
theorem CalculateContextTransform_Matrix_of_identity (st : vtkInteractiveChartXYZ K)
    (hT : st.Translation.Matrix = 1) (hR : st.Rotation.Matrix = 1) (hB : st.BoxScale.Matrix = 1)
    (hS : st.Scale.Matrix = 1) (hD : st.Transform.Matrix = 1) :
    st.CalculateContextTransform.Matrix =
      TranslateMatrix ((st.axes 0).Position1.X - st.Geometry.X)
        ((st.axes 1).Position1.Y - st.Geometry.Y) (st.axes 2).Position1.Y := by
  cases hflag : st.ContextTransform.PreMultiplyFlag <;>
    simp only [CalculateContextTransform, vtkTransform.Translate, vtkTransform.Concatenate,
      vtkTransform.Identity, hflag, hT, hR, hB, hS, hD, vtkVector3.smul, mul_one, one_mul,
      TranslateMatrix_mul, if_true, if_false, Bool.false_eq_true] <;>
    exact TranslateMatrix_congr (by ring) (by ring) (by ring)

/-- With `Rotation` and `BoxScale` at identity the box transform scales by the axis extent
lengths and translates by the axis origin. -/
theorem CalculateBox_TransformPoint_of_identity (st : vtkInteractiveChartXYZ K)
    (hR : st.Rotation.Matrix = 1) (hB : st.BoxScale.Matrix = 1) (q : vtkVector3 K) :
    TransformPoint st.CalculateBox.Matrix q =
      ⟨(st.axes 0).Position1.X + q.X * ((st.axes 0).Position2.X - (st.axes 0).Position1.X),
       (st.axes 1).Position1.Y + q.Y * ((st.axes 1).Position2.Y - (st.axes 1).Position1.Y),
       (st.axes 2).Position1.Y + q.Z * ((st.axes 2).Position2.Y - (st.axes 2).Position1.Y)⟩ := by
  rw [CalculateBox_Matrix, hR, hB, one_mul, one_mul, TranslateMatrix_mul,
    TranslateMatrix_zero_of_neg, mul_one, TransformPoint_mul _ _ (IsAffine_ScaleMatrix _ _ _),
    TransformPoint_ScaleMatrix, TransformPoint_TranslateMatrix]
  ext <;> simp [vtkInteractiveChartXYZ.scale] <;> ring

/-- C10, as stated, fails: on the chart placed at `(75, 20)` every primitive and the
device transform are the identity, yet the context transform is not the translation by
the axis origin `(50, 50, 50)`. -/
theorem CalculateTransforms_identity_not_axis_origin :
    (placedChart.Translation.Matrix = 1 ∧ placedChart.Rotation.Matrix = 1 ∧
      placedChart.Scale.Matrix = 1 ∧ placedChart.BoxScale.Matrix = 1 ∧
      placedChart.Transform.Matrix = 1) ∧
    placedChart.CalculateTransforms.ContextTransform.Matrix ≠
      TranslateMatrix (placedChart.axes 0).Position1.X (placedChart.axes 1).Position1.Y
        (placedChart.axes 2).Position1.Y := by
  refine ⟨⟨rfl, rfl, rfl, rfl, rfl⟩, ?_⟩
  have hc : placedChart.CalculateTransforms.ContextTransform.Matrix =
      placedChart.CalculateContextTransform.Matrix := rfl
  rw [hc, CalculateContextTransform_Matrix_of_identity placedChart rfl rfl rfl rfl rfl]
  intro h
  have h03 := congrFun (congrFun h 0) 3
  simp only [(TranslateMatrix_apply _ _ _).1.2.2.2] at h03
  simp [placedChart, scenarioChart] at h03

/-- C10 (amended): with `Translation`, `Rotation`, `Scale`, `BoxScale` and the device
transform at identity, the context transform computed by `CalculateTransforms` is the
pure translation by the axis origin minus the geometry origin,
`(x1 − Geometry.X, y1 − Geometry.Y, z1)`: it moves every point by that offset, with no
rotation or scaling part; it is the translation by the axis origin when the geometry
origin is `(0, 0)`. -/
theorem CalculateTransforms_identity_is_translation (st : vtkInteractiveChartXYZ K)
    (hT : st.Translation.Matrix = 1) (hR : st.Rotation.Matrix = 1) (hS : st.Scale.Matrix = 1)
    (hB : st.BoxScale.Matrix = 1) (hD : st.Transform.Matrix = 1) :
    st.CalculateTransforms.ContextTransform.Matrix =
      TranslateMatrix ((st.axes 0).Position1.X - st.Geometry.X)
        ((st.axes 1).Position1.Y - st.Geometry.Y) (st.axes 2).Position1.Y ∧
    (∀ p : vtkVector3 K,
      TransformPoint st.CalculateTransforms.ContextTransform.Matrix p =
        ⟨p.X + ((st.axes 0).Position1.X - st.Geometry.X),
         p.Y + ((st.axes 1).Position1.Y - st.Geometry.Y),
         p.Z + (st.axes 2).Position1.Y⟩) ∧
    (st.Geometry.X = 0 → st.Geometry.Y = 0 →
      st.CalculateTransforms.ContextTransform.Matrix =
        TranslateMatrix (st.axes 0).Position1.X (st.axes 1).Position1.Y
          (st.axes 2).Position1.Y) := by
  have hc : st.CalculateTransforms.ContextTransform.Matrix =
      st.CalculateContextTransform.Matrix := rfl
  rw [hc, CalculateContextTransform_Matrix_of_identity st hT hR hB hS hD]
  refine ⟨rfl, fun p => TransformPoint_TranslateMatrix _ _ _ p, fun hx hy => ?_⟩
  rw [hx, hy, sub_zero, sub_zero]

/-- C10 (amended) at the chart placed at `(75, 20)`: the translation is by `(−25, 30, 50)`. -/
theorem CalculateTransforms_identity_is_translation_witness :
    placedChart.CalculateTransforms.ContextTransform.Matrix =
      TranslateMatrix (50 - 75) (50 - 20) 50 :=
  (CalculateTransforms_identity_is_translation placedChart rfl rfl rfl rfl rfl).1

/-- C5: the `Box` built by `CalculateTransforms` is the product, in post-multiply order,
of translate(−0.5), `Rotation`, `BoxScale`, translate(0.5), the scaling by the axis
extent lengths and the translation by the axis origin.  For affine `Rotation` and
`BoxScale` it maps a point by applying these six maps in this order; with `Rotation`
and `BoxScale` at identity it maps `(i, j, k)` to `(x1 + i·ex, y1 + j·ey, z1 + k·ez)`;
and when `Rotation` and `BoxScale` have no translation part it maps the cube centre to
the centre of the axis box. -/
theorem CalculateTransforms_Box_maps (st : vtkInteractiveChartXYZ K) :
    st.CalculateTransforms.Box.Matrix =
      TranslateMatrix (st.axes 0).Position1.X (st.axes 1).Position1.Y (st.axes 2).Position1.Y *
        (ScaleMatrix ((st.axes 0).Position2.X - (st.axes 0).Position1.X)
                     ((st.axes 1).Position2.Y - (st.axes 1).Position1.Y)
                     ((st.axes 2).Position2.Y - (st.axes 2).Position1.Y) *
          (TranslateMatrix (1 / 2) (1 / 2) (1 / 2) *
            (st.BoxScale.Matrix * (st.Rotation.Matrix *
              TranslateMatrix (-(1 / 2)) (-(1 / 2)) (-(1 / 2)))))) ∧
    (IsAffine st.Rotation.Matrix → IsAffine st.BoxScale.Matrix → ∀ p : vtkVector3 K,
      TransformPoint st.CalculateTransforms.Box.Matrix p =
        TransformPoint
          (TranslateMatrix (st.axes 0).Position1.X (st.axes 1).Position1.Y (st.axes 2).Position1.Y)
          (TransformPoint
            (ScaleMatrix ((st.axes 0).Position2.X - (st.axes 0).Position1.X)
                         ((st.axes 1).Position2.Y - (st.axes 1).Position1.Y)
                         ((st.axes 2).Position2.Y - (st.axes 2).Position1.Y))
            (TransformPoint (TranslateMatrix (1 / 2) (1 / 2) (1 / 2))
              (TransformPoint st.BoxScale.Matrix
                (TransformPoint st.Rotation.Matrix
                  (TransformPoint (TranslateMatrix (-(1 / 2)) (-(1 / 2)) (-(1 / 2))) p)))))) ∧
    (st.Rotation.Matrix = 1 → st.BoxScale.Matrix = 1 → ∀ i j k : K,
      TransformPoint st.CalculateTransforms.Box.Matrix ⟨i, j, k⟩ =
        ⟨(st.axes 0).Position1.X + i * ((st.axes 0).Position2.X - (st.axes 0).Position1.X),
         (st.axes 1).Position1.Y + j * ((st.axes 1).Position2.Y - (st.axes 1).Position1.Y),
         (st.axes 2).Position1.Y + k * ((st.axes 2).Position2.Y - (st.axes 2).Position1.Y)⟩) ∧
    (HasNoTranslation st.Rotation.Matrix → HasNoTranslation st.BoxScale.Matrix →
      TransformPoint st.CalculateTransforms.Box.Matrix ⟨1 / 2, 1 / 2, 1 / 2⟩ =
        ⟨((st.axes 0).Position1.X + (st.axes 0).Position2.X) / 2,
         ((st.axes 1).Position1.Y + (st.axes 1).Position2.Y) / 2,
         ((st.axes 2).Position1.Y + (st.axes 2).Position2.Y) / 2⟩) := by
  have hbox : st.CalculateTransforms.Box.Matrix = st.CalculateBox.Matrix := rfl
  rw [hbox, CalculateBox_Matrix]
  refine ⟨rfl, ?_, ?_, ?_⟩
  · intro hR hB p
    have h1 := IsAffine_TranslateMatrix (-(1 / 2) : K) (-(1 / 2)) (-(1 / 2))
    have h2 := IsAffine_mul hR h1
    have h3 := IsAffine_mul hB h2
    have h4 := IsAffine_mul (IsAffine_TranslateMatrix (1 / 2 : K) (1 / 2) (1 / 2)) h3
    have h5 := IsAffine_mul
      (IsAffine_ScaleMatrix st.scale.X st.scale.Y st.scale.Z) h4
    rw [TransformPoint_mul _ _ h5, TransformPoint_mul _ _ h4, TransformPoint_mul _ _ h3,
      TransformPoint_mul _ _ h2, TransformPoint_mul _ _ h1]
    rfl
  · intro hR hB i j k
    rw [← CalculateBox_Matrix]
    exact CalculateBox_TransformPoint_of_identity st hR hB ⟨i, j, k⟩
  · rintro ⟨r0, r1, r2, r3⟩ ⟨b0, b1, b2, b3⟩
    have hzero : TransformPoint (TranslateMatrix (-(1 / 2) : K) (-(1 / 2)) (-(1 / 2)))
        ⟨1 / 2, 1 / 2, 1 / 2⟩ = ⟨0, 0, 0⟩ := by
      rw [TransformPoint_TranslateMatrix]; ext <;> simp
    have hR : TransformPoint st.Rotation.Matrix ⟨0, 0, 0⟩ = ⟨0, 0, 0⟩ := by
      ext <;> simp [TransformPoint, r0, r1, r2]
    have hB : TransformPoint st.BoxScale.Matrix ⟨0, 0, 0⟩ = ⟨0, 0, 0⟩ := by
      ext <;> simp [TransformPoint, b0, b1, b2]
    rw [← mul_assoc, ← mul_assoc, ← mul_assoc, ← mul_assoc,
      TransformPoint_mul _ _ (IsAffine_TranslateMatrix _ _ _), hzero,
      TransformPoint_mul_of_w _ _ _ (by simp [r3]), hR,
      TransformPoint_mul_of_w _ _ _ (by simp [b3]), hB,
      TransformPoint_mul _ _ (IsAffine_TranslateMatrix _ _ _),
      TransformPoint_mul _ _ (IsAffine_ScaleMatrix _ _ _),
      TransformPoint_TranslateMatrix, TransformPoint_ScaleMatrix, TransformPoint_TranslateMatrix]
    ext <;> simp [vtkInteractiveChartXYZ.scale] <;> ring

/-- C5 at the scenario chart: the corner `(1, 0, 1)` and the cube centre. -/
theorem CalculateTransforms_Box_maps_witness :
    (IsAffine scenarioChart.Rotation.Matrix ∧ IsAffine scenarioChart.BoxScale.Matrix) ∧
    (HasNoTranslation scenarioChart.Rotation.Matrix ∧
      HasNoTranslation scenarioChart.BoxScale.Matrix) ∧
    TransformPoint scenarioChart.CalculateTransforms.Box.Matrix ⟨1, 0, 1⟩ =
      TransformPoint (TranslateMatrix 50 50 50)
        (TransformPoint (ScaleMatrix (450 - 50) (450 - 50) (450 - 50))
          (TransformPoint (TranslateMatrix (1 / 2) (1 / 2) (1 / 2))
            (TransformPoint scenarioChart.BoxScale.Matrix
              (TransformPoint scenarioChart.Rotation.Matrix
                (TransformPoint (TranslateMatrix (-(1 / 2)) (-(1 / 2)) (-(1 / 2)))
                  ⟨1, 0, 1⟩))))) ∧
    TransformPoint scenarioChart.CalculateTransforms.Box.Matrix ⟨1, 0, 1⟩ =
      ⟨50 + 1 * (450 - 50), 50 + 0 * (450 - 50), 50 + 1 * (450 - 50)⟩ ∧
    TransformPoint scenarioChart.CalculateTransforms.Box.Matrix ⟨1 / 2, 1 / 2, 1 / 2⟩ =
      ⟨(50 + 450) / 2, (50 + 450) / 2, (50 + 450) / 2⟩ :=
  have hA : IsAffine scenarioChart.Rotation.Matrix ∧ IsAffine scenarioChart.BoxScale.Matrix :=
    ⟨IsAffine_one, IsAffine_one⟩
  have hN : HasNoTranslation scenarioChart.Rotation.Matrix ∧
      HasNoTranslation scenarioChart.BoxScale.Matrix := by
    constructor <;> simp [HasNoTranslation, scenarioChart]
  ⟨hA, hN,
    (CalculateTransforms_Box_maps scenarioChart).2.1 hA.1 hA.2 ⟨1, 0, 1⟩,
    (CalculateTransforms_Box_maps scenarioChart).2.2.1 rfl rfl 1 0 1,
    (CalculateTransforms_Box_maps scenarioChart).2.2.2 hN.1 hN.2⟩

/-! ## The clipping planes -/

/-- The six plane distances of the `Box` image of `(u, v, w)`: each is the magnitude of
one cube coordinate, or of its distance to 1, times `MaxDistance`. -/
theorem SetupClippingPlanes_distances (st : vtkInteractiveChartXYZ K) (u v w : K) :
    st.SetupClippingPlanes.Face1.DistanceToPlane (TransformPoint st.Box.Matrix ⟨u, v, w⟩) =
      |u| * st.SetupClippingPlanes.MaxDistance ∧
    st.SetupClippingPlanes.Face2.DistanceToPlane (TransformPoint st.Box.Matrix ⟨u, v, w⟩) =
      |u - 1| * st.SetupClippingPlanes.MaxDistance ∧
    st.SetupClippingPlanes.Face3.DistanceToPlane (TransformPoint st.Box.Matrix ⟨u, v, w⟩) =
      |v| * st.SetupClippingPlanes.MaxDistance ∧
    st.SetupClippingPlanes.Face4.DistanceToPlane (TransformPoint st.Box.Matrix ⟨u, v, w⟩) =
      |v - 1| * st.SetupClippingPlanes.MaxDistance ∧
    st.SetupClippingPlanes.Face5.DistanceToPlane (TransformPoint st.Box.Matrix ⟨u, v, w⟩) =
      |w| * st.SetupClippingPlanes.MaxDistance ∧
    st.SetupClippingPlanes.Face6.DistanceToPlane (TransformPoint st.Box.Matrix ⟨u, v, w⟩) =
      |w - 1| * st.SetupClippingPlanes.MaxDistance := by
  simp only [SetupClippingPlanes, vtkPlane.DistanceToPlane, ← abs_mul]
  refine ⟨?_, ?_, ?_, ?_, ?_, ?_⟩
  · congr 1
    simp only [vtkVector3.dot, vtkVector3.sub, Cross, TransformPoint, cube]; ring
  · congr 1
    simp only [vtkVector3.dot, vtkVector3.sub, Cross, TransformPoint, cube]; ring
  · rw [← abs_neg]; congr 1
    simp only [vtkVector3.dot, vtkVector3.sub, Cross, TransformPoint, cube]; ring
  · rw [← abs_neg]; congr 1
    simp only [vtkVector3.dot, vtkVector3.sub, Cross, TransformPoint, cube]; ring
  · congr 1
    simp only [vtkVector3.dot, vtkVector3.sub, Cross, TransformPoint, cube]; ring
  · congr 1
    simp only [vtkVector3.dot, vtkVector3.sub, Cross, TransformPoint, cube]; ring

/-- The threshold `MaxDistance` is never negative. -/
theorem SetupClippingPlanes_MaxDistance_nonneg (st : vtkInteractiveChartXYZ K) :
    0 ≤ st.SetupClippingPlanes.MaxDistance := by
  simp only [SetupClippingPlanes, vtkPlane.DistanceToPlane]
  exact abs_nonneg _

/-- C3: after `CalculateTransforms`, every data point whose `ContextTransform` image is
the `Box` image of a point `(u, v, w)` of the closed unit cube is kept. -/
theorem PointShouldBeClipped_false_of_image_in_box (st0 : vtkInteractiveChartXYZ K)
    (p : vtkVector3 K) (u v w : K)
    (hu : 0 ≤ u ∧ u ≤ 1) (hv : 0 ≤ v ∧ v ≤ 1) (hw : 0 ≤ w ∧ w ≤ 1)
    (himage : TransformPoint st0.CalculateTransforms.ContextTransform.Matrix p =
      TransformPoint st0.CalculateTransforms.Box.Matrix ⟨u, v, w⟩) :
    st0.CalculateTransforms.PointShouldBeClipped p = false := by
  have hd := SetupClippingPlanes_distances
    ({ st0 with ContextTransform := st0.CalculateContextTransform, Box := st0.CalculateBox }) u v w
  have hm := SetupClippingPlanes_MaxDistance_nonneg
    ({ st0 with ContextTransform := st0.CalculateContextTransform, Box := st0.CalculateBox })
  have hbox : st0.CalculateTransforms.Box.Matrix = st0.CalculateBox.Matrix := rfl
  rw [hbox] at himage
  obtain ⟨d1, d2, d3, d4, d5, d6⟩ := hd
  have hle : ∀ t : K, |t| ≤ 1 → |t| * st0.CalculateTransforms.MaxDistance ≤
      st0.CalculateTransforms.MaxDistance := fun t ht => mul_le_of_le_one_left hm ht
  apply PointShouldBeClipped_eq_false_of_le <;> rw [himage]
  · exact d1.le.trans (hle u (abs_le.2 ⟨by linarith [hu.1], hu.2⟩))
  · exact d2.le.trans (hle (u - 1) (abs_le.2 ⟨by linarith [hu.1], by linarith [hu.2]⟩))
  · exact d3.le.trans (hle v (abs_le.2 ⟨by linarith [hv.1], hv.2⟩))
  · exact d4.le.trans (hle (v - 1) (abs_le.2 ⟨by linarith [hv.1], by linarith [hv.2]⟩))
  · exact d5.le.trans (hle w (abs_le.2 ⟨by linarith [hw.1], hw.2⟩))
  · exact d6.le.trans (hle (w - 1) (abs_le.2 ⟨by linarith [hw.1], by linarith [hw.2]⟩))

/-- C3 at the scenario chart (all primitives at identity, axis box from 50 to 450): the
data point `(1/2, 1/4, 1)` of the unit cube is mapped to `(50.5, 50.25, 51)`, the `Box`
image of `(1/800, 1/1600, 1/400)`, and is kept; and so is every point of the unit cube. -/
theorem PointShouldBeClipped_false_of_image_in_box_witness :
    (TransformPoint scenarioChart.CalculateTransforms.ContextTransform.Matrix ⟨1 / 2, 1 / 4, 1⟩ =
      TransformPoint scenarioChart.CalculateTransforms.Box.Matrix ⟨1 / 800, 1 / 1600, 1 / 400⟩ ∧
    scenarioChart.CalculateTransforms.PointShouldBeClipped ⟨1 / 2, 1 / 4, 1⟩ = false) ∧
    ∀ p : vtkVector3 ℚ, (0 ≤ p.X ∧ p.X ≤ 1) → (0 ≤ p.Y ∧ p.Y ≤ 1) → (0 ≤ p.Z ∧ p.Z ≤ 1) →
      scenarioChart.CalculateTransforms.PointShouldBeClipped p = false :=
  have himage : ∀ p : vtkVector3 ℚ,
      TransformPoint scenarioChart.CalculateTransforms.ContextTransform.Matrix p =
      TransformPoint scenarioChart.CalculateTransforms.Box.Matrix
        ⟨p.X / 400, p.Y / 400, p.Z / 400⟩ := by
    intro p
    have hc : scenarioChart.CalculateTransforms.ContextTransform.Matrix =
        scenarioChart.CalculateContextTransform.Matrix := rfl
    have hb : scenarioChart.CalculateTransforms.Box.Matrix =
        scenarioChart.CalculateBox.Matrix := rfl
    rw [hc, hb, CalculateContextTransform_Matrix_of_identity scenarioChart rfl rfl rfl rfl rfl,
      CalculateBox_TransformPoint_of_identity scenarioChart rfl rfl,
      TransformPoint_TranslateMatrix]
    ext <;> simp [scenarioChart] <;> ring
  have hpoint : TransformPoint scenarioChart.CalculateTransforms.ContextTransform.Matrix
      ⟨1 / 2, 1 / 4, 1⟩ =
      TransformPoint scenarioChart.CalculateTransforms.Box.Matrix
        ⟨1 / 800, 1 / 1600, 1 / 400⟩ := by
    rw [himage]; norm_num
  ⟨⟨hpoint, PointShouldBeClipped_false_of_image_in_box scenarioChart ⟨1 / 2, 1 / 4, 1⟩
      (1 / 800) (1 / 1600) (1 / 400) (by norm_num) (by norm_num) (by norm_num) hpoint⟩,
    fun p hx hy hz =>
      PointShouldBeClipped_false_of_image_in_box scenarioChart p (p.X / 400) (p.Y / 400)
        (p.Z / 400)
        ⟨div_nonneg hx.1 (by norm_num), (div_le_one (by norm_num)).2 (by linarith [hx.2])⟩
        ⟨div_nonneg hy.1 (by norm_num), (div_le_one (by norm_num)).2 (by linarith [hy.2])⟩
        ⟨div_nonneg hz.1 (by norm_num), (div_le_one (by norm_num)).2 (by linarith [hz.2])⟩
        (himage p)⟩

/-- Why `DistanceToPlane` is a magnitude: in the scenario chart the plane function of
`Face1` without the magnitude is −80000 at the image of the inner data point
`(1/2, 1/4, 1)` and −64000000 at the far corner, so compared without magnitudes this
point of the unit cube would exceed the threshold. -/
theorem plane_function_exceeds_at_inner_point :
    scenarioChart.CalculateTransforms.Face1.Normal.dot
        ((TransformPoint scenarioChart.CalculateTransforms.ContextTransform.Matrix
          ⟨1 / 2, 1 / 4, 1⟩).sub scenarioChart.CalculateTransforms.Face1.Origin) = -80000 ∧
    scenarioChart.CalculateTransforms.Face1.Normal.dot
        ((TransformPoint scenarioChart.CalculateTransforms.Box.Matrix ⟨1, 1, 1⟩).sub
          scenarioChart.CalculateTransforms.Face1.Origin) = -64000000 := by
  have hc : scenarioChart.CalculateTransforms.ContextTransform.Matrix =
      TranslateMatrix 50 50 50 := by
    have h := CalculateContextTransform_Matrix_of_identity scenarioChart rfl rfl rfl rfl rfl
    simpa [scenarioChart] using h
  have hb : ∀ q : vtkVector3 ℚ, TransformPoint scenarioChart.CalculateBox.Matrix q =
      ⟨50 + q.X * 400, 50 + q.Y * 400, 50 + q.Z * 400⟩ := by
    intro q
    rw [CalculateBox_TransformPoint_of_identity scenarioChart rfl rfl]
    ext <;> simp [scenarioChart] <;> norm_num
  have hbox : scenarioChart.CalculateTransforms.Box.Matrix =
      scenarioChart.CalculateBox.Matrix := rfl
  rw [hc, hbox, TransformPoint_TranslateMatrix, hb]
  simp only [CalculateTransforms, SetupClippingPlanes, hb, cube, vtkVector3.dot, vtkVector3.sub,
    Cross]
  constructor <;> norm_num

/-- The loop of `UpdateClippedPoints` completes when every colour read is inside the
table, and then appends the retained points and their colour entries in order. -/
theorem UpdateClippedPointsLoop_eq (st : vtkInteractiveChartXYZ K) (ps : List (vtkVector3 K)) :
    ∀ (i : Nat) (clipped : List (vtkVector3 K)) (colors : List Nat),
      (∀ k, k < ps.length → (i + k) * st.NumberOfComponents + 2 < st.Colors.length) →
      UpdateClippedPointsLoop st i ps clipped colors =
        some (clipped ++ ((ps.enumFrom i).filter fun ip => !st.PointShouldBeClipped ip.2).map Prod.snd,
              colors ++ ((ps.enumFrom i).filter fun ip => !st.PointShouldBeClipped ip.2).flatMap
                fun ip => [st.Colors.getD (ip.1 * st.NumberOfComponents) 0,
                           st.Colors.getD (ip.1 * st.NumberOfComponents + 1) 0,
                           st.Colors.getD (ip.1 * st.NumberOfComponents + 2) 0]) := by
  induction ps with
  | nil => intro i clipped colors _; simp [UpdateClippedPointsLoop]
  | cons p ps ih =>
    intro i clipped colors h
    have h0 := h 0 (by simp)
    simp only [Nat.add_zero] at h0
    have hrest : ∀ k, k < ps.length →
        (i + 1 + k) * st.NumberOfComponents + 2 < st.Colors.length := by
      intro k hk
      have := h (k + 1) (by simpa using hk)
      rwa [show i + (k + 1) = i + 1 + k by omega] at this
    have e0 : st.Colors[i * st.NumberOfComponents]? =
        some (st.Colors.getD (i * st.NumberOfComponents) 0) := by
      rw [List.getD_eq_getElem?_getD, List.getElem?_eq_getElem (by omega)]; rfl
    have e1 : st.Colors[i * st.NumberOfComponents + 1]? =
        some (st.Colors.getD (i * st.NumberOfComponents + 1) 0) := by
      rw [List.getD_eq_getElem?_getD, List.getElem?_eq_getElem (by omega)]; rfl
    have e2 : st.Colors[i * st.NumberOfComponents + 2]? =
        some (st.Colors.getD (i * st.NumberOfComponents + 2) 0) := by
      rw [List.getD_eq_getElem?_getD, List.getElem?_eq_getElem (by omega)]; rfl
    rw [UpdateClippedPointsLoop, e0, e1, e2]
    simp only [List.enumFrom_cons, List.filter_cons]
    by_cases hc : st.PointShouldBeClipped p = true
    · simp only [hc, Bool.not_true, Bool.false_eq_true, if_false]
      exact ih (i + 1) clipped colors hrest
    · simp only [Bool.not_eq_true] at hc
      simp only [hc, Bool.not_false, if_true]
      rw [ih (i + 1) _ _ hrest]
      simp

/-- C2: whenever every colour read of the loop is inside the colour table (a coloured
chart with three entries per point), `UpdateClippedPoints` completes and, whatever
`clipped_points` and `ClippedColors` held before, `clipped_points` is the subsequence of
`points`, in the original order, of the points that `PointShouldBeClipped` rejects, and
`ClippedColors` holds, for each retained point of original index `i`, the entries
`Colors[3i]`, `Colors[3i+1]`, `Colors[3i+2]` in that order; nothing else changes. -/
theorem UpdateClippedPoints_retains_unclipped_in_order (st : vtkInteractiveChartXYZ K)
    (hread : ∀ i, i < st.points.length →
      i * st.NumberOfComponents + 2 < st.Colors.length) :
    ∃ st1, st.UpdateClippedPoints = some st1 ∧
      st1.clipped_points = st.points.filter (fun p => !st.PointShouldBeClipped p) ∧
      st1.clipped_points =
        (st.points.enum.filter fun ip => !st.PointShouldBeClipped ip.2).map Prod.snd ∧
      (st.NumberOfComponents = 3 →
        st1.ClippedColors =
          (st.points.enum.filter fun ip => !st.PointShouldBeClipped ip.2).flatMap
            fun ip => [st.Colors.getD (3 * ip.1) 0, st.Colors.getD (3 * ip.1 + 1) 0,
                       st.Colors.getD (3 * ip.1 + 2) 0]) ∧
      st1 = { st with clipped_points := st1.clipped_points, ClippedColors := st1.ClippedColors } := by
  have hloop := UpdateClippedPointsLoop_eq st st.points 0 [] []
    (by intro k hk; simpa using hread k hk)
  refine ⟨_, by rw [UpdateClippedPoints, hloop], ?_, ?_, ?_, rfl⟩
  · simp only [List.nil_append]
    have : ∀ (l : List (vtkVector3 K)) (n : Nat),
        ((l.enumFrom n).filter fun ip => !st.PointShouldBeClipped ip.2).map Prod.snd =
          l.filter (fun p => !st.PointShouldBeClipped p) := by
      intro l
      induction l with
      | nil => intro n; simp
      | cons a l ih =>
        intro n
        simp only [List.enumFrom_cons, List.filter_cons]
        split <;> simp [ih]
    exact this _ _
  · simp [List.enum]
  · intro h3
    simp only [List.nil_append, List.enum, h3]
    congr 1
    funext ip
    simp [Nat.mul_comm]

/-- C2 at the scenario chart: three points, nine colour entries, stale vectors. -/
theorem UpdateClippedPoints_retains_unclipped_in_order_witness :
    (∀ i, i < scenarioChart.points.length →
      i * scenarioChart.NumberOfComponents + 2 < scenarioChart.Colors.length) ∧
    ∃ st1, scenarioChart.UpdateClippedPoints = some st1 ∧
      st1.clipped_points =
        scenarioChart.points.filter (fun p => !scenarioChart.PointShouldBeClipped p) ∧
      st1.clipped_points =
        (scenarioChart.points.enum.filter
          fun ip => !scenarioChart.PointShouldBeClipped ip.2).map Prod.snd ∧
      (scenarioChart.NumberOfComponents = 3 →
        st1.ClippedColors =
          (scenarioChart.points.enum.filter
            fun ip => !scenarioChart.PointShouldBeClipped ip.2).flatMap
            fun ip => [scenarioChart.Colors.getD (3 * ip.1) 0,
                       scenarioChart.Colors.getD (3 * ip.1 + 1) 0,
                       scenarioChart.Colors.getD (3 * ip.1 + 2) 0]) ∧
      st1 = { scenarioChart with
              clipped_points := st1.clipped_points, ClippedColors := st1.ClippedColors } :=
  have hread : ∀ i, i < scenarioChart.points.length →
      i * scenarioChart.NumberOfComponents + 2 < scenarioChart.Colors.length := by
    intro i hi
    simp only [scenarioChart, List.length_cons, List.length_nil] at hi ⊢
    omega
  ⟨hread, UpdateClippedPoints_retains_unclipped_in_order scenarioChart hread⟩

/-! ## The fit search -/

/-- Two uniform scalings of a transform amount to one, by the product of the factors. -/
theorem Scale_Scale (t : vtkTransform K) (a b : K) :
    (t.Scale a a a).Scale b b b = t.Scale (a * b) (a * b) (a * b) := by
  cases hflag : t.PreMultiplyFlag
  · simp only [vtkTransform.Scale, vtkTransform.Concatenate, hflag, if_false,
      Bool.false_eq_true, ← mul_assoc, ScaleMatrix_mul, mul_comm b a]
  · simp only [vtkTransform.Scale, vtkTransform.Concatenate, hflag, if_true, mul_assoc,
      ScaleMatrix_mul]

/-- A scaling by one leaves a transform as it is. -/
theorem Scale_one (t : vtkTransform K) : t.Scale 1 1 1 = t := by
  obtain ⟨m, flag⟩ := t
  cases flag <;> simp [vtkTransform.Scale, vtkTransform.Concatenate, ScaleMatrix_one]

/-- After `k` passes only `FutureBoxScale` has changed: it is scaled by `s ^ k`. -/
theorem ScaleSteps_eq (s : K) (k : Nat) : ∀ st : vtkInteractiveChartXYZ K,
    ScaleSteps s st k =
      { st with FutureBoxScale := st.FutureBoxScale.Scale (s ^ k) (s ^ k) (s ^ k) } := by
  induction k with
  | zero => intro st; simp [ScaleSteps, Scale_one]
  | succ k ih =>
    intro st
    rw [ScaleSteps, ih]
    simp only [Scale_Scale, pow_succ']

/-- The matrix of `FutureBox`: the six factors in post-multiply order. -/
theorem FutureBox_Matrix (st : vtkInteractiveChartXYZ K) :
    st.FutureBox.Matrix =
      TranslateMatrix st.FutureBoxOrigin.X st.FutureBoxOrigin.Y st.FutureBoxOrigin.Z *
        (ScaleMatrix st.FutureBoxExtent.X st.FutureBoxExtent.Y st.FutureBoxExtent.Z *
          (TranslateMatrix (1 / 2) (1 / 2) (1 / 2) *
            (st.FutureBoxScale.Matrix * (st.Rotation.Matrix *
              TranslateMatrix (-(1 / 2)) (-(1 / 2)) (-(1 / 2)))))) := by
  simp [FutureBox, vtkTransform.Translate, vtkTransform.Scale, vtkTransform.Concatenate]

/-- No sentinel is outside exactly when every sentinel is inside. -/
theorem AnySentinelOutside_eq_false_iff (st : vtkInteractiveChartXYZ K) :
    st.AnySentinelOutside = false ↔
      ∀ p ∈ st.AxesBoundaryPoints,
        OutsideScene st.Scene.SceneWidth st.Scene.SceneHeight
          (TransformPoint st.FutureBox.Matrix p) = false := by
  simp [AnySentinelOutside, List.any_eq_false]

/-- The sentinel test of a search state agrees with the fit of a chart whose `BoxScale`
is the working scale, on the same axes, rotation, sentinels and scene. -/
theorem BoxFitsScene_iff_of_FutureBox (st st2 : vtkInteractiveChartXYZ K)
    (hscale : st.FutureBoxScale.Matrix = st2.BoxScale.Matrix)
    (hrot : st.Rotation = st2.Rotation)
    (hext : st.FutureBoxExtent = st2.scale)
    (horg : st.FutureBoxOrigin =
      ⟨(st2.axes 0).Position1.X, (st2.axes 1).Position1.Y, (st2.axes 2).Position1.Y⟩)
    (hpts : st.AxesBoundaryPoints = st2.AxesBoundaryPoints) (hscene : st.Scene.SceneWidth =
      st2.Scene.SceneWidth ∧ st.Scene.SceneHeight = st2.Scene.SceneHeight) :
    BoxFitsScene st2 ↔ st.AnySentinelOutside = false := by
  have hm : st2.CalculateTransforms.Box.Matrix = st.FutureBox.Matrix := by
    have hb : st2.CalculateTransforms.Box.Matrix = st2.CalculateBox.Matrix := rfl
    rw [hb, CalculateBox_Matrix, FutureBox_Matrix, hscale, hrot, hext, horg]
  rw [AnySentinelOutside_eq_false_iff, BoxFitsScene, hm, hpts, hscene.1, hscene.2]

/-- The loop of `ScaleUpAxes` exits with `numSteps = n0 + k` exactly when `k` is the first
pass at which some sentinel is outside, and the fuel allows `k + 1` tests. -/
theorem ScaleUpAxesLoop_eq_some_iff (r : K) (fuel : Nat) :
    ∀ (st : vtkInteractiveChartXYZ K) (n0 : Nat) (st1 : vtkInteractiveChartXYZ K) (n : Nat),
      ScaleUpAxesLoop r fuel st n0 = some (st1, n) ↔
        ∃ k, k < fuel ∧ n = n0 + k ∧ st1 = ScaleSteps (pow2 r 1) st k ∧
          (∀ j, j < k → (ScaleSteps (pow2 r 1) st j).AnySentinelOutside = false) ∧
          (ScaleSteps (pow2 r 1) st k).AnySentinelOutside = true := by
  induction fuel with
  | zero => intro st n0 st1 n; simp [ScaleUpAxesLoop]
  | succ fuel ih =>
    intro st n0 st1 n
    rw [ScaleUpAxesLoop]
    by_cases hout : st.AnySentinelOutside = true
    · simp only [hout, if_true, Option.some.injEq, Prod.mk.injEq]
      constructor
      · rintro ⟨rfl, rfl⟩
        exact ⟨0, Nat.succ_pos _, rfl, rfl, fun j hj => absurd hj (Nat.not_lt_zero j), hout⟩
      · rintro ⟨k, _, hn, hst, hbefore, _⟩
        cases k with
        | zero => exact ⟨hst.symm, by omega⟩
        | succ k =>
          have h0 := hbefore 0 (Nat.succ_pos _)
          rw [ScaleSteps, hout] at h0
          exact absurd h0 (by decide)
    · simp only [Bool.not_eq_true] at hout
      simp only [hout, Bool.false_eq_true, if_false]
      rw [ih]
      constructor
      · rintro ⟨k, hk, hn, hst, hbefore, hat⟩
        refine ⟨k + 1, by omega, by omega, hst, ?_, hat⟩
        intro j hj
        cases j with
        | zero => exact hout
        | succ j => exact hbefore j (by omega)
      · rintro ⟨k, hk, hn, hst, hbefore, hat⟩
        cases k with
        | zero =>
          rw [ScaleSteps, hout] at hat
          exact absurd hat (by decide)
        | succ k =>
          exact ⟨k, by omega, by omega, hst, fun j hj => hbefore (j + 1) (by omega), hat⟩

/-- The loop of `ScaleDownAxes` exits with `numSteps = n0 + k` exactly when `k` is the
first pass at which every sentinel is inside, and the fuel allows `k + 1` tests. -/
theorem ScaleDownAxesLoop_eq_some_iff (r : K) (fuel : Nat) :
    ∀ (st : vtkInteractiveChartXYZ K) (n0 : Nat) (st1 : vtkInteractiveChartXYZ K) (n : Nat),
      ScaleDownAxesLoop r fuel st n0 = some (st1, n) ↔
        ∃ k, k < fuel ∧ n = n0 + k ∧ st1 = ScaleSteps (pow2 r (-1)) st k ∧
          (∀ j, j < k → (ScaleSteps (pow2 r (-1)) st j).AnySentinelOutside = true) ∧
          (ScaleSteps (pow2 r (-1)) st k).AnySentinelOutside = false := by
  induction fuel with
  | zero => intro st n0 st1 n; simp [ScaleDownAxesLoop]
  | succ fuel ih =>
    intro st n0 st1 n
    rw [ScaleDownAxesLoop]
    by_cases hout : st.AnySentinelOutside = true
    · simp only [hout, if_true]
      rw [ih]
      constructor
      · rintro ⟨k, hk, hn, hst, hbefore, hat⟩
        refine ⟨k + 1, by omega, by omega, hst, ?_, hat⟩
        intro j hj
        cases j with
        | zero => exact hout
        | succ j => exact hbefore j (by omega)
      · rintro ⟨k, hk, hn, hst, hbefore, hat⟩
        cases k with
        | zero =>
          rw [ScaleSteps, hout] at hat
          exact absurd hat (by decide)
        | succ k =>
          exact ⟨k, by omega, by omega, hst, fun j hj => hbefore (j + 1) (by omega), hat⟩
    · simp only [Bool.not_eq_true] at hout
      simp only [hout, Bool.false_eq_true, if_false, Option.some.injEq, Prod.mk.injEq]
      constructor
      · rintro ⟨rfl, rfl⟩
        exact ⟨0, Nat.succ_pos _, rfl, rfl, fun j hj => absurd hj (Nat.not_lt_zero j), hout⟩
      · rintro ⟨k, _, hn, hst, hbefore, _⟩
        cases k with
        | zero => exact ⟨hst.symm, by omega⟩
        | succ k =>
          have h0 := hbefore 0 (Nat.succ_pos _)
          rw [ScaleSteps, hout] at h0
          exact absurd h0 (by decide)

/-- The value of `pow(2, (n − 1)/10)` is the `(n − 1)`-fold product of `pow(2, 1/10)`. -/
theorem pow2_natCast_sub_one (r : K) (n : Nat) (hn : 1 ≤ n) :
    pow2 r ((n : Int) - 1) = pow2 r 1 ^ (n - 1) := by
  have h : (n : Int) - 1 = ((n - 1 : Nat) : Int) := by omega
  rw [pow2, pow2, h, zpow_natCast, zpow_one]

/-- The value of `pow(2, −n/10)` is the `n`-fold product of `pow(2, −1/10)`. -/
theorem pow2_neg_natCast (r : K) (n : Nat) : pow2 r (-(n : Int)) = pow2 r (-1) ^ n := by
  rw [pow2, pow2, zpow_neg, zpow_natCast, zpow_neg, zpow_one, inv_pow]

/-- What `ScaleUpAxes` returns once its loop has exited with `numSteps = n`. -/
theorem ScaleUpAxes_of_loop (r : K) (fuel : Nat) (st st1 : vtkInteractiveChartXYZ K) (n : Nat)
    (hloop : ScaleUpAxesLoop r fuel st 0 = some (st1, n)) :
    ∃ st2, ScaleUpAxes r fuel st = some st2 ∧
      st2.BoxScale = (if n > 1 then (st1.ZoomAxes r ((n : Int) - 1)).BoxScale else st1.BoxScale) ∧
      st2.FutureBoxScale = st1.FutureBoxScale.Scale (pow2 r (-1)) (pow2 r (-1)) (pow2 r (-1)) ∧
      st2.Rotation = st1.Rotation ∧ st2.axes = st1.axes ∧
      st2.FutureBoxExtent = st1.FutureBoxExtent ∧ st2.FutureBoxOrigin = st1.FutureBoxOrigin ∧
      st2.AxesBoundaryPoints = st1.AxesBoundaryPoints ∧
      st2.Scene.SceneWidth = st1.Scene.SceneWidth ∧
      st2.Scene.SceneHeight = st1.Scene.SceneHeight ∧
      st2.SceneWidth = st1.SceneWidth ∧ st2.SceneHeight = st1.SceneHeight := by
  refine ⟨ScaleUpAxesCommit r st1 n, by simp only [ScaleUpAxes, hloop], ?_⟩
  by_cases hgt : n > 1 <;> simp [ScaleUpAxesCommit, hgt, ZoomAxes]

/-- What `ScaleDownAxes` returns once its loop has exited with `numSteps = n`. -/
theorem ScaleDownAxes_of_loop (r : K) (fuel : Nat) (st st1 : vtkInteractiveChartXYZ K) (n : Nat)
    (hloop : ScaleDownAxesLoop r fuel st 0 = some (st1, n)) :
    ∃ st2, ScaleDownAxes r fuel st = some st2 ∧
      st2.BoxScale = (if n > 0 then (st1.ZoomAxes r (-(n : Int))).BoxScale else st1.BoxScale) ∧
      st2.FutureBoxScale = st1.FutureBoxScale ∧
      st2.Rotation = st1.Rotation ∧ st2.axes = st1.axes ∧
      st2.FutureBoxExtent = st1.FutureBoxExtent ∧ st2.FutureBoxOrigin = st1.FutureBoxOrigin ∧
      st2.AxesBoundaryPoints = st1.AxesBoundaryPoints ∧
      st2.Scene.SceneWidth = st1.Scene.SceneWidth ∧
      st2.Scene.SceneHeight = st1.Scene.SceneHeight ∧
      st2.SceneWidth = st1.SceneWidth ∧ st2.SceneHeight = st1.SceneHeight := by
  refine ⟨ScaleDownAxesCommit r st1 n, by simp only [ScaleDownAxes, hloop], ?_⟩
  by_cases hgt : n > 0 <;> simp [ScaleDownAxesCommit, hgt, ZoomAxes]

/-- C6 (Grow): `InitializeFutureBox` followed by `ScaleUpAxes`, from a state in which all
sentinels project inside the scene and in which the loop exits with `numSteps = n`.
Then `n ≥ 1`, `ScaleUpAxes` returns, `BoxScale` is left unchanged when `n ≤ 1` and is
zoomed by `ZoomAxes(n − 1)` when `n > 1` (so the net delta `n − 1` is not negative), and
the `Box` re-derived from the committed `BoxScale` places all sentinels inside the scene. -/
theorem ScaleUpAxes_commits_steps_minus_one (r : K) (fuel : Nat)
    (st0 st1 : vtkInteractiveChartXYZ K) (n : Nat)
    (hinside : st0.InitializeFutureBox.AnySentinelOutside = false)
    (hloop : ScaleUpAxesLoop r fuel st0.InitializeFutureBox 0 = some (st1, n)) :
    1 ≤ n ∧
    ∃ st2, ScaleUpAxes r fuel st0.InitializeFutureBox = some st2 ∧
      (n ≤ 1 → st2.BoxScale = st0.BoxScale) ∧
      (1 < n → st2.BoxScale = (st0.ZoomAxes r ((n : Int) - 1)).BoxScale) ∧
      0 ≤ (n : Int) - 1 ∧
      BoxFitsScene st2 := by
  obtain ⟨k, hk, hn, hst, hbefore, hat⟩ := (ScaleUpAxesLoop_eq_some_iff r fuel _ _ _ _).1 hloop
  rw [Nat.zero_add] at hn
  subst hn
  have hn1 : 1 ≤ n := by
    rcases Nat.eq_zero_or_pos n with h0 | h0
    · subst h0
      rw [ScaleSteps, hinside] at hat
      exact absurd hat (by decide)
    · exact h0
  have hfit := hbefore (n - 1) (by omega)
  obtain ⟨st2, hres, hbs, -, hrot, haxes, -, -, hpts, hw, hh, -, -⟩ :=
    ScaleUpAxes_of_loop r fuel _ _ _ hloop
  have hbs1 : st1.BoxScale = st0.BoxScale := by rw [hst, ScaleSteps_eq]; rfl
  have hzoom : (st1.ZoomAxes r ((n : Int) - 1)).BoxScale =
      (st0.ZoomAxes r ((n : Int) - 1)).BoxScale := by
    simp only [ZoomAxes, hbs1]
  have hmat : (ScaleSteps (pow2 r 1) st0.InitializeFutureBox (n - 1)).FutureBoxScale.Matrix =
      st2.BoxScale.Matrix := by
    by_cases hgt : n > 1
    · rw [hbs, if_pos hgt, hzoom, ScaleSteps_eq]
      simp only [ZoomAxes, InitializeFutureBox, pow2_natCast_sub_one r n hn1]
    · have hone : n = 1 := by omega
      rw [hbs, if_neg hgt, hbs1, ScaleSteps_eq]
      simp only [hone, Nat.sub_self, pow_zero, Scale_one, InitializeFutureBox]
  refine ⟨hn1, st2, hres, ?_, ?_, by omega, ?_⟩
  · intro hle
    rw [hbs, if_neg (by omega), hbs1]
  · intro hlt
    rw [hbs, if_pos hlt, hzoom]
  · refine (BoxFitsScene_iff_of_FutureBox _ st2 hmat ?_ ?_ ?_ ?_ ?_).2 hfit
    · rw [hrot, hst, ScaleSteps_eq, ScaleSteps_eq]
    · rw [ScaleSteps_eq]
      simp only [InitializeFutureBox, vtkInteractiveChartXYZ.scale, haxes, hst, ScaleSteps_eq]
    · rw [ScaleSteps_eq]
      simp only [InitializeFutureBox, haxes, hst, ScaleSteps_eq]
    · rw [hpts, hst, ScaleSteps_eq, ScaleSteps_eq]
    · rw [hw, hh, hst, ScaleSteps_eq, ScaleSteps_eq]
      exact ⟨rfl, rfl⟩

/-- C7 (Shrink): `InitializeFutureBox` followed by `ScaleDownAxes`, when the loop exits with
`numSteps = n`.  Then `n` is the least number of `pow(2, −1/10)` steps after which every
sentinel projects inside the scene, `ScaleDownAxes` returns, `BoxScale` is unchanged when
`n = 0` and zoomed by `ZoomAxes(−n)` otherwise, and the `Box` re-derived from the committed
`BoxScale` places all sentinels inside the scene. -/
theorem ScaleDownAxes_commits_minus_steps (r : K) (fuel : Nat)
    (st0 st1 : vtkInteractiveChartXYZ K) (n : Nat)
    (hloop : ScaleDownAxesLoop r fuel st0.InitializeFutureBox 0 = some (st1, n)) :
    (∀ j, j < n →
      (ScaleSteps (pow2 r (-1)) st0.InitializeFutureBox j).AnySentinelOutside = true) ∧
    (ScaleSteps (pow2 r (-1)) st0.InitializeFutureBox n).AnySentinelOutside = false ∧
    ∃ st2, ScaleDownAxes r fuel st0.InitializeFutureBox = some st2 ∧
      (n = 0 → st2.BoxScale = st0.BoxScale) ∧
      (0 < n → st2.BoxScale = (st0.ZoomAxes r (-(n : Int))).BoxScale) ∧
      BoxFitsScene st2 := by
  obtain ⟨k, hk, hn, hst, hbefore, hat⟩ := (ScaleDownAxesLoop_eq_some_iff r fuel _ _ _ _).1 hloop
  rw [Nat.zero_add] at hn
  subst hn
  obtain ⟨st2, hres, hbs, -, hrot, haxes, -, -, hpts, hw, hh, -, -⟩ :=
    ScaleDownAxes_of_loop r fuel _ _ _ hloop
  have hbs1 : st1.BoxScale = st0.BoxScale := by rw [hst, ScaleSteps_eq]; rfl
  have hzoom : (st1.ZoomAxes r (-(n : Int))).BoxScale =
      (st0.ZoomAxes r (-(n : Int))).BoxScale := by
    simp only [ZoomAxes, hbs1]
  have hmat : (ScaleSteps (pow2 r (-1)) st0.InitializeFutureBox n).FutureBoxScale.Matrix =
      st2.BoxScale.Matrix := by
    by_cases hgt : n > 0
    · rw [hbs, if_pos hgt, hzoom, ScaleSteps_eq]
      simp only [ZoomAxes, InitializeFutureBox, pow2_neg_natCast r n]
    · have hzero : n = 0 := by omega
      rw [hbs, if_neg hgt, hbs1, ScaleSteps_eq]
      simp only [hzero, pow_zero, Scale_one, InitializeFutureBox]
  refine ⟨hbefore, hat, st2, hres, ?_, ?_, ?_⟩
  · intro hzero
    rw [hbs, if_neg (by omega), hbs1]
  · intro hlt
    rw [hbs, if_pos hlt, hzoom]
  · refine (BoxFitsScene_iff_of_FutureBox _ st2 hmat ?_ ?_ ?_ ?_ ?_).2 hat
    · rw [hrot, hst, ScaleSteps_eq]
    · rw [ScaleSteps_eq]
      simp only [InitializeFutureBox, vtkInteractiveChartXYZ.scale, haxes, hst, ScaleSteps_eq]
    · rw [ScaleSteps_eq]
      simp only [InitializeFutureBox, haxes, hst, ScaleSteps_eq]
    · rw [hpts, hst]
    · rw [hw, hh, hst]
      exact ⟨rfl, rfl⟩

/-! ## The geometry of the search: scaling about the centre of the axis box -/

/-- The image of a point under `FutureBox`, for affine `Rotation` and `FutureBoxScale`. -/
theorem FutureBox_TransformPoint (st : vtkInteractiveChartXYZ K)
    (hR : IsAffine st.Rotation.Matrix) (hB : IsAffine st.FutureBoxScale.Matrix)
    (p : vtkVector3 K) :
    TransformPoint st.FutureBox.Matrix p =
      TransformPoint
        (TranslateMatrix st.FutureBoxOrigin.X st.FutureBoxOrigin.Y st.FutureBoxOrigin.Z)
        (TransformPoint
          (ScaleMatrix st.FutureBoxExtent.X st.FutureBoxExtent.Y st.FutureBoxExtent.Z)
          (TransformPoint (TranslateMatrix (1 / 2) (1 / 2) (1 / 2))
            (TransformPoint st.FutureBoxScale.Matrix
              (TransformPoint st.Rotation.Matrix
                (TransformPoint (TranslateMatrix (-(1 / 2)) (-(1 / 2)) (-(1 / 2))) p))))) := by
  have h1 := IsAffine_TranslateMatrix (-(1 / 2) : K) (-(1 / 2)) (-(1 / 2))
  have h2 := IsAffine_mul hR h1
  have h3 := IsAffine_mul hB h2
  have h4 := IsAffine_mul (IsAffine_TranslateMatrix (1 / 2 : K) (1 / 2) (1 / 2)) h3
  have h5 := IsAffine_mul
    (IsAffine_ScaleMatrix st.FutureBoxExtent.X st.FutureBoxExtent.Y st.FutureBoxExtent.Z) h4
  rw [FutureBox_Matrix, TransformPoint_mul _ _ h5, TransformPoint_mul _ _ h4,
    TransformPoint_mul _ _ h3, TransformPoint_mul _ _ h2, TransformPoint_mul _ _ h1]

/-- A uniform scaling of an affine transform is affine. -/
theorem IsAffine_Scale (t : vtkTransform K) (a : K) (h : IsAffine t.Matrix) :
    IsAffine (t.Scale a a a).Matrix := by
  cases hflag : t.PreMultiplyFlag
  · simp only [vtkTransform.Scale, vtkTransform.Concatenate, hflag, if_false,
      Bool.false_eq_true]
    exact IsAffine_mul (IsAffine_ScaleMatrix a a a) h
  · simp only [vtkTransform.Scale, vtkTransform.Concatenate, hflag, if_true]
    exact IsAffine_mul h (IsAffine_ScaleMatrix a a a)

/-- A translation-free affine transform, scaled uniformly by `a`, maps `q` to `a` times
its former image (in either composition mode). -/
theorem TransformPoint_Scale (t : vtkTransform K) (a : K) (h : IsAffine t.Matrix)
    (hn : HasNoTranslation t.Matrix) (q : vtkVector3 K) :
    TransformPoint (t.Scale a a a).Matrix q = vtkVector3.smul a (TransformPoint t.Matrix q) := by
  obtain ⟨n0, n1, n2, -⟩ := hn
  cases hflag : t.PreMultiplyFlag
  · simp only [vtkTransform.Scale, vtkTransform.Concatenate, hflag, if_false,
      Bool.false_eq_true]
    rw [TransformPoint_mul _ _ h, TransformPoint_ScaleMatrix]
    rfl
  · simp only [vtkTransform.Scale, vtkTransform.Concatenate, hflag, if_true]
    rw [TransformPoint_mul _ _ (IsAffine_ScaleMatrix a a a), TransformPoint_ScaleMatrix]
    ext <;> simp only [TransformPoint, vtkVector3.smul, n0, n1, n2] <;> ring

/-- The centre about which the fit search scales: the middle of the captured axis box. -/
theorem FutureBox_TransformPoint_ScaleSteps (s : K) (k : Nat) (st : vtkInteractiveChartXYZ K)
    (hR : IsAffine st.Rotation.Matrix) (hB : IsAffine st.FutureBoxScale.Matrix)
    (hn : HasNoTranslation st.FutureBoxScale.Matrix) (p : vtkVector3 K) :
    TransformPoint (ScaleSteps s st k).FutureBox.Matrix p =
      ⟨(st.FutureBoxOrigin.X + st.FutureBoxExtent.X * (1 / 2)) +
          s ^ k * ((TransformPoint st.FutureBox.Matrix p).X -
            (st.FutureBoxOrigin.X + st.FutureBoxExtent.X * (1 / 2))),
       (st.FutureBoxOrigin.Y + st.FutureBoxExtent.Y * (1 / 2)) +
          s ^ k * ((TransformPoint st.FutureBox.Matrix p).Y -
            (st.FutureBoxOrigin.Y + st.FutureBoxExtent.Y * (1 / 2))),
       (st.FutureBoxOrigin.Z + st.FutureBoxExtent.Z * (1 / 2)) +
          s ^ k * ((TransformPoint st.FutureBox.Matrix p).Z -
            (st.FutureBoxOrigin.Z + st.FutureBoxExtent.Z * (1 / 2)))⟩ := by
  have h1 := FutureBox_TransformPoint
    { st with FutureBoxScale := st.FutureBoxScale.Scale (s ^ k) (s ^ k) (s ^ k) }
    hR (IsAffine_Scale _ _ hB) p
  simp only [] at h1
  rw [ScaleSteps_eq, h1, FutureBox_TransformPoint st hR hB, TransformPoint_Scale _ _ hB hn]
  generalize TransformPoint st.FutureBoxScale.Matrix
    (TransformPoint st.Rotation.Matrix
      (TransformPoint (TranslateMatrix (-(1 / 2)) (-(1 / 2)) (-(1 / 2))) p)) = q
  simp only [TransformPoint_TranslateMatrix, TransformPoint_ScaleMatrix, vtkVector3.smul]
  ext <;> simp only <;> ring

/-- The sentinel test is negative exactly when the point lies in the scene rectangle. -/
theorem OutsideScene_eq_false_iff (sceneWidth sceneHeight : Int) (point : vtkVector3 K) :
    OutsideScene sceneWidth sceneHeight point = false ↔
      0 ≤ point.X ∧ point.X ≤ (sceneWidth : K) ∧ 0 ≤ point.Y ∧ point.Y ≤ (sceneHeight : K) := by
  simp only [OutsideScene]
  split <;> rename_i h
  · simp only [Bool.true_eq_false, false_iff, not_and, not_le]
    intro h1 h2 h3
    rcases h with h | h | h | h
    · exact absurd h1 (not_le.2 h)
    · exact absurd h2 (not_le.2 h)
    · exact absurd h3 (not_le.2 h)
    · exact h
  · simp only [true_iff]
    simp only [not_or, not_lt] at h
    exact h

/-- With `Rotation` and `FutureBoxScale` at identity `FutureBox` scales by the captured
extents and translates by the captured origin. -/
theorem FutureBox_TransformPoint_of_identity (st : vtkInteractiveChartXYZ K)
    (hR : st.Rotation.Matrix = 1) (hB : st.FutureBoxScale.Matrix = 1) (q : vtkVector3 K) :
    TransformPoint st.FutureBox.Matrix q =
      ⟨st.FutureBoxOrigin.X + st.FutureBoxExtent.X * q.X,
       st.FutureBoxOrigin.Y + st.FutureBoxExtent.Y * q.Y,
       st.FutureBoxOrigin.Z + st.FutureBoxExtent.Z * q.Z⟩ := by
  rw [FutureBox_Matrix, hR, hB, one_mul, one_mul, TranslateMatrix_mul,
    TranslateMatrix_zero_of_neg, mul_one, TransformPoint_mul _ _ (IsAffine_ScaleMatrix _ _ _),
    TransformPoint_ScaleMatrix, TransformPoint_TranslateMatrix]
  ext <;> simp only <;> ring

/-- On an upright chart, after `k` scale steps by `s` every sentinel is inside the scene
exactly when the farthest sentinels, at `13/15` of the extent times `s ^ k` from the
centre of the axis box, are. -/
theorem uprightChart_inside_iff (lo hi : ℚ) (width height : Int) (s : ℚ) (k : Nat)
    (hle : lo ≤ hi) (hs : 0 ≤ s) :
    (ScaleSteps s (uprightChart lo hi width height).InitializeFutureBox k).AnySentinelOutside
        = false ↔
      13 / 15 * (hi - lo) * s ^ k ≤ (lo + hi) / 2 ∧
      (lo + hi) / 2 + 13 / 15 * (hi - lo) * s ^ k ≤ (width : ℚ) ∧
      (lo + hi) / 2 + 13 / 15 * (hi - lo) * s ^ k ≤ (height : ℚ) := by
  have hR : (uprightChart lo hi width height).InitializeFutureBox.Rotation.Matrix = 1 := rfl
  have hB : (uprightChart lo hi width height).InitializeFutureBox.FutureBoxScale.Matrix = 1 := rfl
  have hA : IsAffine (uprightChart lo hi width height).InitializeFutureBox.Rotation.Matrix := by
    rw [hR]; exact IsAffine_one
  have hA2 : IsAffine
      (uprightChart lo hi width height).InitializeFutureBox.FutureBoxScale.Matrix := by
    rw [hB]; exact IsAffine_one
  have hN : HasNoTranslation
      (uprightChart lo hi width height).InitializeFutureBox.FutureBoxScale.Matrix := by
    rw [hB]; simp [HasNoTranslation]
  have ht : 0 ≤ s ^ k := pow_nonneg hs k
  have he : 0 ≤ (hi - lo) * s ^ k := mul_nonneg (by linarith) ht
  rw [AnySentinelOutside_eq_false_iff]
  simp only [FutureBox_TransformPoint_ScaleSteps s k _ hA hA2 hN,
    FutureBox_TransformPoint_of_identity _ hR hB, OutsideScene_eq_false_iff]
  rw [ScaleSteps_eq]
  simp only [uprightChart, InitializeAxesBoundaryPoints, InitializeFutureBox,
    vtkInteractiveChartXYZ.scale, scenarioChart, List.forall_mem_cons, List.not_mem_nil,
    IsEmpty.forall_iff, forall_const, implies_true, and_true]
  generalize s ^ k = t at ht he ⊢
  constructor
  · intro h
    obtain ⟨-, -, -, -, -, -, -, -, h9, h10, h11, -⟩ := h
    refine ⟨?_, ?_, ?_⟩
    · linarith [h10.1]
    · linarith [h9.2.1]
    · linarith [h11.2.2.2]
  · rintro ⟨h1, h2, h3⟩
    refine ⟨?_, ?_, ?_, ?_, ?_, ?_, ?_, ?_, ?_, ?_, ?_, ?_, ?_, ?_⟩ <;>
      refine ⟨?_, ?_, ?_, ?_⟩ <;> linarith

/-- On an upright chart some sentinel is outside after `k` steps exactly when one of the
three bounds on the farthest sentinels fails. -/
theorem uprightChart_outside_iff (lo hi : ℚ) (width height : Int) (s : ℚ) (k : Nat)
    (hle : lo ≤ hi) (hs : 0 ≤ s) :
    (ScaleSteps s (uprightChart lo hi width height).InitializeFutureBox k).AnySentinelOutside
        = true ↔
      ¬ (13 / 15 * (hi - lo) * s ^ k ≤ (lo + hi) / 2 ∧
        (lo + hi) / 2 + 13 / 15 * (hi - lo) * s ^ k ≤ (width : ℚ) ∧
        (lo + hi) / 2 + 13 / 15 * (hi - lo) * s ^ k ≤ (height : ℚ)) := by
  rw [← uprightChart_inside_iff lo hi width height s k hle hs, Bool.not_eq_false]

/-- C6 on a concrete resize (W, H) = (52, 52) → (104, 104): the upright chart from 37 to 67
is the box that exactly fitted the 52×52 canvas, recentred on the 104×104 canvas; with
`pow(2, 1/10)` taken as `15/14` the loop exits after 11 steps and `ZoomAxes(10)` is
committed. -/
theorem ScaleUpAxes_commits_steps_minus_one_witness :
    (uprightChart 37 67 104 104).InitializeFutureBox.AnySentinelOutside = false ∧
    ScaleUpAxesLoop (15 / 14) 12 (uprightChart 37 67 104 104).InitializeFutureBox 0 =
      some (ScaleSteps (pow2 (15 / 14) 1) (uprightChart 37 67 104 104).InitializeFutureBox 11,
        11) ∧
    ∃ st2, ScaleUpAxes (15 / 14) 12 (uprightChart 37 67 104 104).InitializeFutureBox = some st2 ∧
      st2.BoxScale = ((uprightChart 37 67 104 104).ZoomAxes (15 / 14) 10).BoxScale ∧
      BoxFitsScene st2 :=
  have hs : (0 : ℚ) ≤ pow2 (15 / 14) 1 := by norm_num [pow2]
  have hinside : (uprightChart 37 67 104 104).InitializeFutureBox.AnySentinelOutside = false :=
    (uprightChart_inside_iff 37 67 104 104 (pow2 (15 / 14) 1) 0 (by norm_num) hs).2
      (by norm_num)
  have hloop : ScaleUpAxesLoop (15 / 14) 12 (uprightChart 37 67 104 104).InitializeFutureBox 0 =
      some (ScaleSteps (pow2 (15 / 14) 1) (uprightChart 37 67 104 104).InitializeFutureBox 11,
        11) := by
    refine (ScaleUpAxesLoop_eq_some_iff _ _ _ _ _ _).2 ⟨11, by norm_num, rfl, rfl, ?_, ?_⟩
    · intro j hj
      refine (uprightChart_inside_iff 37 67 104 104 _ j (by norm_num) hs).2 ?_
      interval_cases j <;> norm_num [pow2]
    · refine (uprightChart_outside_iff 37 67 104 104 _ 11 (by norm_num) hs).2 ?_
      norm_num [pow2]
  have h := ScaleUpAxes_commits_steps_minus_one (15 / 14) 12 (uprightChart 37 67 104 104) _ 11
    hinside hloop
  ⟨hinside, hloop, h.2.imp fun _ hst2 => ⟨hst2.1, hst2.2.2.1 (by norm_num), hst2.2.2.2.2⟩⟩

/-- C7 on a concrete resize (104, 104) → (52, 52): the upright chart from −4 to 56 is the
box that exactly fitted the 104×104 canvas, recentred on the 52×52 canvas; with
`pow(2, 1/10)` taken as `15/14` the loop exits after 11 steps and `ZoomAxes(−11)` is
committed. -/
theorem ScaleDownAxes_commits_minus_steps_witness :
    ScaleDownAxesLoop (15 / 14) 12 (uprightChart (-4) 56 52 52).InitializeFutureBox 0 =
      some (ScaleSteps (pow2 (15 / 14) (-1)) (uprightChart (-4) 56 52 52).InitializeFutureBox 11,
        11) ∧
    (∀ j, j < 11 →
      (ScaleSteps (pow2 (15 / 14) (-1))
        (uprightChart (-4) 56 52 52).InitializeFutureBox j).AnySentinelOutside = true) ∧
    ∃ st2, ScaleDownAxes (15 / 14) 12 (uprightChart (-4) 56 52 52).InitializeFutureBox =
        some st2 ∧
      st2.BoxScale = ((uprightChart (-4) 56 52 52).ZoomAxes (15 / 14) (-11)).BoxScale ∧
      BoxFitsScene st2 :=
  have hs : (0 : ℚ) ≤ pow2 (15 / 14) (-1) := by norm_num [pow2]
  have hloop : ScaleDownAxesLoop (15 / 14) 12 (uprightChart (-4) 56 52 52).InitializeFutureBox 0 =
      some (ScaleSteps (pow2 (15 / 14) (-1)) (uprightChart (-4) 56 52 52).InitializeFutureBox 11,
        11) := by
    refine (ScaleDownAxesLoop_eq_some_iff _ _ _ _ _ _).2 ⟨11, by norm_num, rfl, rfl, ?_, ?_⟩
    · intro j hj
      refine (uprightChart_outside_iff (-4) 56 52 52 _ j (by norm_num) hs).2 ?_
      interval_cases j <;> norm_num [pow2]
    · refine (uprightChart_inside_iff (-4) 56 52 52 _ 11 (by norm_num) hs).2 ?_
      norm_num [pow2]
  have h := ScaleDownAxes_commits_minus_steps (15 / 14) 12 (uprightChart (-4) 56 52 52) _ 11
    hloop
  ⟨hloop, h.1, h.2.2.imp fun _ hst2 => ⟨hst2.1, hst2.2.2.1 (by norm_num), hst2.2.2.2⟩⟩

/-! ## Termination of the fit search -/

/-- The loop of `ScaleUpAxes` exits as soon as some pass finds a sentinel outside. -/
theorem ScaleUpAxesLoop_terminates (r : K) (st : vtkInteractiveChartXYZ K) (k : Nat)
    (hk : (ScaleSteps (pow2 r 1) st k).AnySentinelOutside = true) :
    ∃ fuel st1 n, ScaleUpAxesLoop r fuel st 0 = some (st1, n) := by
  have hex : ∃ j, (ScaleSteps (pow2 r 1) st j).AnySentinelOutside = true := ⟨k, hk⟩
  refine ⟨Nat.find hex + 1, _, _, (ScaleUpAxesLoop_eq_some_iff r _ _ _ _ _).2
    ⟨Nat.find hex, Nat.lt_succ_self _, (Nat.zero_add _).symm, rfl, ?_, Nat.find_spec hex⟩⟩
  intro j hj
  simpa using Nat.find_min hex hj

/-- The loop of `ScaleDownAxes` exits as soon as some pass finds every sentinel inside. -/
theorem ScaleDownAxesLoop_terminates (r : K) (st : vtkInteractiveChartXYZ K) (k : Nat)
    (hk : (ScaleSteps (pow2 r (-1)) st k).AnySentinelOutside = false) :
    ∃ fuel st1 n, ScaleDownAxesLoop r fuel st 0 = some (st1, n) := by
  have hex : ∃ j, (ScaleSteps (pow2 r (-1)) st j).AnySentinelOutside = false := ⟨k, hk⟩
  refine ⟨Nat.find hex + 1, _, _, (ScaleDownAxesLoop_eq_some_iff r _ _ _ _ _).2
    ⟨Nat.find hex, Nat.lt_succ_self _, (Nat.zero_add _).symm, rfl, ?_, Nat.find_spec hex⟩⟩
  intro j hj
  simpa using Nat.find_min hex hj

/-- A finite list of points has a common bound on the magnitude of any coordinate function. -/
theorem exists_bound_on_list (l : List (vtkVector3 K)) (f : vtkVector3 K → K) :
    ∃ D, 0 ≤ D ∧ ∀ p ∈ l, |f p| ≤ D := by
  induction l with
  | nil => exact ⟨0, le_refl 0, fun p hp => absurd hp (List.not_mem_nil p)⟩
  | cons a l ih =>
    obtain ⟨D, hD, hl⟩ := ih
    refine ⟨max D |f a|, le_max_of_le_left hD, ?_⟩
    intro p hp
    rcases List.mem_cons.1 hp with rfl | hp
    · exact le_max_right _ _
    · exact (hl p hp).trans (le_max_left _ _)

/-- After `InitializeFutureBox`, `k` scale steps by `s` move the image of every point to the
centre of the axis box plus `s ^ k` times its initial offset from that centre. -/
theorem InitializeFutureBox_TransformPoint_ScaleSteps (s : K) (k : Nat)
    (st : vtkInteractiveChartXYZ K)
    (hR : IsAffine st.Rotation.Matrix) (hB : IsAffine st.BoxScale.Matrix)
    (hn : HasNoTranslation st.BoxScale.Matrix) (p : vtkVector3 K) :
    TransformPoint (ScaleSteps s st.InitializeFutureBox k).FutureBox.Matrix p =
      ⟨(AxisBoxCentre st).X + s ^ k *
          ((TransformPoint st.InitializeFutureBox.FutureBox.Matrix p).X - (AxisBoxCentre st).X),
       (AxisBoxCentre st).Y + s ^ k *
          ((TransformPoint st.InitializeFutureBox.FutureBox.Matrix p).Y - (AxisBoxCentre st).Y),
       (AxisBoxCentre st).Z + s ^ k *
          ((TransformPoint st.InitializeFutureBox.FutureBox.Matrix p).Z - (AxisBoxCentre st).Z)⟩ :=
  FutureBox_TransformPoint_ScaleSteps s k st.InitializeFutureBox hR hB hn p

/-- The sentinel test is positive exactly when the point leaves the scene rectangle. -/
theorem OutsideScene_eq_true_iff (sceneWidth sceneHeight : Int) (point : vtkVector3 K) :
    OutsideScene sceneWidth sceneHeight point = true ↔
      (point.X < 0 ∨ point.X > (sceneWidth : K) ∨ point.Y < 0 ∨ point.Y > (sceneHeight : K)) := by
  simp only [OutsideScene]
  split <;> simp_all

/-- The matrix of `FutureBox` right after `InitializeFutureBox` is the `Box` matrix of
`CalculateTransforms`. -/
theorem InitializeFutureBox_FutureBox_Matrix (st : vtkInteractiveChartXYZ K) :
    st.InitializeFutureBox.FutureBox.Matrix = st.CalculateTransforms.Box.Matrix := by
  have hb : st.CalculateTransforms.Box.Matrix = st.CalculateBox.Matrix := rfl
  rw [hb, CalculateBox_Matrix, FutureBox_Matrix]
  rfl

/-- Shrinking reaches a fit when the centre of the axis box is strictly inside the scene. -/
theorem exists_ScaleSteps_inside [Archimedean K] (r : K) (hr : 1 < r)
    (st : vtkInteractiveChartXYZ K)
    (hR : IsAffine st.Rotation.Matrix) (hB : IsAffine st.BoxScale.Matrix)
    (hn : HasNoTranslation st.BoxScale.Matrix)
    (hx0 : 0 < (AxisBoxCentre st).X) (hx1 : (AxisBoxCentre st).X < (st.Scene.SceneWidth : K))
    (hy0 : 0 < (AxisBoxCentre st).Y) (hy1 : (AxisBoxCentre st).Y < (st.Scene.SceneHeight : K)) :
    ∃ k, (ScaleSteps (pow2 r (-1)) st.InitializeFutureBox k).AnySentinelOutside = false := by
  have hr0 : 0 < r := lt_trans zero_lt_one hr
  have hs : pow2 r (-1) = r⁻¹ := by rw [pow2, zpow_neg, zpow_one]
  have hs0 : 0 < r⁻¹ := inv_pos.2 hr0
  have hs1 : r⁻¹ < 1 := inv_lt_one_of_one_lt₀ hr
  obtain ⟨Dx, hDx, hbx⟩ := exists_bound_on_list st.AxesBoundaryPoints fun p =>
    (TransformPoint st.InitializeFutureBox.FutureBox.Matrix p).X - (AxisBoxCentre st).X
  obtain ⟨Dy, hDy, hby⟩ := exists_bound_on_list st.AxesBoundaryPoints fun p =>
    (TransformPoint st.InitializeFutureBox.FutureBox.Matrix p).Y - (AxisBoxCentre st).Y
  have hD : 0 < Dx + Dy + 1 := by linarith
  obtain ⟨e, he0, hex0, hex1, hey0, hey1⟩ : ∃ e : K, 0 < e ∧ e ≤ (AxisBoxCentre st).X ∧
      e ≤ (st.Scene.SceneWidth : K) - (AxisBoxCentre st).X ∧ e ≤ (AxisBoxCentre st).Y ∧
      e ≤ (st.Scene.SceneHeight : K) - (AxisBoxCentre st).Y := by
    refine ⟨min (min (AxisBoxCentre st).X ((st.Scene.SceneWidth : K) - (AxisBoxCentre st).X))
      (min (AxisBoxCentre st).Y ((st.Scene.SceneHeight : K) - (AxisBoxCentre st).Y)), ?_, ?_, ?_,
      ?_, ?_⟩
    · exact lt_min (lt_min hx0 (by linarith)) (lt_min hy0 (by linarith))
    · exact (min_le_left _ _).trans (min_le_left _ _)
    · exact (min_le_left _ _).trans (min_le_right _ _)
    · exact (min_le_right _ _).trans (min_le_left _ _)
    · exact (min_le_right _ _).trans (min_le_right _ _)
  obtain ⟨k, hk⟩ := exists_pow_lt_of_lt_one (div_pos he0 hD) hs1
  have hk0 : 0 ≤ r⁻¹ ^ k := pow_nonneg hs0.le k
  have hkD : r⁻¹ ^ k * (Dx + Dy + 1) < e := (lt_div_iff₀ hD).1 hk
  refine ⟨k, ?_⟩
  have hpts : (ScaleSteps (pow2 r (-1)) st.InitializeFutureBox k).AxesBoundaryPoints =
      st.AxesBoundaryPoints := by rw [ScaleSteps_eq]; rfl
  have hscene : (ScaleSteps (pow2 r (-1)) st.InitializeFutureBox k).Scene = st.Scene := by
    rw [ScaleSteps_eq]; rfl
  rw [AnySentinelOutside_eq_false_iff, hpts, hscene]
  intro p hp
  rw [InitializeFutureBox_TransformPoint_ScaleSteps _ _ _ hR hB hn, OutsideScene_eq_false_iff, hs]
  have h1 := abs_le.1 (hbx p hp)
  have h2 := abs_le.1 (hby p hp)
  simp only at h1 h2
  have m1 := mul_le_mul_of_nonneg_left h1.1 hk0
  have m2 := mul_le_mul_of_nonneg_left h1.2 hk0
  have m3 := mul_le_mul_of_nonneg_left h2.1 hk0
  have m4 := mul_le_mul_of_nonneg_left h2.2 hk0
  have n1 : 0 ≤ r⁻¹ ^ k * Dx := mul_nonneg hk0 hDx
  have n2 : 0 ≤ r⁻¹ ^ k * Dy := mul_nonneg hk0 hDy
  have hexp : r⁻¹ ^ k * (Dx + Dy + 1) = r⁻¹ ^ k * Dx + r⁻¹ ^ k * Dy + r⁻¹ ^ k := by ring
  rw [hexp] at hkD
  have e1 : r⁻¹ ^ k * -Dx = -(r⁻¹ ^ k * Dx) := by ring
  have e2 : r⁻¹ ^ k * -Dy = -(r⁻¹ ^ k * Dy) := by ring
  rw [e1] at m1
  rw [e2] at m3
  refine ⟨?_, ?_, ?_, ?_⟩ <;> simp only <;> linarith

/-- Growing leaves the scene when some sentinel does not project onto the projection of
the centre of the axis box. -/
theorem exists_ScaleSteps_outside [Archimedean K] (r : K) (hr : 1 < r)
    (st : vtkInteractiveChartXYZ K)
    (hR : IsAffine st.Rotation.Matrix) (hB : IsAffine st.BoxScale.Matrix)
    (hn : HasNoTranslation st.BoxScale.Matrix) (p : vtkVector3 K)
    (hp : p ∈ st.AxesBoundaryPoints)
    (hne : (TransformPoint st.InitializeFutureBox.FutureBox.Matrix p).X ≠ (AxisBoxCentre st).X ∨
      (TransformPoint st.InitializeFutureBox.FutureBox.Matrix p).Y ≠ (AxisBoxCentre st).Y) :
    ∃ k, (ScaleSteps (pow2 r 1) st.InitializeFutureBox k).AnySentinelOutside = true := by
  have hs : pow2 r 1 = r := by rw [pow2, zpow_one]
  have key : ∀ (c d w : K), d ≠ 0 → ∃ k : Nat, c + r ^ k * d < 0 ∨ c + r ^ k * d > w := by
    intro c d w hd
    have hd0 : 0 < |d| := abs_pos.2 hd
    obtain ⟨k, hk⟩ := pow_unbounded_of_one_lt ((|c| + |w| + 1) / |d|) hr
    have hk2 : |c| + |w| + 1 < r ^ k * |d| := (div_lt_iff₀ hd0).1 hk
    refine ⟨k, ?_⟩
    rcases lt_or_gt_of_ne hd with hneg | hpos
    · left
      rw [abs_of_neg hneg] at hk2
      have h1 := le_abs_self c
      have h2 := abs_nonneg w
      linarith
    · right
      rw [abs_of_pos hpos] at hk2
      have h1 := neg_abs_le c
      have h2 := le_abs_self w
      linarith
  have hout : ∀ k, (OutsideScene st.Scene.SceneWidth st.Scene.SceneHeight
      (TransformPoint (ScaleSteps (pow2 r 1) st.InitializeFutureBox k).FutureBox.Matrix p) = true) →
      (ScaleSteps (pow2 r 1) st.InitializeFutureBox k).AnySentinelOutside = true := by
    intro k hk
    have hpts : (ScaleSteps (pow2 r 1) st.InitializeFutureBox k).AxesBoundaryPoints =
        st.AxesBoundaryPoints := by rw [ScaleSteps_eq]; rfl
    have hscene : (ScaleSteps (pow2 r 1) st.InitializeFutureBox k).Scene = st.Scene := by
      rw [ScaleSteps_eq]; rfl
    rw [AnySentinelOutside, List.any_eq_true, hpts, hscene]
    exact ⟨p, hp, hk⟩
  rcases hne with hx | hy
  · obtain ⟨k, hk⟩ := key (AxisBoxCentre st).X _ (st.Scene.SceneWidth : K) (sub_ne_zero.2 hx)
    refine ⟨k, hout k ?_⟩
    rw [InitializeFutureBox_TransformPoint_ScaleSteps _ _ _ hR hB hn, OutsideScene_eq_true_iff, hs]
    rcases hk with hk | hk
    · exact Or.inl hk
    · exact Or.inr (Or.inl hk)
  · obtain ⟨k, hk⟩ := key (AxisBoxCentre st).Y _ (st.Scene.SceneHeight : K) (sub_ne_zero.2 hy)
    refine ⟨k, hout k ?_⟩
    rw [InitializeFutureBox_TransformPoint_ScaleSteps _ _ _ hR hB hn, OutsideScene_eq_true_iff, hs]
    rcases hk with hk | hk
    · exact Or.inr (Or.inr (Or.inl hk))
    · exact Or.inr (Or.inr (Or.inr hk))

/-- C8, as stated, fails: on a 50×50 canvas the upright chart from 75 to 325 has the centre
of its axis box at (200, 200), outside the canvas; no number of shrink steps brings the
sentinels inside, so the loop of `ScaleDownAxes` exits for no amount of fuel. -/
theorem ScaleDownAxes_never_exits_off_canvas :
    ((0 : Int) < (uprightChart 75 325 50 50).Scene.SceneWidth ∧
      (0 : Int) < (uprightChart 75 325 50 50).Scene.SceneHeight) ∧
    ∀ fuel, ScaleDownAxesLoop (15 / 14) fuel (uprightChart 75 325 50 50).InitializeFutureBox 0 =
        none ∧
      ScaleDownAxes (15 / 14) fuel (uprightChart 75 325 50 50).InitializeFutureBox = none := by
  have hs : (0 : ℚ) ≤ pow2 (15 / 14) (-1) := by norm_num [pow2]
  have hloop : ∀ fuel,
      ScaleDownAxesLoop (15 / 14) fuel (uprightChart 75 325 50 50).InitializeFutureBox 0 =
        none := by
    intro fuel
    rw [Option.eq_none_iff_forall_not_mem]
    rintro ⟨st1, n⟩ hmem
    obtain ⟨k, -, -, -, -, hat⟩ := (ScaleDownAxesLoop_eq_some_iff _ _ _ _ _ _).1 hmem
    have h := (uprightChart_inside_iff 75 325 50 50 _ k (by norm_num) hs).1 hat
    have hpow : (0 : ℚ) ≤ pow2 (15 / 14) (-1) ^ k := pow_nonneg hs k
    have h2 := h.2.1
    norm_num at h2
    linarith
  refine ⟨⟨by decide, by decide⟩, fun fuel => ⟨hloop fuel, ?_⟩⟩
  simp only [ScaleDownAxes, hloop fuel]

/-- C8 (amended): over an Archimedean ordered field, with `pow(2, 1/10) > 1`, affine
`Rotation` and `BoxScale` and a `BoxScale` without translation part: after
`InitializeFutureBox`, `ScaleDownAxes` returns after finitely many steps whenever the
centre of the axis box lies strictly inside the scene rectangle, and `ScaleUpAxes` returns
after finitely many steps whenever some sentinel does not project onto the projection of
that centre. -/
theorem fit_searches_terminate_of_centre (r : K) [Archimedean K] (hr : 1 < r)
    (st : vtkInteractiveChartXYZ K)
    (hR : IsAffine st.Rotation.Matrix) (hB : IsAffine st.BoxScale.Matrix)
    (hn : HasNoTranslation st.BoxScale.Matrix) :
    ((0 < (AxisBoxCentre st).X ∧ (AxisBoxCentre st).X < (st.Scene.SceneWidth : K) ∧
      0 < (AxisBoxCentre st).Y ∧ (AxisBoxCentre st).Y < (st.Scene.SceneHeight : K)) →
      ∃ fuel st2, ScaleDownAxes r fuel st.InitializeFutureBox = some st2) ∧
    ((∃ p ∈ st.AxesBoundaryPoints,
        (TransformPoint st.CalculateTransforms.Box.Matrix p).X ≠ (AxisBoxCentre st).X ∨
        (TransformPoint st.CalculateTransforms.Box.Matrix p).Y ≠ (AxisBoxCentre st).Y) →
      ∃ fuel st2, ScaleUpAxes r fuel st.InitializeFutureBox = some st2) := by
  constructor
  · rintro ⟨hx0, hx1, hy0, hy1⟩
    obtain ⟨k, hk⟩ := exists_ScaleSteps_inside r hr st hR hB hn hx0 hx1 hy0 hy1
    obtain ⟨fuel, st1, n, hloop⟩ := ScaleDownAxesLoop_terminates r _ k hk
    obtain ⟨st2, hres, -⟩ := ScaleDownAxes_of_loop r fuel _ _ _ hloop
    exact ⟨fuel, st2, hres⟩
  · rintro ⟨p, hp, hne⟩
    rw [← InitializeFutureBox_FutureBox_Matrix] at hne
    obtain ⟨k, hk⟩ := exists_ScaleSteps_outside r hr st hR hB hn p hp hne
    obtain ⟨fuel, st1, n, hloop⟩ := ScaleUpAxesLoop_terminates r _ k hk
    obtain ⟨st2, hres, -⟩ := ScaleUpAxes_of_loop r fuel _ _ _ hloop
    exact ⟨fuel, st2, hres⟩

/-- C8 (amended) on the 104×104 canvas with the upright chart from 37 to 67, whose centre
(52, 52) is inside the canvas and whose corner sentinel projects to (37, 37). -/
theorem fit_searches_terminate_of_centre_witness :
    (∃ fuel st2, ScaleDownAxes (15 / 14) fuel (uprightChart 37 67 104 104).InitializeFutureBox =
      some st2) ∧
    (∃ fuel st2, ScaleUpAxes (15 / 14) fuel (uprightChart 37 67 104 104).InitializeFutureBox =
      some st2) :=
  have hR : IsAffine (uprightChart 37 67 104 104).Rotation.Matrix := IsAffine_one
  have hB : IsAffine (uprightChart 37 67 104 104).BoxScale.Matrix := IsAffine_one
  have hn : HasNoTranslation (uprightChart 37 67 104 104).BoxScale.Matrix := by
    simp [HasNoTranslation, uprightChart, InitializeAxesBoundaryPoints, scenarioChart]
  have hc : AxisBoxCentre (uprightChart 37 67 104 104) = ⟨52, 52, 52⟩ := by
    ext <;> norm_num [AxisBoxCentre, uprightChart, InitializeAxesBoundaryPoints,
      vtkInteractiveChartXYZ.scale]
  have h := fit_searches_terminate_of_centre (15 / 14 : ℚ) (by norm_num)
    (uprightChart 37 67 104 104) hR hB hn
  ⟨h.1 (by rw [hc]; norm_num [uprightChart, InitializeAxesBoundaryPoints]),
   h.2 ⟨⟨0, 0, 0⟩, by simp [uprightChart, InitializeAxesBoundaryPoints], by
      left
      have hb : (uprightChart 37 67 104 104).CalculateTransforms.Box.Matrix =
          (uprightChart 37 67 104 104).CalculateBox.Matrix := rfl
      rw [hb, CalculateBox_TransformPoint_of_identity _ rfl rfl, hc]
      norm_num [uprightChart, InitializeAxesBoundaryPoints]⟩⟩

/-! ## The first observed scene size -/

/-- The sentinel test reads only the sentinels, the scene, `Rotation`, `FutureBoxScale` and
the constants captured by `InitializeFutureBox`. -/
theorem AnySentinelOutside_congr (a b : vtkInteractiveChartXYZ K)
    (hpts : a.AxesBoundaryPoints = b.AxesBoundaryPoints)
    (hwidth : a.Scene.SceneWidth = b.Scene.SceneWidth)
    (hheight : a.Scene.SceneHeight = b.Scene.SceneHeight)
    (hrot : a.Rotation = b.Rotation) (hscale : a.FutureBoxScale = b.FutureBoxScale)
    (hext : a.FutureBoxExtent = b.FutureBoxExtent) (horg : a.FutureBoxOrigin = b.FutureBoxOrigin) :
    a.AnySentinelOutside = b.AnySentinelOutside := by
  simp only [AnySentinelOutside, FutureBox, hpts, hwidth, hheight, hrot, hscale, hext, horg]

/-- On the first observed size, a box that starts too large is left too large: when some
sentinel is outside the scene before the searches, `CheckForSceneResize` (if it returns)
reports a change, records the size, and commits a `BoxScale` whose re-derived `Box`
still has a sentinel outside the scene. -/
theorem CheckForSceneResize_first_size_of_too_large (r : K)
    (RecalculateTransform : vtkInteractiveChartXYZ K → vtkInteractiveChartXYZ K)
    (fuel : Nat) (st st4 : vtkInteractiveChartXYZ K) (b : Bool)
    (hfirst : st.SceneWidth ≤ 0)
    (hdiff : st.SceneWidth ≠ st.Scene.SceneWidth ∨ st.SceneHeight ≠ st.Scene.SceneHeight)
    (htoo : st.InitializeFutureBox.AnySentinelOutside = true)
    (hres : CheckForSceneResize r RecalculateTransform fuel st = some (st4, b)) :
    b = true ∧ st4.SceneWidth = st.Scene.SceneWidth ∧ st4.SceneHeight = st.Scene.SceneHeight ∧
      ¬ BoxFitsScene st4 := by
  have htoo1 : (InitializeFutureBox
      { st with SceneWidth := st.Scene.SceneWidth, SceneHeight := st.Scene.SceneHeight
      }).AnySentinelOutside = true := by
    rw [← htoo]; exact AnySentinelOutside_congr _ _ rfl rfl rfl rfl rfl rfl rfl
  simp only [CheckForSceneResize, hdiff, if_true, not_lt.2 hfirst, if_false, gt_iff_lt] at hres
  cases hup : ScaleUpAxes r fuel (InitializeFutureBox
      { st with SceneWidth := st.Scene.SceneWidth, SceneHeight := st.Scene.SceneHeight }) with
  | none => rw [hup] at hres; exact absurd hres (by simp)
  | some st3 =>
    rw [hup] at hres
    simp only at hres
    cases hdown : ScaleDownAxes r fuel st3 with
    | none => rw [hdown] at hres; exact absurd hres (by simp)
    | some st4a =>
      rw [hdown] at hres
      simp only [Option.some.injEq, Prod.mk.injEq] at hres
      obtain ⟨rfl, rfl⟩ := hres
      -- the grow loop exits at once, with numSteps = 0
      cases hupl : ScaleUpAxesLoop r fuel (InitializeFutureBox
          { st with SceneWidth := st.Scene.SceneWidth, SceneHeight := st.Scene.SceneHeight }) 0 with
      | none => simp only [ScaleUpAxes, hupl] at hup; exact absurd hup (by simp)
      | some res =>
        obtain ⟨st2a, n⟩ := res
        obtain ⟨k, -, hn, hst, hbefore, -⟩ := (ScaleUpAxesLoop_eq_some_iff _ _ _ _ _ _).1 hupl
        have hk0 : k = 0 := by
          rcases Nat.eq_zero_or_pos k with h0 | h0
          · exact h0
          · have := hbefore 0 h0
            rw [ScaleSteps, htoo1] at this
            exact absurd this (by decide)
        subst hk0
        rw [Nat.zero_add] at hn
        subst hn
        rw [ScaleSteps] at hst
        subst hst
        simp only [ScaleUpAxes, hupl, Option.some.injEq] at hup
        -- the shrink loop exits after m steps
        cases hdl : ScaleDownAxesLoop r fuel st3 0 with
        | none => simp only [ScaleDownAxes, hdl] at hdown; exact absurd hdown (by simp)
        | some res2 =>
          obtain ⟨st3a, m⟩ := res2
          obtain ⟨k, -, hm, hst3a, hbefore2, -⟩ :=
            (ScaleDownAxesLoop_eq_some_iff _ _ _ _ _ _).1 hdl
          rw [Nat.zero_add] at hm
          subst hm
          simp only [ScaleDownAxes, hdl, Option.some.injEq] at hdown
          have hst3 : st3 = ScaleSteps (pow2 r (-1)) (InitializeFutureBox
              { st with SceneWidth := st.Scene.SceneWidth, SceneHeight := st.Scene.SceneHeight })
              1 := by
            rw [← hup]; simp [ScaleUpAxesCommit, ScaleSteps]
          refine ⟨rfl, ?_, ?_, ?_⟩
          · rw [← hdown, hst3a, hst3]
            by_cases hgt : m > 0 <;>
              simp [ScaleDownAxesCommit, hgt, ZoomAxes, ScaleSteps_eq, InitializeFutureBox]
          · rw [← hdown, hst3a, hst3]
            by_cases hgt : m > 0 <;>
              simp [ScaleDownAxesCommit, hgt, ZoomAxes, ScaleSteps_eq, InitializeFutureBox]
          · rcases Nat.eq_zero_or_pos m with hm0 | hmpos
            · subst hm0
              intro hfit
              have := (BoxFitsScene_iff_of_FutureBox (InitializeFutureBox
                { st with SceneWidth := st.Scene.SceneWidth, SceneHeight := st.Scene.SceneHeight })
                st4a ?_ ?_ ?_ ?_ ?_ ?_).1 hfit
              · rw [htoo1] at this; exact absurd this (by decide)
              all_goals
                rw [← hdown, hst3a, hst3]
                simp [ScaleDownAxesCommit, ScaleSteps_eq, InitializeFutureBox,
                  vtkInteractiveChartXYZ.scale]
            · intro hfit
              have hout := hbefore2 (m - 1) (by omega)
              have := (BoxFitsScene_iff_of_FutureBox (ScaleSteps (pow2 r (-1)) st3 (m - 1))
                st4a ?_ ?_ ?_ ?_ ?_ ?_).1 hfit
              · rw [hout] at this; exact absurd this (by decide)
              · rw [← hdown, hst3a, hst3]
                have hpow : pow2 r (-1) * pow2 r (-1) ^ (m - 1) = pow2 r (-(m : Int)) := by
                  rw [pow2_neg_natCast, ← pow_succ', Nat.sub_add_cancel hmpos]
                simp [ScaleDownAxesCommit, hmpos, ZoomAxes, ScaleSteps_eq, InitializeFutureBox,
                  Scale_Scale, hpow]
              all_goals
                rw [← hdown, hst3a, hst3]
                simp [ScaleDownAxesCommit, hmpos, ZoomAxes, ScaleSteps_eq, InitializeFutureBox,
                  vtkInteractiveChartXYZ.scale]

/-- On the first observed size, a box that starts inside the scene ends fitted: when no
sentinel is outside before the searches and `pow(2, 1/10)` is not zero,
`CheckForSceneResize` (if it returns) reports a change, records the size, and the `Box`
re-derived from the committed `BoxScale` has every sentinel inside the scene. -/
theorem CheckForSceneResize_first_size_of_inside (r : K) (hr : r ≠ 0)
    (RecalculateTransform : vtkInteractiveChartXYZ K → vtkInteractiveChartXYZ K)
    (fuel : Nat) (st st4 : vtkInteractiveChartXYZ K) (b : Bool)
    (hfirst : st.SceneWidth ≤ 0)
    (hdiff : st.SceneWidth ≠ st.Scene.SceneWidth ∨ st.SceneHeight ≠ st.Scene.SceneHeight)
    (hin : st.InitializeFutureBox.AnySentinelOutside = false)
    (hres : CheckForSceneResize r RecalculateTransform fuel st = some (st4, b)) :
    b = true ∧ st4.SceneWidth = st.Scene.SceneWidth ∧ st4.SceneHeight = st.Scene.SceneHeight ∧
      BoxFitsScene st4 := by
  have hin1 : (InitializeFutureBox
      { st with SceneWidth := st.Scene.SceneWidth, SceneHeight := st.Scene.SceneHeight
      }).AnySentinelOutside = false := by
    rw [← hin]; exact AnySentinelOutside_congr _ _ rfl rfl rfl rfl rfl rfl rfl
  simp only [CheckForSceneResize, hdiff, if_true, not_lt.2 hfirst, if_false, gt_iff_lt] at hres
  cases hupl : ScaleUpAxesLoop r fuel (InitializeFutureBox
      { st with SceneWidth := st.Scene.SceneWidth, SceneHeight := st.Scene.SceneHeight }) 0 with
  | none => simp [ScaleUpAxes, hupl] at hres
  | some res =>
    obtain ⟨st2a, n⟩ := res
    obtain ⟨k, -, hn, hst, hbefore, hat⟩ := (ScaleUpAxesLoop_eq_some_iff _ _ _ _ _ _).1 hupl
    rw [Nat.zero_add] at hn
    subst hn
    subst hst
    have hn1 : 1 ≤ n := by
      rcases Nat.eq_zero_or_pos n with h0 | h0
      · subst h0
        rw [ScaleSteps, hin1] at hat
        exact absurd hat (by decide)
      · exact h0
    have hfit := hbefore (n - 1) (by omega)
    have hback : pow2 r 1 ^ n * pow2 r (-1) = pow2 r 1 ^ (n - 1) := by
      have hsplit : pow2 r 1 ^ n = pow2 r 1 ^ (n - 1) * pow2 r 1 := by
        rw [← pow_succ, Nat.sub_add_cancel hn1]
      rw [hsplit, pow2, pow2, zpow_one, zpow_neg, zpow_one, mul_assoc, mul_inv_cancel₀ hr,
        mul_one]
    -- the state handed to the shrink loop passes its first test
    have hst3 : (ScaleUpAxesCommit r (ScaleSteps (pow2 r 1) (InitializeFutureBox
        { st with SceneWidth := st.Scene.SceneWidth, SceneHeight := st.Scene.SceneHeight }) n)
        n).AnySentinelOutside = false := by
      rw [← hfit, ScaleSteps_eq, ScaleSteps_eq]
      apply AnySentinelOutside_congr <;>
        by_cases hgt : n > 1 <;>
        simp [ScaleUpAxesCommit, hgt, ZoomAxes, InitializeFutureBox, Scale_Scale, hback]
    have hdl : ScaleDownAxesLoop r fuel (ScaleUpAxesCommit r (ScaleSteps (pow2 r 1)
        (InitializeFutureBox
          { st with SceneWidth := st.Scene.SceneWidth, SceneHeight := st.Scene.SceneHeight }) n)
        n) 0 =
        some (ScaleUpAxesCommit r (ScaleSteps (pow2 r 1) (InitializeFutureBox
          { st with SceneWidth := st.Scene.SceneWidth, SceneHeight := st.Scene.SceneHeight }) n)
          n, 0) := by
      cases fuel with
      | zero => simp [ScaleUpAxesLoop] at hupl
      | succ fuel => simp [ScaleDownAxesLoop, hst3]
    simp only [ScaleUpAxes, hupl, ScaleDownAxes, hdl, ScaleDownAxesCommit, Nat.lt_irrefl,
      if_false, Option.some.injEq, Prod.mk.injEq, gt_iff_lt] at hres
    obtain ⟨rfl, rfl⟩ := hres
    refine ⟨rfl, ?_, ?_, ?_⟩
    · by_cases hgt : n > 1 <;>
        simp [ScaleUpAxesCommit, hgt, ZoomAxes, ScaleSteps_eq, InitializeFutureBox]
    · by_cases hgt : n > 1 <;>
        simp [ScaleUpAxesCommit, hgt, ZoomAxes, ScaleSteps_eq, InitializeFutureBox]
    · refine (BoxFitsScene_iff_of_FutureBox _ _ ?_ ?_ ?_ ?_ ?_ ?_).2 hst3
      · by_cases hgt : n > 1
        · simp [ScaleUpAxesCommit, hgt, ZoomAxes, ScaleSteps_eq, InitializeFutureBox,
            Scale_Scale, hback, pow2_natCast_sub_one r n hn1]
        · have hone : n = 1 := by omega
          subst hone
          have hb1 : pow2 r 1 * pow2 r (-1) = 1 := by simpa using hback
          simp [ScaleUpAxesCommit, ScaleSteps_eq, InitializeFutureBox, Scale_Scale, hb1,
            Scale_one]
      all_goals
        by_cases hgt : n > 1 <;>
          simp [ScaleUpAxesCommit, hgt, ZoomAxes, ScaleSteps_eq, InitializeFutureBox,
            vtkInteractiveChartXYZ.scale]

/-- On the first observed size, once the grow loop has exited with `numSteps = 0`, pass `j`
of the shrink loop tests the scale of pass `j + 1` counted from `InitializeFutureBox`. -/
theorem AnySentinelOutside_after_step_back (r : K) (st : vtkInteractiveChartXYZ K) (j : Nat) :
    (ScaleSteps (pow2 r (-1))
      (ScaleUpAxesCommit r (InitializeFutureBox
        { st with SceneWidth := st.Scene.SceneWidth, SceneHeight := st.Scene.SceneHeight }) 0)
      j).AnySentinelOutside =
    (ScaleSteps (pow2 r (-1)) st.InitializeFutureBox (j + 1)).AnySentinelOutside := by
  rw [ScaleSteps_eq, ScaleSteps_eq]
  apply AnySentinelOutside_congr <;>
    simp [ScaleUpAxesCommit, InitializeFutureBox, Scale_Scale, pow_succ',
      vtkInteractiveChartXYZ.scale]

/-- C9 at a failing input: the first paint of the upright chart from 50 to 450 on a
500×500 canvas (no size recorded yet), `pow(2, 1/10)` taken as `15/14`.  The offset
sentinels start outside the canvas.  `CheckForSceneResize` returns true and records
500×500, but it commits `ZoomAxes(−4)` although the fit was found at five steps, and the
`Box` re-derived from the committed `BoxScale` still has a sentinel outside the canvas. -/
theorem CheckForSceneResize_first_size_leaves_box_too_large :
    (uprightChart 50 450 500 500).SceneWidth ≤ 0 ∧
    ∃ st4, CheckForSceneResize (15 / 14) id 12 (uprightChart 50 450 500 500) = some (st4, true) ∧
      st4.SceneWidth = 500 ∧ st4.SceneHeight = 500 ∧
      st4.BoxScale = ((uprightChart 50 450 500 500).ZoomAxes (15 / 14) (-4)).BoxScale ∧
      (ScaleSteps (pow2 (15 / 14) (-1)) (uprightChart 50 450 500 500).InitializeFutureBox
        5).AnySentinelOutside = false ∧
      ¬ BoxFitsScene st4 := by
  have hs : (0 : ℚ) ≤ pow2 (15 / 14) (-1) := by norm_num [pow2]
  have htoo : (uprightChart 50 450 500 500).InitializeFutureBox.AnySentinelOutside = true :=
    (uprightChart_outside_iff 50 450 500 500 (pow2 (15 / 14) (-1)) 0 (by norm_num) hs).2
      (by norm_num)
  have hfive : (ScaleSteps (pow2 (15 / 14) (-1)) (uprightChart 50 450 500 500).InitializeFutureBox
      5).AnySentinelOutside = false :=
    (uprightChart_inside_iff 50 450 500 500 _ 5 (by norm_num) hs).2 (by norm_num [pow2])
  have hupl : ScaleUpAxesLoop (15 / 14) 12 (InitializeFutureBox
      { uprightChart 50 450 500 500 with SceneWidth := 500, SceneHeight := 500 }) 0 =
      some (InitializeFutureBox
        { uprightChart 50 450 500 500 with SceneWidth := 500, SceneHeight := 500 }, 0) := by
    refine (ScaleUpAxesLoop_eq_some_iff _ _ _ _ _ _).2
      ⟨0, by norm_num, rfl, rfl, fun j hj => absurd hj (Nat.not_lt_zero j), ?_⟩
    rw [ScaleSteps, ← htoo]
    exact AnySentinelOutside_congr _ _ rfl rfl rfl rfl rfl rfl rfl
  have hdl : ScaleDownAxesLoop (15 / 14) 12
      (ScaleUpAxesCommit (15 / 14) (InitializeFutureBox
        { uprightChart 50 450 500 500 with SceneWidth := 500, SceneHeight := 500 }) 0) 0 =
      some (ScaleSteps (pow2 (15 / 14) (-1))
        (ScaleUpAxesCommit (15 / 14) (InitializeFutureBox
          { uprightChart 50 450 500 500 with SceneWidth := 500, SceneHeight := 500 }) 0) 4,
        4) := by
    refine (ScaleDownAxesLoop_eq_some_iff _ _ _ _ _ _).2 ⟨4, by norm_num, rfl, rfl, ?_, ?_⟩
    · intro j hj
      refine (AnySentinelOutside_after_step_back (15 / 14)
        (uprightChart 50 450 500 500) j).trans ?_
      refine (uprightChart_outside_iff 50 450 500 500 _ (j + 1) (by norm_num) hs).2 ?_
      interval_cases j <;> norm_num [pow2]
    · exact (AnySentinelOutside_after_step_back (15 / 14)
        (uprightChart 50 450 500 500) 4).trans hfive
  have hres : CheckForSceneResize (15 / 14) id 12 (uprightChart 50 450 500 500) =
      some (ScaleDownAxesCommit (15 / 14) (ScaleSteps (pow2 (15 / 14) (-1))
        (ScaleUpAxesCommit (15 / 14) (InitializeFutureBox
          { uprightChart 50 450 500 500 with SceneWidth := 500, SceneHeight := 500 }) 0) 4)
        4, true) := by
    have hw : (uprightChart 50 450 500 500).SceneWidth = 0 := rfl
    have hsw : (uprightChart 50 450 500 500).Scene.SceneWidth = 500 := rfl
    have hsh : (uprightChart 50 450 500 500).Scene.SceneHeight = 500 := rfl
    simp only [CheckForSceneResize, hw, hsw, hsh, ScaleUpAxes, hupl, ScaleDownAxes, hdl]
    simp
  have hbug := CheckForSceneResize_first_size_of_too_large (15 / 14) id 12
    (uprightChart 50 450 500 500) _ true (le_refl 0) (Or.inl (by decide)) htoo hres
  refine ⟨le_refl 0, _, hres, hbug.2.1, hbug.2.2.1, ?_, hfive, hbug.2.2.2⟩
  simp [ScaleDownAxesCommit, ZoomAxes, ScaleSteps_eq, ScaleUpAxesCommit, InitializeFutureBox]

/-! ## The camera controller -/

/-- C11: `MouseMoveEvent` routes by button and modifier.  With the left button it performs
`Spin` when the modifier is shift and `Rotate` otherwise; with the right button it performs
`Pan` when the modifier is shift and `Zoom` otherwise; each of the four reports handled.
With any other button the state is returned as it is, so no transform primitive changes,
and the event is reported as not handled. -/
theorem MouseMoveEvent_routes_by_button_and_modifier (m : CMath K)
    (st : vtkInteractiveChartXYZ K) (mouse : vtkContextMouseEvent) :
    (mouse.Button = vtkContextMouseEvent.LEFT_BUTTON →
      mouse.Modifiers = vtkContextMouseEvent.SHIFT_MODIFIER →
      st.MouseMoveEvent m mouse = ((st.Spin m mouse).1, true)) ∧
    (mouse.Button = vtkContextMouseEvent.LEFT_BUTTON →
      mouse.Modifiers ≠ vtkContextMouseEvent.SHIFT_MODIFIER →
      st.MouseMoveEvent m mouse = ((st.Rotate m mouse).1, true)) ∧
    (mouse.Button = vtkContextMouseEvent.RIGHT_BUTTON →
      mouse.Modifiers = vtkContextMouseEvent.SHIFT_MODIFIER →
      st.MouseMoveEvent m mouse = ((st.Pan mouse).1, true)) ∧
    (mouse.Button = vtkContextMouseEvent.RIGHT_BUTTON →
      mouse.Modifiers ≠ vtkContextMouseEvent.SHIFT_MODIFIER →
      st.MouseMoveEvent m mouse = ((st.Zoom m mouse).1, true)) ∧
    (mouse.Button ≠ vtkContextMouseEvent.LEFT_BUTTON →
      mouse.Button ≠ vtkContextMouseEvent.RIGHT_BUTTON →
      st.MouseMoveEvent m mouse = (st, false)) := by
  have hlr : vtkContextMouseEvent.RIGHT_BUTTON ≠ vtkContextMouseEvent.LEFT_BUTTON := by decide
  refine ⟨fun hb hm => ?_, fun hb hm => ?_, fun hb hm => ?_, fun hb hm => ?_, fun hl hr => ?_⟩
  · simp only [MouseMoveEvent, hb, hm, if_true]; rfl
  · simp only [MouseMoveEvent, hb, hm, if_true, if_false]; rfl
  · simp only [MouseMoveEvent, hb, hm, hlr, if_true, if_false]; rfl
  · simp only [MouseMoveEvent, hb, hm, hlr, if_true, if_false]; rfl
  · simp only [MouseMoveEvent, hl, hr, if_false]

/-- C11 on the scenario chart: a left drag with shift, a plain left drag, a right drag with
shift, a plain right drag and a middle-button drag. -/
theorem MouseMoveEvent_routes_by_button_and_modifier_witness :
    scenarioChart.MouseMoveEvent quarterTurnMath ⟨1, 2, ⟨0, 3⟩, ⟨3, 0⟩⟩ =
      ((scenarioChart.Spin quarterTurnMath ⟨1, 2, ⟨0, 3⟩, ⟨3, 0⟩⟩).1, true) ∧
    scenarioChart.MouseMoveEvent quarterTurnMath ⟨1, 0, ⟨0, 3⟩, ⟨3, 0⟩⟩ =
      ((scenarioChart.Rotate quarterTurnMath ⟨1, 0, ⟨0, 3⟩, ⟨3, 0⟩⟩).1, true) ∧
    scenarioChart.MouseMoveEvent quarterTurnMath ⟨4, 2, ⟨0, 3⟩, ⟨3, 0⟩⟩ =
      ((scenarioChart.Pan ⟨4, 2, ⟨0, 3⟩, ⟨3, 0⟩⟩).1, true) ∧
    scenarioChart.MouseMoveEvent quarterTurnMath ⟨4, 0, ⟨0, 3⟩, ⟨3, 0⟩⟩ =
      ((scenarioChart.Zoom quarterTurnMath ⟨4, 0, ⟨0, 3⟩, ⟨3, 0⟩⟩).1, true) ∧
    scenarioChart.MouseMoveEvent quarterTurnMath ⟨2, 2, ⟨0, 3⟩, ⟨3, 0⟩⟩ =
      (scenarioChart, false) :=
  ⟨(MouseMoveEvent_routes_by_button_and_modifier quarterTurnMath scenarioChart
      ⟨1, 2, ⟨0, 3⟩, ⟨3, 0⟩⟩).1 rfl rfl,
   (MouseMoveEvent_routes_by_button_and_modifier quarterTurnMath scenarioChart
      ⟨1, 0, ⟨0, 3⟩, ⟨3, 0⟩⟩).2.1 rfl (by decide),
   (MouseMoveEvent_routes_by_button_and_modifier quarterTurnMath scenarioChart
      ⟨4, 2, ⟨0, 3⟩, ⟨3, 0⟩⟩).2.2.1 rfl rfl,
   (MouseMoveEvent_routes_by_button_and_modifier quarterTurnMath scenarioChart
      ⟨4, 0, ⟨0, 3⟩, ⟨3, 0⟩⟩).2.2.2.1 rfl (by decide),
   (MouseMoveEvent_routes_by_button_and_modifier quarterTurnMath scenarioChart
      ⟨2, 2, ⟨0, 3⟩, ⟨3, 0⟩⟩).2.2.2.2 (by decide) (by decide)⟩

/-- A translation of a transform followed by the opposite translation restores it. -/
theorem Translate_Translate_neg (t : vtkTransform K) (x y z : K) :
    (t.Translate x y z).Translate (-x) (-y) (-z) = t := by
  obtain ⟨m, flag⟩ := t
  cases flag
  · simp only [vtkTransform.Translate, vtkTransform.Concatenate, if_false, Bool.false_eq_true,
      ← mul_assoc, TranslateMatrix_mul, neg_add_cancel, TranslateMatrix_zero, one_mul]
  · simp only [vtkTransform.Translate, vtkTransform.Concatenate, if_true, mul_assoc,
      TranslateMatrix_mul, add_neg_cancel, TranslateMatrix_zero, mul_one]

/-- C12: `Pan` translates `Translation` by the screen delta `(dx, dy, 0)` and leaves
`Rotation`, `Scale` and `BoxScale` as they are; a `Pan` by `(dx, dy)` followed by a `Pan` by
`(−dx, −dy)` leaves `Translation` as it was before the two. -/
theorem Pan_translates_and_round_trips (st : vtkInteractiveChartXYZ K)
    (mouse back : vtkContextMouseEvent)
    (hx : back.ScreenPos.X - back.LastScreenPos.X =
      -(mouse.ScreenPos.X - mouse.LastScreenPos.X))
    (hy : back.ScreenPos.Y - back.LastScreenPos.Y =
      -(mouse.ScreenPos.Y - mouse.LastScreenPos.Y)) :
    (st.Pan mouse).1.Translation =
      st.Translation.Translate ((mouse.ScreenPos.X - mouse.LastScreenPos.X : Int) : K)
        ((mouse.ScreenPos.Y - mouse.LastScreenPos.Y : Int) : K) 0 ∧
    (st.Pan mouse).1.Rotation = st.Rotation ∧
    (st.Pan mouse).1.Scale = st.Scale ∧
    (st.Pan mouse).1.BoxScale = st.BoxScale ∧
    (st.Pan mouse).2 = true ∧
    ((st.Pan mouse).1.Pan back).1.Translation = st.Translation := by
  refine ⟨?_, rfl, rfl, rfl, rfl, ?_⟩
  · simp only [Pan, Int.cast_sub]
  · have hx1 : (back.ScreenPos.X : K) - (back.LastScreenPos.X : K) =
        -((mouse.ScreenPos.X : K) - (mouse.LastScreenPos.X : K)) := by
      exact_mod_cast congrArg (Int.cast : Int → K) hx
    have hy1 : (back.ScreenPos.Y : K) - (back.LastScreenPos.Y : K) =
        -((mouse.ScreenPos.Y : K) - (mouse.LastScreenPos.Y : K)) := by
      exact_mod_cast congrArg (Int.cast : Int → K) hy
    simp only [Pan, hx1, hy1]
    have h := Translate_Translate_neg st.Translation
      ((mouse.ScreenPos.X : K) - (mouse.LastScreenPos.X : K))
      ((mouse.ScreenPos.Y : K) - (mouse.LastScreenPos.Y : K)) 0
    rw [neg_zero] at h
    exact h

/-- C12 on the scenario chart: a drag from (10, 20) to (17, 15) and the drag back. -/
theorem Pan_translates_and_round_trips_witness :
    ((scenarioChart.Pan ⟨4, 2, ⟨17, 15⟩, ⟨10, 20⟩⟩).1.Pan ⟨4, 2, ⟨10, 20⟩, ⟨17, 15⟩⟩).1.Translation =
      scenarioChart.Translation :=
  (Pan_translates_and_round_trips scenarioChart ⟨4, 2, ⟨17, 15⟩, ⟨10, 20⟩⟩
    ⟨4, 2, ⟨10, 20⟩, ⟨17, 15⟩⟩ (by decide) (by decide)).2.2.2.2.2

/-- C13: `MouseWheelEvent` with delta `d` multiplies `Scale` uniformly by `2^(d/10)`, the
`d`-th power of the tenth root `r` of two.  Hence delta `a` then delta `b` leaves `Scale`
as one delta `a + b` does, delta −10 twice as one delta −20, and delta 10 doubles the
scale. -/
theorem MouseWheelEvent_composes (r : K) (h10 : r ^ (10 : Nat) = 2)
    (st : vtkInteractiveChartXYZ K) (a b : Int) :
    (st.MouseWheelEvent r a).1.Scale = st.Scale.Scale (r ^ a) (r ^ a) (r ^ a) ∧
    ((st.MouseWheelEvent r a).1.MouseWheelEvent r b).1.Scale =
      (st.MouseWheelEvent r (a + b)).1.Scale ∧
    ((st.MouseWheelEvent r (-10)).1.MouseWheelEvent r (-10)).1.Scale =
      (st.MouseWheelEvent r (-20)).1.Scale ∧
    (st.MouseWheelEvent r 10).1.Scale = st.Scale.Scale 2 2 2 := by
  have hr : r ≠ 0 := by
    rintro rfl
    norm_num at h10
  have hcomp : ∀ c d : Int, ((st.MouseWheelEvent r c).1.MouseWheelEvent r d).1.Scale =
      (st.MouseWheelEvent r (c + d)).1.Scale := by
    intro c d
    simp only [MouseWheelEvent, pow2, Scale_Scale, zpow_add₀ hr]
  refine ⟨rfl, hcomp a b, hcomp (-10) (-10), ?_⟩
  have h : r ^ (10 : Int) = 2 := by
    rw [← h10]; exact_mod_cast zpow_natCast r 10
  simp only [MouseWheelEvent, pow2, h]

/-- C13 over the reals, with the tenth root of two: wheel deltas 3 and −7. -/
theorem MouseWheelEvent_composes_witness :
    (((blankChart ℝ).MouseWheelEvent ((2 : ℝ) ^ ((1 : ℝ) / 10)) 3).1.MouseWheelEvent
        ((2 : ℝ) ^ ((1 : ℝ) / 10)) (-7)).1.Scale =
      ((blankChart ℝ).MouseWheelEvent ((2 : ℝ) ^ ((1 : ℝ) / 10)) (3 + -7)).1.Scale ∧
    ((blankChart ℝ).MouseWheelEvent ((2 : ℝ) ^ ((1 : ℝ) / 10)) 10).1.Scale =
      (blankChart ℝ).Scale.Scale 2 2 2 :=
  have h10 : ((2 : ℝ) ^ ((1 : ℝ) / 10)) ^ (10 : Nat) = 2 := by
    rw [← Real.rpow_natCast, ← Real.rpow_mul (by norm_num)]
    norm_num
  ⟨(MouseWheelEvent_composes _ h10 (blankChart ℝ) 3 (-7)).2.1,
   (MouseWheelEvent_composes _ h10 (blankChart ℝ) 3 (-7)).2.2.2⟩

/-- A rotation about X applied to a reset transform leaves the rotation matrix itself. -/
theorem Identity_RotateX_Matrix (m : CMath K) (t : vtkTransform K) (angle : K)
    (h : angle ≠ 0) :
    t.Identity.RotateX m angle =
      ⟨RotateXMatrix (m.cosDegrees angle) (m.sinDegrees angle), t.PreMultiplyFlag⟩ := by
  obtain ⟨mat, flag⟩ := t
  cases flag <;>
    simp [vtkTransform.RotateX, vtkTransform.Identity, vtkTransform.Concatenate, h]

/-- A rotation about Y applied to a reset transform leaves the rotation matrix itself. -/
theorem Identity_RotateY_Matrix (m : CMath K) (t : vtkTransform K) (angle : K)
    (h : angle ≠ 0) :
    t.Identity.RotateY m angle =
      ⟨RotateYMatrix (m.cosDegrees angle) (m.sinDegrees angle), t.PreMultiplyFlag⟩ := by
  obtain ⟨mat, flag⟩ := t
  cases flag <;>
    simp [vtkTransform.RotateY, vtkTransform.Identity, vtkTransform.Concatenate, h]

/-- A rotation about Z applied to a reset transform leaves the rotation matrix itself. -/
theorem Identity_RotateZ_Matrix (m : CMath K) (t : vtkTransform K) (angle : K)
    (h : angle ≠ 0) :
    t.Identity.RotateZ m angle =
      ⟨RotateZMatrix (m.cosDegrees angle) (m.sinDegrees angle), t.PreMultiplyFlag⟩ := by
  obtain ⟨mat, flag⟩ := t
  cases flag <;>
    simp [vtkTransform.RotateZ, vtkTransform.Identity, vtkTransform.Concatenate, h]

/-- C14: each view preset leaves in `Rotation` its single fixed rotation, whatever
`Rotation` held before: `LookDownX` the rotation about Y by +90°, `LookUpX` about Y by −90°,
`LookDownY` about X by +90°, `LookUpY` about X by −90°, `LookDownZ` the identity and
`LookUpZ` the rotation about Z by 180°.  Each leaves `Translation`, `Scale` and `BoxScale`
as they are, and each is idempotent: a second application changes nothing but the count of
interaction events sent.  `KeyPressEvent` reaches the six presets by the keys x, X, y, Y,
z, Z. -/
theorem view_presets_fix_Rotation (m : CMath K) (st : vtkInteractiveChartXYZ K) :
    ((st.LookDownX m).Rotation.Matrix = RotateYMatrix (m.cosDegrees 90) (m.sinDegrees 90) ∧
     (st.LookUpX m).Rotation.Matrix = RotateYMatrix (m.cosDegrees (-90)) (m.sinDegrees (-90)) ∧
     (st.LookDownY m).Rotation.Matrix = RotateXMatrix (m.cosDegrees 90) (m.sinDegrees 90) ∧
     (st.LookUpY m).Rotation.Matrix = RotateXMatrix (m.cosDegrees (-90)) (m.sinDegrees (-90)) ∧
     st.LookDownZ.Rotation.Matrix = 1 ∧
     (st.LookUpZ m).Rotation.Matrix = RotateZMatrix (m.cosDegrees 180) (m.sinDegrees 180)) ∧
    (((st.LookDownX m).Translation = st.Translation ∧ (st.LookDownX m).Scale = st.Scale ∧
        (st.LookDownX m).BoxScale = st.BoxScale) ∧
     ((st.LookUpX m).Translation = st.Translation ∧ (st.LookUpX m).Scale = st.Scale ∧
        (st.LookUpX m).BoxScale = st.BoxScale) ∧
     ((st.LookDownY m).Translation = st.Translation ∧ (st.LookDownY m).Scale = st.Scale ∧
        (st.LookDownY m).BoxScale = st.BoxScale) ∧
     ((st.LookUpY m).Translation = st.Translation ∧ (st.LookUpY m).Scale = st.Scale ∧
        (st.LookUpY m).BoxScale = st.BoxScale) ∧
     (st.LookDownZ.Translation = st.Translation ∧ st.LookDownZ.Scale = st.Scale ∧
        st.LookDownZ.BoxScale = st.BoxScale) ∧
     ((st.LookUpZ m).Translation = st.Translation ∧ (st.LookUpZ m).Scale = st.Scale ∧
        (st.LookUpZ m).BoxScale = st.BoxScale)) ∧
    ((st.LookDownX m).LookDownX m =
        { st.LookDownX m with InteractionEvents := st.InteractionEvents + 2 } ∧
     (st.LookUpX m).LookUpX m =
        { st.LookUpX m with InteractionEvents := st.InteractionEvents + 2 } ∧
     (st.LookDownY m).LookDownY m =
        { st.LookDownY m with InteractionEvents := st.InteractionEvents + 2 } ∧
     (st.LookUpY m).LookUpY m =
        { st.LookUpY m with InteractionEvents := st.InteractionEvents + 2 } ∧
     st.LookDownZ.LookDownZ =
        { st.LookDownZ with InteractionEvents := st.InteractionEvents + 2 } ∧
     (st.LookUpZ m).LookUpZ m =
        { st.LookUpZ m with InteractionEvents := st.InteractionEvents + 2 }) ∧
    (st.KeyPressEvent m 'x' = (st.LookDownX m, true) ∧
     st.KeyPressEvent m 'X' = (st.LookUpX m, true) ∧
     st.KeyPressEvent m 'y' = (st.LookDownY m, true) ∧
     st.KeyPressEvent m 'Y' = (st.LookUpY m, true) ∧
     st.KeyPressEvent m 'z' = (st.LookDownZ, true) ∧
     st.KeyPressEvent m 'Z' = (st.LookUpZ m, true)) := by
  have h90 : (90 : K) ≠ 0 := by norm_num
  have hm90 : (-90 : K) ≠ 0 := by norm_num
  have h180 : (180 : K) ≠ 0 := by norm_num
  refine ⟨⟨?_, ?_, ?_, ?_, rfl, ?_⟩,
    ⟨⟨rfl, rfl, rfl⟩, ⟨rfl, rfl, rfl⟩, ⟨rfl, rfl, rfl⟩, ⟨rfl, rfl, rfl⟩, ⟨rfl, rfl, rfl⟩,
      ⟨rfl, rfl, rfl⟩⟩,
    ⟨?_, ?_, ?_, ?_, ?_, ?_⟩, ⟨?_, ?_, ?_, ?_, ?_, ?_⟩⟩
  · simp only [LookDownX, Identity_RotateY_Matrix m _ _ h90]
  · simp only [LookUpX, Identity_RotateY_Matrix m _ _ hm90]
  · simp only [LookDownY, Identity_RotateX_Matrix m _ _ h90]
  · simp only [LookUpY, Identity_RotateX_Matrix m _ _ hm90]
  · simp only [LookUpZ, Identity_RotateZ_Matrix m _ _ h180]
  · simp only [LookDownX, Identity_RotateY_Matrix m _ _ h90]
  · simp only [LookUpX, Identity_RotateY_Matrix m _ _ hm90]
  · simp only [LookDownY, Identity_RotateX_Matrix m _ _ h90]
  · simp only [LookUpY, Identity_RotateX_Matrix m _ _ hm90]
  · simp only [LookDownZ, vtkTransform.Identity]
  · simp only [LookUpZ, Identity_RotateZ_Matrix m _ _ h180]
  all_goals simp [KeyPressEvent]

/-! ## The selection cache -/

/-- The selection loop succeeds when every index is below the point count, and then the
cache has the length of the index list and holds `points[ids[i]]` at every `i`. -/
theorem UpdateSelectedPoints_of_lt {F : Type} (points : List (vtkVector3 F)) :
    ∀ ids : List Nat, (∀ id ∈ ids, id < points.length) →
      ∃ selected, UpdateSelectedPoints points ids = some selected ∧
        selected.length = ids.length ∧
        ∀ i (hi : i < ids.length), selected[i]? = points[ids[i]]? := by
  intro ids
  induction ids with
  | nil => intro _; exact ⟨[], rfl, rfl, fun i hi => absurd hi (Nat.not_lt_zero i)⟩
  | cons id ids ih =>
    intro h
    obtain ⟨sel, hsel, hlen, hget⟩ := ih fun j hj => h j (List.mem_cons_of_mem _ hj)
    have hid : id < points.length := h id (List.mem_cons_self _ _)
    refine ⟨points[id] :: sel, ?_, by simp [hlen], ?_⟩
    · simp [UpdateSelectedPoints, hsel, List.getElem?_eq_getElem hid]
    · intro i hi
      cases i with
      | zero => simp [List.getElem?_eq_getElem hid]
      | succ i =>
        have hi2 : i < ids.length := by simpa using hi
        simpa using hget i hi2

/-- When `Update` reaches its test with the cache build time not above the modification
time of the selection and the chart not modified since the build, it rebuilds nothing:
a selection modified after the build is not looked at. -/
theorem Update_eq_self_of_selection_newer {F : Type} [LinearOrderedField F]
    (st : vtkInteractiveChartXYZ F)
    (selection : vtkSelection) (idArray : vtkIdTypeArray) (rest : List vtkIdTypeArray)
    (hlink : st.Link = some selection) (hnodes : selection.Nodes = idArray :: rest)
    (hnew : st.selectedPointsBuidTime ≤ idArray.MTime)
    (hown : st.MTime ≤ st.selectedPointsBuidTime) :
    st.Update = some st := by
  simp only [Update, hlink, hnodes]
  split
  · rfl
  · rw [if_neg]
    rintro (h | h) <;> omega

/-- When `Update` reaches its test with the cache build time above the modification time
of the selection, or with the chart modified since the build, it rebuilds the cache from
the selection and advances the build time. -/
theorem Update_rebuilds_of_test {F : Type} [LinearOrderedField F]
    (st : vtkInteractiveChartXYZ F)
    (selection : vtkSelection) (idArray : vtkIdTypeArray) (rest : List vtkIdTypeArray)
    (hlink : st.Link = some selection) (hnodes : selection.Nodes = idArray :: rest)
    (hpoints : st.points ≠ [])
    (hids : ∀ id ∈ idArray.Values, id < st.points.length)
    (hclock : st.selectedPointsBuidTime ≤ st.TimeStampCounter)
    (htest : idArray.MTime < st.selectedPointsBuidTime ∨ st.selectedPointsBuidTime < st.MTime) :
    ∃ st1, st.Update = some st1 ∧
      st1.selectedPoints.length = idArray.Values.length ∧
      (∀ i (hi : i < idArray.Values.length),
        st1.selectedPoints[i]? = st.points[idArray.Values[i]]?) ∧
      st.selectedPointsBuidTime < st1.selectedPointsBuidTime := by
  obtain ⟨sel, hsel, hlen, hget⟩ := UpdateSelectedPoints_of_lt st.points idArray.Values hids
  have h : st.Update = some { st with
      selectedPoints := sel
      selectedPointsBuidTime := st.TimeStampCounter + 1
      TimeStampCounter := st.TimeStampCounter + 1 } := by
    simp only [Update, hlink, hnodes, List.isEmpty_eq_true, hpoints, if_false, hsel]
    rw [if_pos]
    exact htest
  exact ⟨_, h, hlen, hget, Nat.lt_succ_of_le hclock⟩

/-- C15 (divergence): on the chart whose linked selection (time 10) was modified after the
last cache build (time 5), with the chart itself unmodified since (time 3), `Update` returns
the state as it is; the cache still holds the point of the earlier selection, not the
points 2 and 0 of the current one, and the build time is still 5. -/
theorem Update_keeps_stale_selection :
    staleSelectionChart.Update = some staleSelectionChart ∧
    staleSelectionChart.selectedPoints = [⟨-1, 0, 0⟩] ∧
    UpdateSelectedPoints staleSelectionChart.points [2, 0] =
      some [⟨0, 0, 0⟩, ⟨1 / 2, 1 / 4, 1⟩] ∧
    staleSelectionChart.selectedPointsBuidTime = 5 :=
  ⟨Update_eq_self_of_selection_newer staleSelectionChart ⟨[⟨[2, 0], 10⟩]⟩ ⟨[2, 0], 10⟩ []
      rfl rfl (by decide) (by decide),
   rfl, rfl, rfl⟩

/-! ## The colour table -/

/-- The loop of `SetInput` appends three entries per value. -/
theorem length_flatMap_triple {α : Type} (f g h : α → Nat) (l : List α) :
    (l.flatMap fun v => [f v, g v, h v]).length = 3 * l.length := by
  induction l with
  | nil => rfl
  | cons a l ih => simp only [List.flatMap_cons, List.length_append, ih, List.length_cons,
      List.length_nil]; omega

/-- With a colour column of as many values as the table has rows, `SetInput` returns; the
point set is the rows of the table, and `Colors` is what it held before the call followed
by three new entries per row. -/
theorem SetInput_Colors (MapValue : K → K → K → Nat × Nat × Nat) (dblMax dblMin : K)
    (st : vtkInteractiveChartXYZ K) (input : vtkTable K) (xName yName zName : String)
    (hcol : input.ColorColumn.length = input.Rows.length) :
    ∃ st1, st.SetInput MapValue dblMax dblMin input xName yName zName = some st1 ∧
      st1.points = input.Rows ∧ st1.NumberOfComponents = 3 ∧
      st1.Colors.length = st.Colors.length + 3 * input.Rows.length ∧
      st1.Colors.take st.Colors.length = st.Colors := by
  have h : (st.SetInput MapValue dblMax dblMin input xName yName zName).isSome = true := by
    simp only [SetInput, SuperclassSetInput, hcol, lt_irrefl, if_false]
    rfl
  obtain ⟨st1, h1⟩ := Option.isSome_iff_exists.mp h
  refine ⟨st1, h1, ?_⟩
  simp only [SetInput, SuperclassSetInput, hcol, lt_irrefl, if_false, Option.some.injEq] at h1
  subst h1
  refine ⟨rfl, rfl, ?_, ?_⟩
  · simp only [List.length_append, length_flatMap_triple, List.length_take, hcol, min_self]
  · simp

/-- C16 (divergence): the scenario chart holds the nine colour entries of a coloured
binding of three rows.  A second `SetInput`, with a colour column on a table of two rows,
returns with two points and fifteen entries in `Colors`, not six; entries 0, 1, 2 are
those of the old first row, not the triple of the new first row, and the two new triples
are at the end. -/
theorem SetInput_appends_to_previous_Colors :
    ∃ st1, scenarioChart.SetInput threeLevelMapValue DBL_MAX DBL_MIN twoRowTable "x" "y" "z" =
        some st1 ∧
      st1.points = [⟨1, 2, 3⟩, ⟨4, 5, 6⟩] ∧ st1.NumberOfComponents = 3 ∧
      st1.Colors.length = 15 ∧
      st1.Colors.take 3 = [10, 11, 12] ∧
      st1.Colors.drop 9 = [255, 255, 255, 0, 0, 0] := by
  have h7 : (7 : ℚ) > DBL_MIN := by norm_num [DBL_MIN]
  have h5 : (5 : ℚ) < DBL_MAX := by norm_num [DBL_MAX]
  have h : ColorRange [(7 : ℚ), 5] (DBL_MAX, DBL_MIN) = (5, 7) := by
    have h57 : ¬ (5 : ℚ) > 7 := by norm_num
    simp only [ColorRange, h7, h5, h57, if_true, if_false]
  refine ⟨_, rfl, rfl, rfl, rfl, rfl, ?_⟩
  simp only [twoRowTable, scenarioChart, SuperclassSetInput]
  norm_num [threeLevelMapValue, h]

/-! ## The Mandelbrot source -/

/-- From the locals after `j` passes the loop of `EvaluateSet` runs on to the first pass
count `t` at which the orbit has escaped or the maximum is reached, given more fuel than
the `t − j` passes still to make. -/
theorem EvaluateSetLoop_LocalsAfter (maxIter : Nat) (hmax : maxIter < 65536) (c z0 : K × K)
    (t : Nat) (ht : t ≤ maxIter)
    (hstop : t = maxIter ∨ 4 ≤ vtkImageMandelbrotSource.magnitude c z0 t) :
    ∀ (fuel j : Nat), j ≤ t → t - j < fuel →
      (∀ n, j ≤ n → n < t → vtkImageMandelbrotSource.magnitude c z0 n < 4) →
      vtkImageMandelbrotSource.EvaluateSetLoop maxIter c.1 c.2 fuel
          (vtkImageMandelbrotSource.LocalsAfter c z0 j) =
        some (vtkImageMandelbrotSource.LocalsAfter c z0 t) := by
  intro fuel
  induction fuel with
  | zero => intro j _ h; exact absurd h (Nat.not_lt_zero _)
  | succ fuel ih =>
    intro j hj hfuel hlow
    rcases Nat.eq_or_lt_of_le hj with rfl | hlt
    · have hcond : ¬ ((vtkImageMandelbrotSource.LocalsAfter c z0 j).v1 < 4 ∧
          (vtkImageMandelbrotSource.LocalsAfter c z0 j).count < maxIter) := by
        rintro ⟨h1, h2⟩
        rcases hstop with h | h
        · exact absurd h2 (by rw [h]; exact lt_irrefl _)
        · exact absurd h1 (not_lt.mpr h)
      rw [vtkImageMandelbrotSource.EvaluateSetLoop, if_neg hcond]
    · have hcond : (vtkImageMandelbrotSource.LocalsAfter c z0 j).v1 < 4 ∧
          (vtkImageMandelbrotSource.LocalsAfter c z0 j).count < maxIter :=
        ⟨hlow j le_rfl hlt, lt_of_lt_of_le hlt ht⟩
      rw [vtkImageMandelbrotSource.EvaluateSetLoop, if_pos hcond]
      have hwrap : (j + 1) % 65536 = j + 1 := Nat.mod_eq_of_lt (by omega)
      have hnext : ({ count := ((vtkImageMandelbrotSource.LocalsAfter c z0 j).count + 1) % 65536
                      v0 := (vtkImageMandelbrotSource.LocalsAfter c z0 j).v1
                      v1 := ((vtkImageMandelbrotSource.LocalsAfter c z0 j).zReal2 -
                              (vtkImageMandelbrotSource.LocalsAfter c z0 j).zImag2 + c.1) *
                            ((vtkImageMandelbrotSource.LocalsAfter c z0 j).zReal2 -
                              (vtkImageMandelbrotSource.LocalsAfter c z0 j).zImag2 + c.1) +
                            (2 * (vtkImageMandelbrotSource.LocalsAfter c z0 j).zReal *
                              (vtkImageMandelbrotSource.LocalsAfter c z0 j).zImag + c.2) *
                            (2 * (vtkImageMandelbrotSource.LocalsAfter c z0 j).zReal *
                              (vtkImageMandelbrotSource.LocalsAfter c z0 j).zImag + c.2)
                      zReal := (vtkImageMandelbrotSource.LocalsAfter c z0 j).zReal2 -
                              (vtkImageMandelbrotSource.LocalsAfter c z0 j).zImag2 + c.1
                      zImag := 2 * (vtkImageMandelbrotSource.LocalsAfter c z0 j).zReal *
                              (vtkImageMandelbrotSource.LocalsAfter c z0 j).zImag + c.2
                      zReal2 := ((vtkImageMandelbrotSource.LocalsAfter c z0 j).zReal2 -
                              (vtkImageMandelbrotSource.LocalsAfter c z0 j).zImag2 + c.1) *
                            ((vtkImageMandelbrotSource.LocalsAfter c z0 j).zReal2 -
                              (vtkImageMandelbrotSource.LocalsAfter c z0 j).zImag2 + c.1)
                      zImag2 := (2 * (vtkImageMandelbrotSource.LocalsAfter c z0 j).zReal *
                              (vtkImageMandelbrotSource.LocalsAfter c z0 j).zImag + c.2) *
                            (2 * (vtkImageMandelbrotSource.LocalsAfter c z0 j).zReal *
                              (vtkImageMandelbrotSource.LocalsAfter c z0 j).zImag + c.2) } :
            vtkImageMandelbrotSource.EvaluateSetLocals K) =
          vtkImageMandelbrotSource.LocalsAfter c z0 (j + 1) := by
        simp only [vtkImageMandelbrotSource.LocalsAfter, hwrap,
          vtkImageMandelbrotSource.previousMagnitude, vtkImageMandelbrotSource.magnitude,
          vtkImageMandelbrotSource.orbit, Nat.add_sub_cancel, Nat.succ_ne_zero, if_false]
      show vtkImageMandelbrotSource.EvaluateSetLoop maxIter c.1 c.2 fuel _ = _
      rw [hnext]
      exact ih (j + 1) hlt (by omega) fun n hn hnt => hlow n (by omega) hnt

/-- C17: `EvaluateSet` returns, with any fuel above the maximum, and its result is the
escape-time reference: with `c = (p[0], p[1])`, `z0 = (p[2], p[3])`, `z(n+1) = z(n)² + c`,
`v(n) = |z(n)|²` and `k` the least `n` with `v(n) ≥ 4`, the maximum when there is no such
`n` below the maximum, and `k + (4 − v(k−1)) / (v(k) − v(k−1))` with `v(−1) = 0` otherwise.
The maximum is an `unsigned short`. -/
theorem EvaluateSet_eq_escapeTimeReference (maxIter : Nat) (hmax : maxIter < 65536)
    (fuel : Nat) (hfuel : maxIter < fuel) (p : Fin 4 → K) :
    vtkImageMandelbrotSource.EvaluateSet maxIter fuel p =
      some (vtkImageMandelbrotSource.escapeTimeReference maxIter (p 0, p 1) (p 2, p 3)) := by
  have hinit : (⟨0, 0, p 2 * p 2 + p 3 * p 3, p 2, p 3, p 2 * p 2, p 3 * p 3⟩ :
        vtkImageMandelbrotSource.EvaluateSetLocals K) =
      vtkImageMandelbrotSource.LocalsAfter (p 0, p 1) (p 2, p 3) 0 := by
    simp only [vtkImageMandelbrotSource.LocalsAfter, vtkImageMandelbrotSource.previousMagnitude,
      vtkImageMandelbrotSource.magnitude, vtkImageMandelbrotSource.orbit, if_true]
  simp only [vtkImageMandelbrotSource.EvaluateSet, hinit,
    vtkImageMandelbrotSource.escapeTimeReference]
  cases hfind : (List.range maxIter).find?
      fun n => decide (4 ≤ vtkImageMandelbrotSource.magnitude (p 0, p 1) (p 2, p 3) n) with
  | none =>
    rw [List.find?_range_eq_none] at hfind
    have hlow : ∀ n, 0 ≤ n → n < maxIter →
        vtkImageMandelbrotSource.magnitude (p 0, p 1) (p 2, p 3) n < 4 := by
      intro n _ hn
      have := hfind n hn
      simpa using this
    have hloop := EvaluateSetLoop_LocalsAfter maxIter hmax (p 0, p 1) (p 2, p 3) maxIter le_rfl
      (Or.inl rfl) fuel 0 (Nat.zero_le _) (by omega) hlow
    simp only [] at hloop
    rw [hloop]
    simp [vtkImageMandelbrotSource.LocalsAfter]
  | some k =>
    rw [List.find?_range_eq_some] at hfind
    obtain ⟨hk, hmem, hmin⟩ := hfind
    have hkmax : k < maxIter := List.mem_range.mp hmem
    have hlow : ∀ n, 0 ≤ n → n < k →
        vtkImageMandelbrotSource.magnitude (p 0, p 1) (p 2, p 3) n < 4 := by
      intro n _ hn
      have := hmin n hn
      simpa using this
    have hloop := EvaluateSetLoop_LocalsAfter maxIter hmax (p 0, p 1) (p 2, p 3) k hkmax.le
      (Or.inr (by simpa using hk)) fuel 0 (Nat.zero_le _) (by omega) hlow
    simp only [] at hloop
    rw [hloop]
    simp [vtkImageMandelbrotSource.LocalsAfter, hkmax.ne]

/-- The orbit of `z0 = 0` under `c = −1` has period two: `0, −1, 0, −1, …`. -/
theorem orbit_periodTwoPoint (n : Nat) :
    vtkImageMandelbrotSource.orbit ((-1 : ℚ), (0 : ℚ)) (0, 0) n =
      if n % 2 = 0 then (0, 0) else (-1, 0) := by
  induction n with
  | zero => rfl
  | succ n ih =>
    rw [vtkImageMandelbrotSource.orbit]
    simp only [ih]
    rcases Nat.mod_two_eq_zero_or_one n with h | h
    · have h2 : (n + 1) % 2 = 1 := by omega
      simp [h, h2]
    · have h2 : (n + 1) % 2 = 0 := by omega
      simp [h, h2]

/-- The point `c = −1`, `z0 = 0` never escapes: the reference is the maximum. -/
theorem escapeTimeReference_periodTwoPoint (maxIter : Nat) :
    vtkImageMandelbrotSource.escapeTimeReference maxIter ((-1 : ℚ), (0 : ℚ)) (0, 0) =
      (maxIter : ℚ) := by
  have hfind : ((List.range maxIter).find? fun n =>
      decide (4 ≤ vtkImageMandelbrotSource.magnitude ((-1 : ℚ), (0 : ℚ)) (0, 0) n)) = none := by
    rw [List.find?_range_eq_none]
    intro i _
    simp only [vtkImageMandelbrotSource.magnitude, orbit_periodTwoPoint]
    split <;> norm_num
  simp only [vtkImageMandelbrotSource.escapeTimeReference, hfind]

/-- C17 at `c = (−1, 0)`, `z0 = (0, 0)` with the maximum 100: the result is exactly 100. -/
theorem EvaluateSet_eq_escapeTimeReference_witness :
    vtkImageMandelbrotSource.EvaluateSet 100 101 vtkImageMandelbrotSource.periodTwoPoint =
      some (100 : ℚ) :=
  (EvaluateSet_eq_escapeTimeReference 100 (by decide) 101 (by decide)
    vtkImageMandelbrotSource.periodTwoPoint).trans
    (congrArg some (escapeTimeReference_periodTwoPoint 100))

/-! ## The orientation of the clipping planes -/

/-- The plane function of each plane at the `Box` image of `(u, v, w)`, in terms of the
determinant `D` of `Box`: `−u·D`, `(1−u)·D`, `v·D`, `(v−1)·D`, `−w·D` and `(1−w)·D`.  The two
planes of a pair of opposite faces have the same normal. -/
theorem SetupClippingPlanes_FunctionValue (st : vtkInteractiveChartXYZ K) (u v w : K) :
    st.SetupClippingPlanes.Face1.FunctionValue (TransformPoint st.Box.Matrix ⟨u, v, w⟩) =
      -u * LinearDeterminant st.Box.Matrix ∧
    st.SetupClippingPlanes.Face2.FunctionValue (TransformPoint st.Box.Matrix ⟨u, v, w⟩) =
      (1 - u) * LinearDeterminant st.Box.Matrix ∧
    st.SetupClippingPlanes.Face3.FunctionValue (TransformPoint st.Box.Matrix ⟨u, v, w⟩) =
      v * LinearDeterminant st.Box.Matrix ∧
    st.SetupClippingPlanes.Face4.FunctionValue (TransformPoint st.Box.Matrix ⟨u, v, w⟩) =
      (v - 1) * LinearDeterminant st.Box.Matrix ∧
    st.SetupClippingPlanes.Face5.FunctionValue (TransformPoint st.Box.Matrix ⟨u, v, w⟩) =
      -w * LinearDeterminant st.Box.Matrix ∧
    st.SetupClippingPlanes.Face6.FunctionValue (TransformPoint st.Box.Matrix ⟨u, v, w⟩) =
      (1 - w) * LinearDeterminant st.Box.Matrix := by
  refine ⟨?_, ?_, ?_, ?_, ?_, ?_⟩ <;>
  · simp only [SetupClippingPlanes, vtkPlane.FunctionValue, LinearDeterminant,
      vtkVector3.dot, vtkVector3.sub, Cross, TransformPoint, cube]
    ring

/-- Each plane built from `Box` contains the four transformed corners of its face. -/
theorem SetupClippingPlanes_contains_corners (st : vtkInteractiveChartXYZ K) :
    (∀ i ∈ ([0, 1, 2, 3] : List (Fin 8)),
      st.SetupClippingPlanes.Face1.FunctionValue (st.BoxCorner i) = 0) ∧
    (∀ i ∈ ([4, 5, 6, 7] : List (Fin 8)),
      st.SetupClippingPlanes.Face2.FunctionValue (st.BoxCorner i) = 0) ∧
    (∀ i ∈ ([0, 1, 4, 5] : List (Fin 8)),
      st.SetupClippingPlanes.Face3.FunctionValue (st.BoxCorner i) = 0) ∧
    (∀ i ∈ ([2, 3, 6, 7] : List (Fin 8)),
      st.SetupClippingPlanes.Face4.FunctionValue (st.BoxCorner i) = 0) ∧
    (∀ i ∈ ([0, 2, 4, 6] : List (Fin 8)),
      st.SetupClippingPlanes.Face5.FunctionValue (st.BoxCorner i) = 0) ∧
    (∀ i ∈ ([1, 3, 5, 7] : List (Fin 8)),
      st.SetupClippingPlanes.Face6.FunctionValue (st.BoxCorner i) = 0) := by
  have h := fun u v w => SetupClippingPlanes_FunctionValue st u v w
  refine ⟨?_, ?_, ?_, ?_, ?_, ?_⟩
  · intro i hi
    simp only [List.mem_cons, List.mem_singleton, List.not_mem_nil, or_false] at hi
    rcases hi with rfl | rfl | rfl | rfl
    · exact (h 0 0 0).1.trans (by ring)
    · exact (h 0 0 1).1.trans (by ring)
    · exact (h 0 1 0).1.trans (by ring)
    · exact (h 0 1 1).1.trans (by ring)
  · intro i hi
    simp only [List.mem_cons, List.mem_singleton, List.not_mem_nil, or_false] at hi
    rcases hi with rfl | rfl | rfl | rfl
    · exact (h 1 0 0).2.1.trans (by ring)
    · exact (h 1 0 1).2.1.trans (by ring)
    · exact (h 1 1 0).2.1.trans (by ring)
    · exact (h 1 1 1).2.1.trans (by ring)
  · intro i hi
    simp only [List.mem_cons, List.mem_singleton, List.not_mem_nil, or_false] at hi
    rcases hi with rfl | rfl | rfl | rfl
    · exact (h 0 0 0).2.2.1.trans (by ring)
    · exact (h 0 0 1).2.2.1.trans (by ring)
    · exact (h 1 0 0).2.2.1.trans (by ring)
    · exact (h 1 0 1).2.2.1.trans (by ring)
  · intro i hi
    simp only [List.mem_cons, List.mem_singleton, List.not_mem_nil, or_false] at hi
    rcases hi with rfl | rfl | rfl | rfl
    · exact (h 0 1 0).2.2.2.1.trans (by ring)
    · exact (h 0 1 1).2.2.2.1.trans (by ring)
    · exact (h 1 1 0).2.2.2.1.trans (by ring)
    · exact (h 1 1 1).2.2.2.1.trans (by ring)
  · intro i hi
    simp only [List.mem_cons, List.mem_singleton, List.not_mem_nil, or_false] at hi
    rcases hi with rfl | rfl | rfl | rfl
    · exact (h 0 0 0).2.2.2.2.1.trans (by ring)
    · exact (h 0 1 0).2.2.2.2.1.trans (by ring)
    · exact (h 1 0 0).2.2.2.2.1.trans (by ring)
    · exact (h 1 1 0).2.2.2.2.1.trans (by ring)
  · intro i hi
    simp only [List.mem_cons, List.mem_singleton, List.not_mem_nil, or_false] at hi
    rcases hi with rfl | rfl | rfl | rfl
    · exact (h 0 0 1).2.2.2.2.2.trans (by ring)
    · exact (h 0 1 1).2.2.2.2.2.trans (by ring)
    · exact (h 1 0 1).2.2.2.2.2.trans (by ring)
    · exact (h 1 1 1).2.2.2.2.2.trans (by ring)

/-- The plane function of each plane at the image of the cube centre: minus half the
determinant of `Box` for `Face1`, `Face4` and `Face5`, plus half of it for `Face2`,
`Face3` and `Face6`. -/
theorem SetupClippingPlanes_FunctionValue_centre (st : vtkInteractiveChartXYZ K) :
    st.SetupClippingPlanes.Face1.FunctionValue st.BoxCentre =
      -(LinearDeterminant st.Box.Matrix / 2) ∧
    st.SetupClippingPlanes.Face2.FunctionValue st.BoxCentre =
      LinearDeterminant st.Box.Matrix / 2 ∧
    st.SetupClippingPlanes.Face3.FunctionValue st.BoxCentre =
      LinearDeterminant st.Box.Matrix / 2 ∧
    st.SetupClippingPlanes.Face4.FunctionValue st.BoxCentre =
      -(LinearDeterminant st.Box.Matrix / 2) ∧
    st.SetupClippingPlanes.Face5.FunctionValue st.BoxCentre =
      -(LinearDeterminant st.Box.Matrix / 2) ∧
    st.SetupClippingPlanes.Face6.FunctionValue st.BoxCentre =
      LinearDeterminant st.Box.Matrix / 2 := by
  obtain ⟨h1, h2, h3, h4, h5, h6⟩ := SetupClippingPlanes_FunctionValue st (1 / 2) (1 / 2) (1 / 2)
  exact ⟨h1.trans (by ring), h2.trans (by ring), h3.trans (by ring), h4.trans (by ring),
    h5.trans (by ring), h6.trans (by ring)⟩

/-- The determinant of the `Box` of a chart with `Rotation` and `BoxScale` at identity is
the product of the three axis extents. -/
theorem LinearDeterminant_CalculateBox_of_identity (st : vtkInteractiveChartXYZ K)
    (hR : st.Rotation.Matrix = 1) (hB : st.BoxScale.Matrix = 1) :
    LinearDeterminant st.CalculateBox.Matrix = st.scale.X * st.scale.Y * st.scale.Z := by
  rw [CalculateBox_Matrix, hR, hB, one_mul, one_mul, TranslateMatrix_mul,
    TranslateMatrix_zero_of_neg, mul_one]
  simp [LinearDeterminant, mul_apply4, TranslateMatrix_apply, ScaleMatrix_apply, mul_assoc]

/-- C18, as stated, fails: the `Box` of the scenario chart is invertible and
orientation-preserving (its determinant is 400³), yet the normal of `Face2` points towards
the image of the cube centre: the plane function there is +32000000, not negative. -/
theorem CalculateTransforms_Face2_faces_inward :
    0 < LinearDeterminant scenarioChart.CalculateTransforms.Box.Matrix ∧
    ¬ scenarioChart.CalculateTransforms.Face2.FunctionValue
        scenarioChart.CalculateTransforms.BoxCentre < 0 := by
  have hD : LinearDeterminant scenarioChart.CalculateTransforms.Box.Matrix = 64000000 := by
    have h := LinearDeterminant_CalculateBox_of_identity scenarioChart rfl rfl
    have hb : scenarioChart.CalculateTransforms.Box.Matrix = scenarioChart.CalculateBox.Matrix :=
      rfl
    rw [hb, h]
    norm_num [vtkInteractiveChartXYZ.scale, scenarioChart]
  have h2 := (SetupClippingPlanes_FunctionValue_centre
    { scenarioChart with ContextTransform := scenarioChart.CalculateContextTransform,
                         Box := scenarioChart.CalculateBox }).2.1
  have h3 : scenarioChart.CalculateTransforms.Face2.FunctionValue
      scenarioChart.CalculateTransforms.BoxCentre =
      LinearDeterminant scenarioChart.CalculateTransforms.Box.Matrix / 2 := h2
  rw [h3, hD]
  norm_num

/-- C18 (amended): after `CalculateTransforms`, for every state, each of the six planes
contains the four transformed corners of its own face (corner sets {0,1,2,3}, {4,5,6,7},
{0,1,4,5}, {2,3,6,7}, {0,2,4,6}, {1,3,5,7}); when `Box` is orientation-preserving the
normals of `Face1`, `Face4` and `Face5` point away from the image of the cube centre
(plane function negative there) and the normals of `Face2`, `Face3` and `Face6` point
towards it (plane function positive there). -/
theorem CalculateTransforms_planes_contain_faces (st : vtkInteractiveChartXYZ K)
    (hD : 0 < LinearDeterminant st.CalculateTransforms.Box.Matrix) :
    ((∀ i ∈ ([0, 1, 2, 3] : List (Fin 8)),
        st.CalculateTransforms.Face1.FunctionValue (st.CalculateTransforms.BoxCorner i) = 0) ∧
     (∀ i ∈ ([4, 5, 6, 7] : List (Fin 8)),
        st.CalculateTransforms.Face2.FunctionValue (st.CalculateTransforms.BoxCorner i) = 0) ∧
     (∀ i ∈ ([0, 1, 4, 5] : List (Fin 8)),
        st.CalculateTransforms.Face3.FunctionValue (st.CalculateTransforms.BoxCorner i) = 0) ∧
     (∀ i ∈ ([2, 3, 6, 7] : List (Fin 8)),
        st.CalculateTransforms.Face4.FunctionValue (st.CalculateTransforms.BoxCorner i) = 0) ∧
     (∀ i ∈ ([0, 2, 4, 6] : List (Fin 8)),
        st.CalculateTransforms.Face5.FunctionValue (st.CalculateTransforms.BoxCorner i) = 0) ∧
     (∀ i ∈ ([1, 3, 5, 7] : List (Fin 8)),
        st.CalculateTransforms.Face6.FunctionValue (st.CalculateTransforms.BoxCorner i) = 0)) ∧
    (st.CalculateTransforms.Face1.FunctionValue st.CalculateTransforms.BoxCentre < 0 ∧
     st.CalculateTransforms.Face4.FunctionValue st.CalculateTransforms.BoxCentre < 0 ∧
     st.CalculateTransforms.Face5.FunctionValue st.CalculateTransforms.BoxCentre < 0) ∧
    (0 < st.CalculateTransforms.Face2.FunctionValue st.CalculateTransforms.BoxCentre ∧
     0 < st.CalculateTransforms.Face3.FunctionValue st.CalculateTransforms.BoxCentre ∧
     0 < st.CalculateTransforms.Face6.FunctionValue st.CalculateTransforms.BoxCentre) := by
  have hc := SetupClippingPlanes_contains_corners
    { st with ContextTransform := st.CalculateContextTransform, Box := st.CalculateBox }
  obtain ⟨h1, h2, h3, h4, h5, h6⟩ := SetupClippingPlanes_FunctionValue_centre
    { st with ContextTransform := st.CalculateContextTransform, Box := st.CalculateBox }
  have hD2 : 0 < LinearDeterminant st.CalculateBox.Matrix := hD
  have hhalf : 0 < LinearDeterminant st.CalculateBox.Matrix / 2 := by positivity
  refine ⟨hc, ⟨?_, ?_, ?_⟩, ⟨?_, ?_, ?_⟩⟩
  · exact lt_of_eq_of_lt h1 (neg_neg_of_pos hhalf)
  · exact lt_of_eq_of_lt h4 (neg_neg_of_pos hhalf)
  · exact lt_of_eq_of_lt h5 (neg_neg_of_pos hhalf)
  · exact lt_of_lt_of_eq hhalf h2.symm
  · exact lt_of_lt_of_eq hhalf h3.symm
  · exact lt_of_lt_of_eq hhalf h6.symm

/-- C18 (amended) on the scenario chart, whose `Box` has the determinant 400³. -/
theorem CalculateTransforms_planes_contain_faces_witness :
    (scenarioChart.CalculateTransforms.Face1.FunctionValue
        scenarioChart.CalculateTransforms.BoxCentre < 0 ∧
     scenarioChart.CalculateTransforms.Face4.FunctionValue
        scenarioChart.CalculateTransforms.BoxCentre < 0 ∧
     scenarioChart.CalculateTransforms.Face5.FunctionValue
        scenarioChart.CalculateTransforms.BoxCentre < 0) ∧
    (0 < scenarioChart.CalculateTransforms.Face2.FunctionValue
        scenarioChart.CalculateTransforms.BoxCentre ∧
     0 < scenarioChart.CalculateTransforms.Face3.FunctionValue
        scenarioChart.CalculateTransforms.BoxCentre ∧
     0 < scenarioChart.CalculateTransforms.Face6.FunctionValue
        scenarioChart.CalculateTransforms.BoxCentre) :=
  have hD : 0 < LinearDeterminant scenarioChart.CalculateTransforms.Box.Matrix := by
    have h := LinearDeterminant_CalculateBox_of_identity scenarioChart rfl rfl
    have hb : scenarioChart.CalculateTransforms.Box.Matrix = scenarioChart.CalculateBox.Matrix :=
      rfl
    rw [hb, h]
    norm_num [vtkInteractiveChartXYZ.scale, scenarioChart]
  (CalculateTransforms_planes_contain_faces scenarioChart hD).2

/-! ## Explicit rescale and recentering -/

/-- What `ScaleUpAxes` leaves alone: the scene size and the recorded size. -/
theorem ScaleUpAxes_sizes (r : K) (fuel : Nat) (st st2 : vtkInteractiveChartXYZ K)
    (h : ScaleUpAxes r fuel st = some st2) :
    st2.Scene.SceneWidth = st.Scene.SceneWidth ∧ st2.Scene.SceneHeight = st.Scene.SceneHeight ∧
    st2.SceneWidth = st.SceneWidth ∧ st2.SceneHeight = st.SceneHeight := by
  cases hloop : ScaleUpAxesLoop r fuel st 0 with
  | none => simp [ScaleUpAxes, hloop] at h
  | some res =>
    obtain ⟨st1, n⟩ := res
    obtain ⟨k, -, -, hst, -, -⟩ := (ScaleUpAxesLoop_eq_some_iff _ _ _ _ _ _).1 hloop
    obtain ⟨st3, h3, -, -, -, -, -, -, -, hw, hh, hrw, hrh⟩ := ScaleUpAxes_of_loop r fuel st st1 n hloop
    rw [h] at h3
    cases h3
    rw [hst, ScaleSteps_eq] at hw hh hrw hrh
    exact ⟨hw, hh, hrw, hrh⟩

/-- What `ScaleDownAxes` leaves alone: the scene size and the recorded size. -/
theorem ScaleDownAxes_sizes (r : K) (fuel : Nat) (st st2 : vtkInteractiveChartXYZ K)
    (h : ScaleDownAxes r fuel st = some st2) :
    st2.Scene.SceneWidth = st.Scene.SceneWidth ∧ st2.Scene.SceneHeight = st.Scene.SceneHeight ∧
    st2.SceneWidth = st.SceneWidth ∧ st2.SceneHeight = st.SceneHeight := by
  cases hloop : ScaleDownAxesLoop r fuel st 0 with
  | none => simp [ScaleDownAxes, hloop] at h
  | some res =>
    obtain ⟨st1, n⟩ := res
    obtain ⟨k, -, -, hst, -, -⟩ := (ScaleDownAxesLoop_eq_some_iff _ _ _ _ _ _).1 hloop
    obtain ⟨st3, h3, -, -, -, -, -, -, -, hw, hh, hrw, hrh⟩ :=
      ScaleDownAxes_of_loop r fuel st st1 n hloop
    rw [h] at h3
    cases h3
    rw [hst, ScaleSteps_eq] at hw hh hrw hrh
    exact ⟨hw, hh, hrw, hrh⟩

/-- With both `int` products in range, `RescaleAxes` is the one search that the comparison
of the areas selects, run from `InitializeFutureBox`, followed by the recording of the
scene size. -/
theorem RescaleAxes_eq (r : K) (fuel : Nat) (st : vtkInteractiveChartXYZ K)
    (hcur : IntProduct st.Scene.SceneWidth st.Scene.SceneHeight =
      some (st.Scene.SceneWidth * st.Scene.SceneHeight))
    (hrec : IntProduct st.SceneWidth st.SceneHeight = some (st.SceneWidth * st.SceneHeight)) :
    RescaleAxes r fuel st =
      (if st.Scene.SceneWidth * st.Scene.SceneHeight < st.SceneWidth * st.SceneHeight then
          st.InitializeFutureBox.ScaleDownAxes r fuel
        else st.InitializeFutureBox.ScaleUpAxes r fuel).map fun st2 =>
        { st2 with SceneWidth := st.Scene.SceneWidth, SceneHeight := st.Scene.SceneHeight } := by
  simp only [RescaleAxes, hcur, hrec]
  split <;> simp_all

/-- C19: with the two `int` areas in range, `RescaleAxes` copies `BoxScale` into the
working scale and is exactly one search from there, `ScaleDownAxes` when the current area
`W'·H'` is below the recorded area `W·H` and `ScaleUpAxes` otherwise, followed by the
recording of `(W', H')`.  Whenever it returns, the recorded size is the scene size and
an immediately following `CheckForSceneResize` returns the state as it is and reports no
change.  It does return, given enough fuel, when the search it runs stops: for the shrink
search when the centre of the axis box is strictly inside the scene, for the grow search
when some sentinel does not project onto the projection of that centre. -/
theorem RescaleAxes_runs_one_search_and_records [Archimedean K] (r : K) (hr : 1 < r)
    (st : vtkInteractiveChartXYZ K)
    (hR : IsAffine st.Rotation.Matrix) (hB : IsAffine st.BoxScale.Matrix)
    (hn : HasNoTranslation st.BoxScale.Matrix)
    (hcur : IntProduct st.Scene.SceneWidth st.Scene.SceneHeight =
      some (st.Scene.SceneWidth * st.Scene.SceneHeight))
    (hrec : IntProduct st.SceneWidth st.SceneHeight = some (st.SceneWidth * st.SceneHeight)) :
    st.InitializeFutureBox.FutureBoxScale = st.BoxScale ∧
    (∀ fuel, RescaleAxes r fuel st =
      (if st.Scene.SceneWidth * st.Scene.SceneHeight < st.SceneWidth * st.SceneHeight then
          st.InitializeFutureBox.ScaleDownAxes r fuel
        else st.InitializeFutureBox.ScaleUpAxes r fuel).map fun st2 =>
        { st2 with SceneWidth := st.Scene.SceneWidth, SceneHeight := st.Scene.SceneHeight }) ∧
    (∀ fuel st1, RescaleAxes r fuel st = some st1 →
      st1.SceneWidth = st.Scene.SceneWidth ∧ st1.SceneHeight = st.Scene.SceneHeight ∧
      st1.Scene.SceneWidth = st.Scene.SceneWidth ∧ st1.Scene.SceneHeight = st.Scene.SceneHeight ∧
      ∀ (RecalculateTransform : vtkInteractiveChartXYZ K → vtkInteractiveChartXYZ K)
        (fuel2 : Nat), CheckForSceneResize r RecalculateTransform fuel2 st1 = some (st1, false)) ∧
    ((if st.Scene.SceneWidth * st.Scene.SceneHeight < st.SceneWidth * st.SceneHeight then
        0 < (AxisBoxCentre st).X ∧ (AxisBoxCentre st).X < (st.Scene.SceneWidth : K) ∧
        0 < (AxisBoxCentre st).Y ∧ (AxisBoxCentre st).Y < (st.Scene.SceneHeight : K)
      else
        ∃ p ∈ st.AxesBoundaryPoints,
          (TransformPoint st.CalculateTransforms.Box.Matrix p).X ≠ (AxisBoxCentre st).X ∨
          (TransformPoint st.CalculateTransforms.Box.Matrix p).Y ≠ (AxisBoxCentre st).Y) →
      ∃ fuel st1, RescaleAxes r fuel st = some st1) := by
  refine ⟨rfl, fun fuel => RescaleAxes_eq r fuel st hcur hrec, ?_, ?_⟩
  · intro fuel st1 h
    rw [RescaleAxes_eq r fuel st hcur hrec] at h
    have hsizes : st1.SceneWidth = st.Scene.SceneWidth ∧ st1.SceneHeight = st.Scene.SceneHeight ∧
        st1.Scene.SceneWidth = st.Scene.SceneWidth ∧
        st1.Scene.SceneHeight = st.Scene.SceneHeight := by
      split at h
      · cases hs : st.InitializeFutureBox.ScaleDownAxes r fuel with
        | none => simp [hs] at h
        | some st2 =>
          obtain ⟨hw, hh, -, -⟩ := ScaleDownAxes_sizes r fuel _ _ hs
          simp only [hs, Option.map_some', Option.some.injEq] at h
          subst h
          exact ⟨rfl, rfl, hw, hh⟩
      · cases hs : st.InitializeFutureBox.ScaleUpAxes r fuel with
        | none => simp [hs] at h
        | some st2 =>
          obtain ⟨hw, hh, -, -⟩ := ScaleUpAxes_sizes r fuel _ _ hs
          simp only [hs, Option.map_some', Option.some.injEq] at h
          subst h
          exact ⟨rfl, rfl, hw, hh⟩
    obtain ⟨h1, h2, h3, h4⟩ := hsizes
    refine ⟨h1, h2, h3, h4, fun RT fuel2 => ?_⟩
    simp only [CheckForSceneResize, h1, h2, h3, h4, ne_eq, not_true_eq_false, or_self, if_false]
  · intro hterm
    split at hterm
    · rename_i hlt
      obtain ⟨hx0, hx1, hy0, hy1⟩ := hterm
      obtain ⟨k, hk⟩ := exists_ScaleSteps_inside r hr st hR hB hn hx0 hx1 hy0 hy1
      obtain ⟨fuel, st1, n, hloop⟩ := ScaleDownAxesLoop_terminates r _ k hk
      obtain ⟨st2, hres, -⟩ := ScaleDownAxes_of_loop r fuel _ _ _ hloop
      exact ⟨fuel, _, by rw [RescaleAxes_eq r fuel st hcur hrec, if_pos hlt, hres]; rfl⟩
    · rename_i hlt
      obtain ⟨p, hp, hne⟩ := hterm
      rw [← InitializeFutureBox_FutureBox_Matrix] at hne
      obtain ⟨k, hk⟩ := exists_ScaleSteps_outside r hr st hR hB hn p hp hne
      obtain ⟨fuel, st1, n, hloop⟩ := ScaleUpAxesLoop_terminates r _ k hk
      obtain ⟨st2, hres, -⟩ := ScaleUpAxes_of_loop r fuel _ _ _ hloop
      exact ⟨fuel, _, by rw [RescaleAxes_eq r fuel st hcur hrec, if_neg hlt, hres]; rfl⟩

/-- C19 on the chart whose scene shrank from 200×200 to 104×104: `RescaleAxes` returns,
and the following `CheckForSceneResize` reports no change. -/
theorem RescaleAxes_runs_one_search_and_records_witness :
    ∃ fuel st1, RescaleAxes (15 / 14) fuel shrunkSceneChart = some st1 ∧
      st1.SceneWidth = 104 ∧ st1.SceneHeight = 104 ∧
      CheckForSceneResize (15 / 14) (fun s => s) 0 st1 = some (st1, false) :=
  have hR : IsAffine shrunkSceneChart.Rotation.Matrix := IsAffine_one
  have hB : IsAffine shrunkSceneChart.BoxScale.Matrix := IsAffine_one
  have hn : HasNoTranslation shrunkSceneChart.BoxScale.Matrix := by
    simp [HasNoTranslation, shrunkSceneChart, uprightChart, InitializeAxesBoundaryPoints,
      scenarioChart]
  have hc : AxisBoxCentre shrunkSceneChart = ⟨52, 52, 52⟩ := by
    ext <;> norm_num [AxisBoxCentre, shrunkSceneChart, uprightChart,
      InitializeAxesBoundaryPoints, vtkInteractiveChartXYZ.scale]
  have h := RescaleAxes_runs_one_search_and_records (15 / 14 : ℚ) (by norm_num)
    shrunkSceneChart hR hB hn (by decide) (by decide)
  have hret := h.2.2.2 (by
    rw [if_pos (by decide), hc]
    norm_num [shrunkSceneChart, uprightChart, InitializeAxesBoundaryPoints])
  hret.elim fun fuel h1 => h1.elim fun st1 hst1 =>
    ⟨fuel, st1, hst1, (h.2.2.1 fuel st1 hst1).1, (h.2.2.1 fuel st1 hst1).2.1,
      (h.2.2.1 fuel st1 hst1).2.2.2.2 (fun s => s) 0⟩

/-- C20: recentering on a plain resize.  `RecalculateTransform`, the superclass method,
is taken not to write the axes, `BoxScale`, `Rotation` or the recorded size.  When the
scene size `(W', H')` differs from the recorded size `(W, H)` and `W > 0`,
`CheckForSceneResize` returns true; with `dx = (W' − W) / 2` and `dy = (H' − H) / 2` in
integer division the axis origin moves from `(axes[0].P1.x, axes[1].P1.y)` to
`(axes[0].P1.x + dx, axes[1].P1.y + dy)`, while the three axis extents, the depth origin
`axes[2].P1.y`, `BoxScale`, `Rotation` and the recorded size stay as they are.  When the
scene size equals the recorded size it returns false with the state as it is. -/
theorem CheckForSceneResize_recenters (r : K)
    (RecalculateTransform : vtkInteractiveChartXYZ K → vtkInteractiveChartXYZ K)
    (hframe : ∀ s, (RecalculateTransform s).axes = s.axes ∧
      (RecalculateTransform s).BoxScale = s.BoxScale ∧
      (RecalculateTransform s).Rotation = s.Rotation ∧
      (RecalculateTransform s).SceneWidth = s.SceneWidth ∧
      (RecalculateTransform s).SceneHeight = s.SceneHeight)
    (fuel : Nat) (st : vtkInteractiveChartXYZ K) :
    (0 < st.SceneWidth →
      (st.SceneWidth ≠ st.Scene.SceneWidth ∨ st.SceneHeight ≠ st.Scene.SceneHeight) →
      ∃ st1, CheckForSceneResize r RecalculateTransform fuel st = some (st1, true) ∧
        (st1.axes 0).Position1.X = (st.axes 0).Position1.X +
          (((st.Scene.SceneWidth - st.SceneWidth).tdiv 2 : Int) : K) ∧
        (st1.axes 1).Position1.Y = (st.axes 1).Position1.Y +
          (((st.Scene.SceneHeight - st.SceneHeight).tdiv 2 : Int) : K) ∧
        st1.scale = st.scale ∧
        (st1.axes 2).Position1.Y = (st.axes 2).Position1.Y ∧
        st1.BoxScale = st.BoxScale ∧ st1.Rotation = st.Rotation ∧
        st1.SceneWidth = st.SceneWidth ∧ st1.SceneHeight = st.SceneHeight) ∧
    (st.SceneWidth = st.Scene.SceneWidth → st.SceneHeight = st.Scene.SceneHeight →
      CheckForSceneResize r RecalculateTransform fuel st = some (st, false)) := by
  constructor
  · intro hpos hdiff
    obtain ⟨haxes, hbox, hrot, hw, hh⟩ := hframe
      (st.ShiftAxes ((st.Scene.SceneWidth - st.SceneWidth).tdiv 2)
        ((st.Scene.SceneHeight - st.SceneHeight).tdiv 2))
    refine ⟨RecalculateTransform
      (st.ShiftAxes ((st.Scene.SceneWidth - st.SceneWidth).tdiv 2)
        ((st.Scene.SceneHeight - st.SceneHeight).tdiv 2)),
      by simp only [CheckForSceneResize, hdiff, if_true, gt_iff_lt, hpos], ?_⟩
    refine ⟨?_, ?_, ?_, ?_, hbox, hrot, hw, hh⟩
    · rw [haxes]; rfl
    · rw [haxes]; rfl
    · have hs : ∀ a b : vtkInteractiveChartXYZ K, a.axes = b.axes → a.scale = b.scale :=
        fun a b h => by simp only [vtkInteractiveChartXYZ.scale, h]
      rw [hs _ _ haxes]
      ext <;> simp [vtkInteractiveChartXYZ.scale, ShiftAxes]
    · rw [haxes]; rfl
  · intro hw hh
    simp only [CheckForSceneResize, hw, hh, ne_eq, not_true_eq_false, or_self, if_false]

/-- C20 on the chart whose scene grew from 400×301 to 500×500: the axis origin moves from
(50, 50) to (100, 149), the shift being (50, 99). -/
theorem CheckForSceneResize_recenters_witness :
    ∃ st1, CheckForSceneResize (15 / 14) (fun s => s) 0 grownSceneChart = some (st1, true) ∧
      (st1.axes 0).Position1.X = 100 ∧ (st1.axes 1).Position1.Y = 149 ∧
      st1.scale = ⟨400, 400, 400⟩ ∧ st1.SceneWidth = 400 ∧ st1.SceneHeight = 301 :=
  ((CheckForSceneResize_recenters (15 / 14 : ℚ) (fun s => s)
      (fun _ => ⟨rfl, rfl, rfl, rfl, rfl⟩) 0 grownSceneChart).1 (by decide)
      (Or.inl (by decide))).elim fun st1 h =>
    ⟨st1, h.1,
      h.2.1.trans (by norm_num [grownSceneChart, uprightChart, InitializeAxesBoundaryPoints,
        Int.tdiv]),
      h.2.2.1.trans (by norm_num [grownSceneChart, uprightChart, InitializeAxesBoundaryPoints,
        Int.tdiv]),
      h.2.2.2.1.trans (by
        ext <;> norm_num [grownSceneChart, uprightChart, InitializeAxesBoundaryPoints,
          vtkInteractiveChartXYZ.scale]),
      h.2.2.2.2.2.2.2.1, h.2.2.2.2.2.2.2.2⟩

/-! ## The threshold and points outside the box -/

/-- The threshold `MaxDistance` is the magnitude of the determinant of `Box`. -/
theorem SetupClippingPlanes_MaxDistance_eq (st : vtkInteractiveChartXYZ K) :
    st.SetupClippingPlanes.MaxDistance = |LinearDeterminant st.Box.Matrix| := by
  have h := (SetupClippingPlanes_FunctionValue st 1 1 1).1
  have hm : st.SetupClippingPlanes.MaxDistance =
      |st.SetupClippingPlanes.Face1.FunctionValue (TransformPoint st.Box.Matrix ⟨1, 1, 1⟩)| := rfl
  rw [hm, h, neg_one_mul, abs_neg]

/-- A matrix whose linear part has a non-zero determinant maps some point onto any given
point (Cramer's rule). -/
theorem exists_TransformPoint_eq (m : vtkMatrix4x4 K) (hD : LinearDeterminant m ≠ 0)
    (y : vtkVector3 K) : ∃ q : vtkVector3 K, TransformPoint m q = y := by
  have hD2 : m 0 0 * (m 1 1 * m 2 2 - m 1 2 * m 2 1) - m 0 1 * (m 1 0 * m 2 2 - m 1 2 * m 2 0) +
      m 0 2 * (m 1 0 * m 2 1 - m 1 1 * m 2 0) ≠ 0 := hD
  refine ⟨⟨((y.X - m 0 3) * (m 1 1 * m 2 2 - m 1 2 * m 2 1) -
              m 0 1 * ((y.Y - m 1 3) * m 2 2 - m 1 2 * (y.Z - m 2 3)) +
              m 0 2 * ((y.Y - m 1 3) * m 2 1 - m 1 1 * (y.Z - m 2 3))) / LinearDeterminant m,
            (m 0 0 * ((y.Y - m 1 3) * m 2 2 - m 1 2 * (y.Z - m 2 3)) -
              (y.X - m 0 3) * (m 1 0 * m 2 2 - m 1 2 * m 2 0) +
              m 0 2 * (m 1 0 * (y.Z - m 2 3) - (y.Y - m 1 3) * m 2 0)) / LinearDeterminant m,
            (m 0 0 * (m 1 1 * (y.Z - m 2 3) - (y.Y - m 1 3) * m 2 1) -
              m 0 1 * (m 1 0 * (y.Z - m 2 3) - (y.Y - m 1 3) * m 2 0) +
              (y.X - m 0 3) * (m 1 0 * m 2 1 - m 1 1 * m 2 0)) / LinearDeterminant m⟩, ?_⟩
  ext
  · simp only [TransformPoint, LinearDeterminant]
    field_simp
    ring
  · simp only [TransformPoint, LinearDeterminant]
    field_simp
    ring
  · simp only [TransformPoint, LinearDeterminant]
    field_simp
    ring

/-- After the planes are set up from an invertible `Box`, a point whose `ContextTransform`
image is the `Box` image of some `(u, v, w)` with a coordinate outside `[0, 1]` is
clipped. -/
theorem PointShouldBeClipped_of_coordinate_outside (st : vtkInteractiveChartXYZ K)
    (hD : LinearDeterminant st.Box.Matrix ≠ 0) (p : vtkVector3 K) (u v w : K)
    (himage : TransformPoint st.ContextTransform.Matrix p = TransformPoint st.Box.Matrix ⟨u, v, w⟩)
    (hout : u < 0 ∨ 1 < u ∨ v < 0 ∨ 1 < v ∨ w < 0 ∨ 1 < w) :
    st.SetupClippingPlanes.PointShouldBeClipped p = true := by
  obtain ⟨d1, d2, d3, d4, d5, d6⟩ := SetupClippingPlanes_distances st u v w
  have hm : 0 < st.SetupClippingPlanes.MaxDistance := by
    rw [SetupClippingPlanes_MaxDistance_eq]; exact abs_pos.2 hD
  have hgt : ∀ t : K, 1 < |t| → |t| * st.SetupClippingPlanes.MaxDistance >
      st.SetupClippingPlanes.MaxDistance := fun t ht => lt_mul_of_one_lt_left hm ht
  have hctx : st.SetupClippingPlanes.ContextTransform.Matrix = st.ContextTransform.Matrix := rfl
  rw [PointShouldBeClipped_eq_true_iff, hctx, himage, d1, d2, d3, d4, d5, d6]
  rcases hout with h | h | h | h | h | h
  · exact Or.inr (Or.inl (hgt (u - 1) (by rw [abs_of_neg (by linarith)]; linarith)))
  · exact Or.inl (hgt u (by rw [abs_of_pos (by linarith)]; exact h))
  · exact Or.inr (Or.inr (Or.inr (Or.inl
      (hgt (v - 1) (by rw [abs_of_neg (by linarith)]; linarith)))))
  · exact Or.inr (Or.inr (Or.inl (hgt v (by rw [abs_of_pos (by linarith)]; exact h))))
  · exact Or.inr (Or.inr (Or.inr (Or.inr (Or.inr
      (hgt (w - 1) (by rw [abs_of_neg (by linarith)]; linarith))))))
  · exact Or.inr (Or.inr (Or.inr (Or.inr (Or.inl
      (hgt w (by rw [abs_of_pos (by linarith)]; exact h))))))

/-- C22: after `CalculateTransforms` with an invertible `Box` (non-zero determinant of
its linear part), every data point whose `ContextTransform` image is not the `Box` image
of any point of the closed unit cube is clipped, whichever of the three axis pairs the
point is outside of. -/
theorem PointShouldBeClipped_of_image_outside_box (st : vtkInteractiveChartXYZ K)
    (hD : LinearDeterminant st.CalculateTransforms.Box.Matrix ≠ 0) (p : vtkVector3 K)
    (hout : ∀ q : vtkVector3 K, (0 ≤ q.X ∧ q.X ≤ 1) → (0 ≤ q.Y ∧ q.Y ≤ 1) →
      (0 ≤ q.Z ∧ q.Z ≤ 1) →
      TransformPoint st.CalculateTransforms.Box.Matrix q ≠
        TransformPoint st.CalculateTransforms.ContextTransform.Matrix p) :
    st.CalculateTransforms.PointShouldBeClipped p = true := by
  obtain ⟨q, hq⟩ := exists_TransformPoint_eq _ hD
    (TransformPoint st.CalculateTransforms.ContextTransform.Matrix p)
  have hcoord : q.X < 0 ∨ 1 < q.X ∨ q.Y < 0 ∨ 1 < q.Y ∨ q.Z < 0 ∨ 1 < q.Z := by
    by_contra hin
    simp only [not_or, not_lt] at hin
    obtain ⟨h1, h2, h3, h4, h5, h6⟩ := hin
    exact hout q ⟨h1, h2⟩ ⟨h3, h4⟩ ⟨h5, h6⟩ hq
  exact PointShouldBeClipped_of_coordinate_outside
    { st with ContextTransform := st.CalculateContextTransform, Box := st.CalculateBox }
    hD p q.X q.Y q.Z hq.symm hcoord

/-- C22 on the scenario chart: the data point `(−1, 0, 0)` is mapped to `(49, 50, 50)`,
left of the box from 50 to 450, and is clipped. -/
theorem PointShouldBeClipped_of_image_outside_box_witness :
    scenarioChart.CalculateTransforms.PointShouldBeClipped ⟨-1, 0, 0⟩ = true :=
  have hb : scenarioChart.CalculateTransforms.Box.Matrix = scenarioChart.CalculateBox.Matrix :=
    rfl
  have hc : scenarioChart.CalculateTransforms.ContextTransform.Matrix =
      scenarioChart.CalculateContextTransform.Matrix := rfl
  have hD : LinearDeterminant scenarioChart.CalculateTransforms.Box.Matrix ≠ 0 := by
    rw [hb, LinearDeterminant_CalculateBox_of_identity scenarioChart rfl rfl]
    norm_num [vtkInteractiveChartXYZ.scale, scenarioChart]
  PointShouldBeClipped_of_image_outside_box scenarioChart hD ⟨-1, 0, 0⟩ (by
    intro q hx _ _ h
    rw [hb, hc, CalculateContextTransform_Matrix_of_identity scenarioChart rfl rfl rfl rfl rfl,
      CalculateBox_TransformPoint_of_identity scenarioChart rfl rfl,
      TransformPoint_TranslateMatrix] at h
    have hX := congrArg vtkVector3.X h
    simp [scenarioChart] at hX
    linarith [hx.1])

/-! ## The uncoloured chart -/

/-- With an empty `Colors` the loop of `UpdateClippedPoints` has no result as soon as there
is a point: its first statement reads `Colors` at the index `i * NumberOfComponents`, before
the point is tested. -/
theorem UpdateClippedPointsLoop_eq_none_of_empty_Colors (st : vtkInteractiveChartXYZ K)
    (hcolors : st.Colors = []) (i : Nat) (p : vtkVector3 K) (ps clipped : List (vtkVector3 K))
    (colors : List Nat) :
    UpdateClippedPointsLoop st i (p :: ps) clipped colors = none := by
  simp [UpdateClippedPointsLoop, hcolors]

/-- In every state with an empty `Colors` and at least one point, `UpdateClippedPoints`
reads outside `Colors`. -/
theorem UpdateClippedPoints_eq_none_of_empty_Colors (st : vtkInteractiveChartXYZ K)
    (hcolors : st.Colors = []) (hpoints : st.points ≠ []) :
    st.UpdateClippedPoints = none := by
  obtain ⟨p, ps, hp⟩ := List.exists_cons_of_ne_nil hpoints
  simp only [UpdateClippedPoints, hp,
    UpdateClippedPointsLoop_eq_none_of_empty_Colors st hcolors 0 p ps [] []]

/-- C21 (divergence): the chart bound without a colour column has two points,
`NumberOfComponents = 0` and an empty `Colors`; `UpdateClippedPoints`, as `Paint` calls it
after `CalculateTransforms`, reads `Colors` at the indices 0, 1 and 2, which are outside the
empty array, so it has no defined result. -/
theorem UpdateClippedPoints_reads_empty_Colors :
    uncolouredChart.points.length = 2 ∧ uncolouredChart.NumberOfComponents = 0 ∧
    uncolouredChart.Colors = [] ∧
    uncolouredChart.CalculateTransforms.Colors[0 * uncolouredChart.NumberOfComponents]? = none ∧
    uncolouredChart.CalculateTransforms.UpdateClippedPoints = none ∧
    uncolouredChart.UpdateClippedPoints = none :=
  ⟨rfl, rfl, rfl, rfl,
    UpdateClippedPoints_eq_none_of_empty_Colors uncolouredChart.CalculateTransforms rfl
      (by simp [uncolouredChart, CalculateTransforms, SetupClippingPlanes, SetInputWithoutColor,
        SuperclassSetInput, twoRowTable]),
    UpdateClippedPoints_eq_none_of_empty_Colors uncolouredChart rfl
      (by simp [uncolouredChart, SetInputWithoutColor, SuperclassSetInput, twoRowTable])⟩

/-! ## The range of the colour column -/

/-- For a single value above `DBL_MIN` the loop of `SetInput` sets only `max`: `min` keeps
its initial value. -/
theorem ColorRange_singleton_of_gt (dblMax dblMin value : K) (h : dblMin < value) :
    ColorRange [value] (dblMax, dblMin) = (dblMax, value) := by
  simp only [ColorRange, gt_iff_lt, h, if_true]

/-- For a single value not above `DBL_MIN` the loop of `SetInput` sets only `min`: `max`
keeps its initial value. -/
theorem ColorRange_singleton_of_le (dblMax dblMin value : K) (h : value ≤ dblMin)
    (hlt : value < dblMax) :
    ColorRange [value] (dblMax, dblMin) = (value, dblMin) := by
  simp only [ColorRange, gt_iff_lt, not_lt.2 h, if_false, hlt, if_true]

/-- While the values increase above the current `max`, the loop of `SetInput` never
writes `min`. -/
theorem ColorRange_fst_of_increasing (min : K) :
    ∀ (values : List K) (max : K), (max :: values).Chain' (fun a b => a < b) →
      (ColorRange values (min, max)).1 = min := by
  intro values
  induction values with
  | nil => intro max _; rfl
  | cons value rest ih =>
    intro max h
    have hlt : max < value := (List.chain'_cons.1 h).1
    simp only [ColorRange, gt_iff_lt, hlt, if_true]
    exact ih value (List.chain'_cons.1 h).2

/-- What `SetInput` hands to the lookup table: every new entry of `Colors` is mapped with
the range that `ColorRange` leaves from `(DBL_MAX, DBL_MIN)`. -/
theorem SetInput_Colors_eq (MapValue : K → K → K → Nat × Nat × Nat) (dblMax dblMin : K)
    (st st1 : vtkInteractiveChartXYZ K) (input : vtkTable K) (xName yName zName : String)
    (h : st.SetInput MapValue dblMax dblMin input xName yName zName = some st1) :
    st1.Colors = st.Colors ++ (input.ColorColumn.take input.Rows.length).flatMap fun value =>
      [(MapValue (ColorRange (input.ColorColumn.take input.Rows.length) (dblMax, dblMin)).1
          (ColorRange (input.ColorColumn.take input.Rows.length) (dblMax, dblMin)).2 value).1,
       (MapValue (ColorRange (input.ColorColumn.take input.Rows.length) (dblMax, dblMin)).1
          (ColorRange (input.ColorColumn.take input.Rows.length) (dblMax, dblMin)).2 value).2.1,
       (MapValue (ColorRange (input.ColorColumn.take input.Rows.length) (dblMax, dblMin)).1
          (ColorRange (input.ColorColumn.take input.Rows.length) (dblMax, dblMin)).2 value).2.2] := by
  simp only [SetInput, SuperclassSetInput] at h
  split at h
  · exact absurd h (by simp)
  · simp only [Option.some.injEq] at h
    subst h
    rfl

/-- C23 (divergence): the range that the loop of `SetInput` leaves.  For the single-row
column `[5]` it is `(DBL_MAX, 5)`, with `min > max`; for the increasing column `[1, 2, 3]`
it is `(DBL_MAX, 3)`; for the column `[−3, −1, −2]` of negative values it is `(−3, DBL_MIN)`,
whose `max` is not a value of the column.  On a fresh chart bound to the increasing column,
`SetInput` maps every row with the range `(DBL_MAX, 3)`: with the three-level table all
three rows come out black, as values at or below `min`. -/
theorem SetInput_range_is_not_min_max :
    (ColorRange [(5 : ℚ)] (DBL_MAX, DBL_MIN) = (DBL_MAX, 5) ∧ ¬ DBL_MAX ≤ (5 : ℚ)) ∧
    ColorRange [(1 : ℚ), 2, 3] (DBL_MAX, DBL_MIN) = (DBL_MAX, 3) ∧
    ColorRange [(-3 : ℚ), -1, -2] (DBL_MAX, DBL_MIN) = (-3, DBL_MIN) ∧
    ∃ st1, (blankChart ℚ).SetInput threeLevelMapValue DBL_MAX DBL_MIN increasingTable
        "x" "y" "z" = some st1 ∧
      st1.Colors = [0, 0, 0, 0, 0, 0, 0, 0, 0] := by
  have hmin0 : (0 : ℚ) < DBL_MIN := by norm_num [DBL_MIN]
  have hmin1 : DBL_MIN < (1 : ℚ) := by norm_num [DBL_MIN]
  have hmax : (5 : ℚ) < DBL_MAX := by norm_num [DBL_MAX]
  have h5 : ColorRange [(5 : ℚ)] (DBL_MAX, DBL_MIN) = (DBL_MAX, 5) :=
    ColorRange_singleton_of_gt _ _ _ (by linarith)
  have h123 : ColorRange [(1 : ℚ), 2, 3] (DBL_MAX, DBL_MIN) = (DBL_MAX, 3) := by
    have h12 : (1 : ℚ) < 2 := by norm_num
    have h23 : (2 : ℚ) < 3 := by norm_num
    simp only [ColorRange, gt_iff_lt, hmin1, h12, h23, if_true]
  have hneg : ColorRange [(-3 : ℚ), -1, -2] (DBL_MAX, DBL_MIN) = (-3, DBL_MIN) := by
    have a1 : ¬ DBL_MIN < (-3 : ℚ) := by linarith
    have a2 : (-3 : ℚ) < DBL_MAX := by linarith
    have a3 : ¬ DBL_MIN < (-1 : ℚ) := by linarith
    have a4 : ¬ (-1 : ℚ) < -3 := by norm_num
    have a5 : ¬ DBL_MIN < (-2 : ℚ) := by linarith
    have a6 : ¬ (-2 : ℚ) < -3 := by norm_num
    simp only [ColorRange, gt_iff_lt, a1, a2, a3, a4, a5, a6, if_true, if_false]
  refine ⟨⟨h5, by linarith⟩, h123, hneg, ?_⟩
  have hret : ((blankChart ℚ).SetInput threeLevelMapValue DBL_MAX DBL_MIN increasingTable
      "x" "y" "z").isSome = true := rfl
  obtain ⟨st1, hst1⟩ := Option.isSome_iff_exists.mp hret
  refine ⟨st1, hst1, ?_⟩
  rw [SetInput_Colors_eq _ _ _ _ _ _ _ _ _ hst1]
  have htake : increasingTable.ColorColumn.take increasingTable.Rows.length = [1, 2, 3] := rfl
  rw [htake, h123]
  have b1 : (1 : ℚ) ≤ DBL_MAX := by linarith
  have b2 : (2 : ℚ) ≤ DBL_MAX := by linarith
  have b3 : (3 : ℚ) ≤ DBL_MAX := by linarith
  simp [threeLevelMapValue, b1, b2, b3, blankChart]

end Theorems

end VTK
